import Mathlib

/-!
Verification development for the TSPP compiler front-end
(repository build-your-own-xyz, directory ts++).

The development is a shallow embedding of the C++ sources:

* namespace `SimpleLexer`  embeds src/lexer/lexer.cpp (together with
  src/lexer/token.h and src/core/error_reporter.h), the lexer used by
  src/main.cpp;
* namespace `SimpleParser` embeds src/parser/parser.cpp and src/parser/ast.h,
  the recursive-descent parser used by src/main.cpp;
* namespace `Vis` embeds the visitor-based front-end:
  src/tokens/stream/token_stream.cpp, the parse visitors under
  src/parser/visitors/parse_visitor/, and the type checker under
  src/parser/visitors/type_check_visitor/.

C++ strings are Lean `String`s, `std::vector` is `List`, null pointers are
`Option`.  Loops are modelled by fuel-indexed structural recursion: every
loop takes an explicit fuel argument and returns its entry state (or a
failure) when the fuel runs out, so that all definitions are executable and
kernel-reducible.  Theorems about loops quantify over the fuel.
-/

set_option maxRecDepth 20000

namespace SimpleLexer

/-- Token kinds of the simple lexer, from src/lexer/token.h. -/
inductive TokenType where
  | LET | CONST | FUNCTION | RETURN | IF | ELSE | WHILE | FOR | DO | BREAK | CONTINUE
  | TYPE_INT | TYPE_FLOAT | TYPE_STRING | TYPE_BOOLEAN | TYPE_NULL | TYPE_UNDEFINED
  | TYPE_IDENTIFIER
  | LEFT_PAREN | RIGHT_PAREN | LEFT_BRACE | RIGHT_BRACE | LEFT_BRACKET | RIGHT_BRACKET
  | NUMBER_LITERAL | STRING_LITERAL | BOOLEAN_LITERAL | NULL_LITERAL | UNDEFINED_LITERAL
  | PLUS | MINUS | MULTIPLY | DIVIDE | MODULO | POWER
  | BITWISE_AND | BITWISE_OR | BITWISE_XOR | BITWISE_NOT | LEFT_SHIFT | RIGHT_SHIFT
  | AND | OR | NOT
  | EQUALS | NOT_EQUALS | LESS_THAN | GREATER_THAN | LESS_EQUAL | GREATER_EQUAL
  | ASSIGN | PLUS_ASSIGN | MINUS_ASSIGN | MULTIPLY_ASSIGN | DIVIDE_ASSIGN | MODULO_ASSIGN
  | AND_ASSIGN | OR_ASSIGN | XOR_ASSIGN | LEFT_SHIFT_ASSIGN | RIGHT_SHIFT_ASSIGN
  | INCREMENT | DECREMENT
  | COMMA | DOT | COLON | SEMICOLON
  | IDENTIFIER | ERROR_TOKEN | END_OF_FILE
deriving DecidableEq, Repr

/-- Token record of src/lexer/token.h: kind, lexeme, 1-based location and an
optional error message (empty when absent). -/
structure Token where
  type : TokenType
  lexeme : String
  line : Nat
  column : Nat
  errorMessage : String := ""
deriving DecidableEq, Repr

/-- Diagnostic record of src/core/error_reporter.h. -/
structure Diagnostic where
  fileName : String
  line : Nat
  column : Nat
  message : String
deriving DecidableEq, Repr

/-- Keyword table of Lexer (src/lexer/lexer.cpp, `Lexer::keywords`). -/
def keywords : String → Option TokenType
  | "let" => some .LET
  | "const" => some .CONST
  | "function" => some .FUNCTION
  | "return" => some .RETURN
  | "if" => some .IF
  | "else" => some .ELSE
  | "int" => some .TYPE_INT
  | "float" => some .TYPE_FLOAT
  | "string" => some .TYPE_STRING
  | "boolean" => some .TYPE_BOOLEAN
  | "null" => some .NULL_LITERAL
  | "undefined" => some .UNDEFINED_LITERAL
  | "true" => some .BOOLEAN_LITERAL
  | "false" => some .BOOLEAN_LITERAL
  | _ => none

/-- Operator table of Lexer (src/lexer/lexer.cpp, `Lexer::operators`). -/
def operators : String → Option TokenType
  | ">>>" => some .RIGHT_SHIFT
  | "<<<" => some .LEFT_SHIFT
  | ">>=" => some .RIGHT_SHIFT_ASSIGN
  | "<<=" => some .LEFT_SHIFT_ASSIGN
  | "++" => some .INCREMENT
  | "--" => some .DECREMENT
  | "&&" => some .AND
  | "||" => some .OR
  | "==" => some .EQUALS
  | "!=" => some .NOT_EQUALS
  | "<=" => some .LESS_EQUAL
  | ">=" => some .GREATER_EQUAL
  | "+=" => some .PLUS_ASSIGN
  | "-=" => some .MINUS_ASSIGN
  | "*=" => some .MULTIPLY_ASSIGN
  | "/=" => some .DIVIDE_ASSIGN
  | "%=" => some .MODULO_ASSIGN
  | "&=" => some .AND_ASSIGN
  | "|=" => some .OR_ASSIGN
  | "^=" => some .XOR_ASSIGN
  | "+" => some .PLUS
  | "-" => some .MINUS
  | "*" => some .MULTIPLY
  | "/" => some .DIVIDE
  | "%" => some .MODULO
  | "^" => some .POWER
  | "&" => some .BITWISE_AND
  | "|" => some .BITWISE_OR
  | "~" => some .BITWISE_NOT
  | "!" => some .NOT
  | "<" => some .LESS_THAN
  | ">" => some .GREATER_THAN
  | "=" => some .ASSIGN
  | _ => none

/-- Mutable state of the Lexer object (fields of class Lexer in
src/lexer/lexer.h), together with the shared ErrorReporter. -/
structure LexState where
  source : List Char
  fileName : String
  position : Nat
  line : Nat
  column : Nat
  tokens : List Token
  lastStatementLine : Nat
  statementStarted : Bool
  errors : List Diagnostic
deriving DecidableEq, Repr

/-- Character access `source_[i]`; out-of-bounds reads return NUL (the C++
code always guards its accesses, so the default is never observable). -/
def charAt (src : List Char) (i : Nat) : Char := src.getD i (Char.ofNat 0)

/-- Lexer::isAtEnd. -/
def isAtEnd (st : LexState) : Bool := decide (st.source.length ≤ st.position)

/-- Lexer::reportError: records the diagnostic and appends an ERROR_TOKEN
carrying the message. -/
def reportError (msg : String) (st : LexState) : LexState :=
  { st with
    errors := st.errors ++ [⟨st.fileName, st.line, st.column, msg⟩],
    tokens := st.tokens ++ [⟨.ERROR_TOKEN, "", st.line, st.column, msg⟩] }

/-- Lexer::isStatementStart. -/
def isStatementStart (t : TokenType) : Bool :=
  t = .LET || t = .CONST || t = .FUNCTION || t = .RETURN || t = .IF || t = .FOR || t = .WHILE

/-- Kind of the last emitted token (`tokens_.back().type`). -/
def lastTokenType (st : LexState) : Option TokenType := st.tokens.getLast?.map (·.type)

/-- Loop body of Lexer::synchronize: skip characters until just past a
semicolon or newline, or until end of input. -/
def lexSynchronizeAux : Nat → LexState → LexState
  | 0, st => st
  | fuel+1, st =>
    if st.position < st.source.length then
      let c := charAt st.source st.position
      if c = ';' || c = '\n' then
        if c = '\n' then
          { st with position := st.position + 1, line := st.line + 1, column := 1 }
        else
          { st with position := st.position + 1, column := st.column + 1 }
      else
        lexSynchronizeAux fuel { st with position := st.position + 1, column := st.column + 1 }
    else st

/-- Lexer::synchronize with sufficient fuel for its bounded scan. -/
def lexSynchronize (st : LexState) : LexState :=
  lexSynchronizeAux (st.source.length + 1 - st.position) st

/-- Message emitted by Lexer::addToken for two statements on one line. -/
def multiStmtMsg : String := "Multiple statements on one line require explicit semicolons"

/-- Lexer::addToken(type, lexeme): multi-statement-per-line detection, then
statement-tracking updates, then emission of the token. -/
def addToken (ty : TokenType) (lexeme : String) (st : LexState) : LexState :=
  if isStatementStart ty ∧ st.statementStarted ∧ st.line = st.lastStatementLine ∧
      (st.tokens.isEmpty ∨ lastTokenType st ≠ some .SEMICOLON) then
    lexSynchronize (reportError multiStmtMsg st)
  else
    let st1 := if isStatementStart ty then
      { st with statementStarted := true, lastStatementLine := st.line } else st
    let st2 := if ty = .SEMICOLON then { st1 with statementStarted := false } else st1
    { st2 with tokens := st2.tokens ++ [⟨ty, lexeme, st2.line, st2.column, ""⟩] }

/-- Length of the run of characters satisfying p starting at index i. -/
def countWhile (p : Char → Bool) (src : List Char) (i : Nat) : Nat :=
  ((src.drop i).takeWhile p).length

/-- Scan of the body of a string literal: mirrors the ECMAScript regex
`"([^"\]|\.)*"` of `Lexer::stringPattern` matched at the opening quote
(both alternatives are prefix-disjoint, so greedy matching is
deterministic; `.` does not match a line terminator).  Returns the index
just past the closing quote. -/
def matchStringEnd : Nat → List Char → Nat → Option Nat
  | 0, _, _ => none
  | fuel+1, src, i =>
    if i < src.length then
      let c := charAt src i
      if c = '"' then some (i+1)
      else if c = '\\' then
        if i + 1 < src.length ∧ charAt src (i+1) ≠ '\n' ∧ charAt src (i+1) ≠ '\r' then
          matchStringEnd fuel src (i+2)
        else none
      else matchStringEnd fuel src (i+1)
    else none

/-- Length of the string-literal match of `Lexer::stringPattern` at i
(including both quotes), if any. -/
def matchStringLen (src : List Char) (i : Nat) : Option Nat :=
  if i < src.length ∧ charAt src i = '"' then
    (matchStringEnd (src.length + 1) src (i+1)).map (fun e => e - i)
  else none

/-- Length of the numeric match of `Lexer::numberPattern`
(`-?\d+(\.\d+)?([eE][+-]?\d+)?`) at i, if any. -/
def matchNumberLen (src : List Char) (i : Nat) : Option Nat :=
  let j := if charAt src i = '-' then i + 1 else i
  let d1 := countWhile Char.isDigit src j
  if d1 = 0 then none
  else
    let k := j + d1
    let fr := countWhile Char.isDigit src (k+1)
    let k2 := if charAt src k = '.' ∧ 0 < fr then k + 1 + fr else k
    let k3 :=
      if charAt src k2 = 'e' ∨ charAt src k2 = 'E' then
        let s := if charAt src (k2+1) = '+' ∨ charAt src (k2+1) = '-' then k2 + 2 else k2 + 1
        let ex := countWhile Char.isDigit src s
        if 0 < ex then s + ex else k2
      else k2
    some (k3 - i)

/-- Char class `\w` of the identifier regex. -/
def isWordChar (c : Char) : Bool := c.isAlphanum || c = '_'

/-- Length of the identifier match of `Lexer::identifierPattern`
(`[a-zA-Z_]\w*`) at i, if any. -/
def matchIdentifierLen (src : List Char) (i : Nat) : Option Nat :=
  if i < src.length ∧ ((charAt src i).isAlpha ∨ charAt src i = '_') then
    some (1 + countWhile isWordChar src (i+1))
  else none

/-- Multi-character alternatives of `Lexer::operatorPattern`, in the order of
the regex alternation (ECMAScript alternation is first-match, left to
right). -/
def opAlternatives : List String :=
  [">>>=", "<<=", ">>=", "++", "--", "&&", "||", "==", "!=", "<=", ">=",
   "+=", "-=", "*=", "/=", "%=", "&=", "|=", "^=", "<<", ">>"]

/-- First alternative that is a prefix of the remaining input. -/
def firstPrefixMatch : List String → List Char → Option String
  | [], _ => none
  | s :: rest, cs => if s.toList.isPrefixOf cs then some s else firstPrefixMatch rest cs

/-- Single-character class of `Lexer::operatorPattern`. -/
def singleOpChars : List Char :=
  ['+', '-', '*', '/', '%', '=', '&', '|', '^', '~', '<', '>', '!']

/-- Operator lexeme matched by `Lexer::operatorPattern` at i, if any. -/
def matchOperatorStr (src : List Char) (i : Nat) : Option String :=
  match firstPrefixMatch opAlternatives (src.drop i) with
  | some s => some s
  | none =>
    let c := charAt src i
    if i < src.length ∧ c ∈ singleOpChars then some (String.singleton c) else none

/-- Escape-sequence processing loop inside the string-literal branch of
Lexer::scanToken.  Returns none on an invalid escape (the branch that
reports "Invalid escape sequence").  A trailing lone backslash cannot be
produced by the string regex, so that case is unreachable. -/
def processEscapes : List Char → Option String
  | [] => some ""
  | '\\' :: c :: rest =>
    match c with
    | 'n' => (processEscapes rest).map (fun s => "\n" ++ s)
    | 't' => (processEscapes rest).map (fun s => "\t" ++ s)
    | 'r' => (processEscapes rest).map (fun s => "\r" ++ s)
    | '\\' => (processEscapes rest).map (fun s => "\\" ++ s)
    | '"' => (processEscapes rest).map (fun s => "\"" ++ s)
    | _ => none
  | '\\' :: [] => none
  | c :: rest => (processEscapes rest).map (fun s => String.singleton c ++ s)

/-- String of the `n` source characters starting at `i`. -/
def lexemeAt (src : List Char) (i n : Nat) : String :=
  String.mk ((src.drop i).take n)

/-- Lexer::scanToken: attempts, in order, a string literal, a number, an
identifier or keyword, an operator, and finally the single-character
tokens.  Note that the invalid-escape branch returns without advancing
`position_`. -/
def scanToken (st : LexState) : LexState :=
  match matchStringLen st.source st.position with
  | some slen =>
    let raw := (st.source.drop st.position).take slen
    let inner := (raw.drop 1).take (slen - 2)
    (match processEscapes inner with
     | none => reportError "Invalid escape sequence" st
     | some processed =>
       let st1 := addToken .STRING_LITERAL processed st
       { st1 with position := st1.position + slen, column := st1.column + slen })
  | none =>
  match matchNumberLen st.source st.position with
  | some nlen =>
    let st1 := addToken .NUMBER_LITERAL (lexemeAt st.source st.position nlen) st
    { st1 with position := st1.position + nlen, column := st1.column + nlen }
  | none =>
  match matchIdentifierLen st.source st.position with
  | some ilen =>
    let idStr := lexemeAt st.source st.position ilen
    let st1 :=
      match keywords idStr with
      | some k => addToken k idStr st
      | none => addToken .IDENTIFIER idStr st
    { st1 with position := st1.position + ilen, column := st1.column + ilen }
  | none =>
  match matchOperatorStr st.source st.position with
  | some op =>
    let st1 :=
      match operators op with
      | some ty => addToken ty op st
      | none => reportError ("Unknown operator: " ++ op) st
    { st1 with position := st1.position + op.length, column := st1.column + op.length }
  | none =>
    let c := charAt st.source st.position
    let st1 :=
      if c = '(' then addToken .LEFT_PAREN "(" st
      else if c = ')' then addToken .RIGHT_PAREN ")" st
      else if c = '{' then addToken .LEFT_BRACE "\x7b" st
      else if c = '}' then addToken .RIGHT_BRACE "\x7d" st
      else if c = '[' then addToken .LEFT_BRACKET "[" st
      else if c = ']' then addToken .RIGHT_BRACKET "]" st
      else if c = ':' then addToken .COLON ":" st
      else if c = ';' then addToken .SEMICOLON ";" st
      else if c = ',' then addToken .COMMA "," st
      else if c = '.' then addToken .DOT "." st
      else reportError ("Unexpected character: \x27" ++ String.singleton c ++ "\x27") st
    { st1 with position := st1.position + 1, column := st1.column + 1 }

/-- Position of the next character at or after q that is not a space or tab
(the lookahead loop in the newline branch of Lexer::skipWhitespace). -/
def asiNextPos (src : List Char) (q : Nat) : Nat :=
  q + countWhile (fun c => c = ' ' || c = '\t') src q

/-- Condition on the lookahead character under which the newline branch
emits a synthetic semicolon: end of input, another newline, a closing
brace, or a semicolon. -/
def asiNextOk (src : List Char) (q : Nat) : Bool :=
  let r := asiNextPos src q
  decide (src.length ≤ r) || charAt src r = '\n' || charAt src r = '}' || charAt src r = ';'

/-- End position of a line comment body starting at i (first newline or end
of input); Lexer::skipWhitespace does not update `column_` here. -/
def lineCommentEnd (src : List Char) (i : Nat) : Nat :=
  i + countWhile (fun c => c ≠ '\n') src i

/-- Scanning loop of the block-comment branch of Lexer::skipWhitespace,
updating position, line and column exactly as the C++ loop does. -/
def blockCommentScan : Nat → List Char → Nat → Nat → Nat → Nat × Nat × Nat
  | 0, _, pos, line, col => (pos, line, col)
  | fuel+1, src, pos, line, col =>
    if pos + 1 < src.length ∧ ¬ (charAt src pos = '*' ∧ charAt src (pos+1) = '/') then
      if charAt src pos = '\n' then blockCommentScan fuel src (pos+1) (line+1) 1
      else blockCommentScan fuel src (pos+1) line (col+1)
    else (pos, line, col)

/-- Loop body of Lexer::skipWhitespace: spaces and tabs, newlines with the
automatic-semicolon-insertion check, line comments and block comments. -/
def skipWsAux : Nat → LexState → LexState
  | 0, st => st
  | fuel+1, st =>
    if st.position < st.source.length then
      let c := charAt st.source st.position
      if c = ' ' || c = '\t' || c = '\r' then
        skipWsAux fuel { st with position := st.position + 1, column := st.column + 1 }
      else if c = '\n' then
        let st1 :=
          if ¬ st.tokens.isEmpty ∧ lastTokenType st ≠ some .SEMICOLON ∧
              asiNextOk st.source (st.position + 1) then
            { st with tokens := st.tokens ++ [⟨.SEMICOLON, ";", st.line, st.column, ""⟩] }
          else st
        skipWsAux fuel { st1 with position := st1.position + 1, line := st1.line + 1, column := 1 }
      else if c = '/' ∧ st.position + 1 < st.source.length ∧
          charAt st.source (st.position + 1) = '/' then
        skipWsAux fuel { st with position := lineCommentEnd st.source (st.position + 2) }
      else if c = '/' ∧ st.position + 1 < st.source.length ∧
          charAt st.source (st.position + 1) = '*' then
        let r := blockCommentScan (st.source.length + 1) st.source (st.position + 2) st.line st.column
        let p3 := if r.1 + 1 < st.source.length then r.1 + 2 else r.1
        skipWsAux fuel { st with position := p3, line := r.2.1, column := r.2.2 }
      else st
    else st

/-- Lexer::skipWhitespace with sufficient fuel for its bounded scan. -/
def skipWhitespace (st : LexState) : LexState :=
  skipWsAux (st.source.length + 1 - st.position) st

/-- One iteration of the tokenize loop:
`skipWhitespace(); if (!isAtEnd()) scanToken();`. -/
def tokStep (st : LexState) : LexState :=
  let st1 := skipWhitespace st
  if isAtEnd st1 then st1 else scanToken st1

/-- Appending the final END_OF_FILE token after the tokenize loop. -/
def finishTokens (st : LexState) : LexState :=
  { st with tokens := st.tokens ++ [⟨.END_OF_FILE, "", st.line, st.column, ""⟩] }

/-- Lexer::tokenize as a fuel-indexed loop; none means the fuel ran out
before the loop exited. -/
def tokenizeAux : Nat → LexState → Option LexState
  | 0, st => if isAtEnd st then some (finishTokens st) else none
  | fuel+1, st => if isAtEnd st then some (finishTokens st) else tokenizeAux fuel (tokStep st)

/-- Initial lexer state built by the Lexer constructor. -/
def initState (source : String) (fileName : String) : LexState :=
  ⟨source.toList, fileName, 0, 1, 1, [], 1, false, []⟩

/-- Lexer::tokenize on a source string.  One fuel unit per input character
suffices for every terminating run, since each loop iteration that is not
the last advances `position_`. -/
def tokenize (source : String) (fileName : String) : Option LexState :=
  tokenizeAux (source.length + 1) (initState source fileName)

end SimpleLexer

namespace SimpleParser

open SimpleLexer (Token TokenType Diagnostic)

/-- Simple-parser AST from src/parser/ast.h.  Every node stores the token the
C++ constructor received.  `var` embeds ast::Variable (renamed: `variable`
is a Lean keyword); `prefixFlag`/`isIncrement` are the flags of
ast::IncrementDecrement. -/
inductive Expr where
  | literal (token : Token) (value : String)
  | var (token : Token) (name : String)
  | assignment (token : Token) (target : Expr) (value : Expr)
  | compoundAssignment (token : Token) (target : Expr) (value : Expr) (op : String)
  | incrementDecrement (token : Token) (operand : Expr) (prefixFlag : Bool) (isIncrement : Bool)
  | binaryOp (token : Token) (left : Expr) (right : Expr)
  | unaryOp (token : Token) (operand : Expr)
  | call (token : Token) (callee : Expr) (arguments : List Expr)

/-- Type nodes of src/parser/ast.h (only ast::BasicType exists). -/
inductive Ty where
  | basicType (token : Token) (name : String)

/-- Statement nodes of src/parser/ast.h. -/
inductive Stmt where
  | varDeclaration (token : Token) (name : String) (type : Ty) (initializer : Option Expr)
      (isConst : Bool)
  | functionDeclaration (token : Token) (name : String) (parameters : List (String × Ty))
      (returnType : Ty) (body : List Stmt)
  | ret (token : Token) (value : Option Expr)
  | ifStmt (token : Token) (condition : Expr) (thenBranch : Stmt) (elseBranch : Option Stmt)
  | expressionStmt (token : Token) (expression : Expr)
  | block (token : Token) (statements : List Stmt)

/-- Parser state: the token vector, the cursor `current_` and the shared
ErrorReporter (fields of class Parser in src/parser/parser.h). -/
structure PState where
  tokens : List Token
  current : Nat
  errors : List Diagnostic

/-- Default token used for (unreachable) out-of-bounds vector accesses. -/
def dummyTok : Token := ⟨.END_OF_FILE, "", 0, 0, ""⟩

/-- Parser::peek. -/
def peek (st : PState) : Token := st.tokens.getD st.current dummyTok

/-- Parser::previous; `tokens_[current_ - 1]` with `current_ = 0` is
undefined behaviour in C++, modelled here by truncated subtraction (it is
never reached: `previous` is only called after an `advance`). -/
def previous (st : PState) : Token := st.tokens.getD (st.current - 1) dummyTok

/-- Parser::isAtEnd. -/
def isAtEnd (st : PState) : Bool := (peek st).type = .END_OF_FILE

/-- Parser::check. -/
def check (ty : TokenType) (st : PState) : Bool :=
  if isAtEnd st then false else (peek st).type = ty

/-- Parser::advance: move forward unless at end, returning `previous()`. -/
def advance (st : PState) : Token × PState :=
  let st1 := if isAtEnd st then st else { st with current := st.current + 1 }
  (previous st1, st1)

/-- Parser::match. -/
def matchT (ty : TokenType) (st : PState) : Bool × PState :=
  if check ty st then (true, (advance st).2) else (false, st)

/-- Sequential `match(t1) || match(t2) || ...` chains. -/
def matchAnyT : List TokenType → PState → Bool × PState
  | [], st => (false, st)
  | ty :: rest, st =>
    let (m, st1) := matchT ty st
    if m then (true, st1) else matchAnyT rest st1

/-- Parser::consume: advance on the expected kind, otherwise throw
ParserError (modelled as `Except.error`). -/
def consume (ty : TokenType) (msg : String) (st : PState) : Except String Token × PState :=
  if check ty st then
    let (t, st1) := advance st
    (.ok t, st1)
  else (.error msg, st)

/-- Loop body of Parser::synchronize. -/
def synchronizeAux : Nat → PState → PState
  | 0, st => st
  | fuel+1, st =>
    if isAtEnd st then st
    else if (previous st).type = .SEMICOLON ∨ (previous st).type = .RIGHT_BRACE then st
    else if (peek st).type = .FUNCTION ∨ (peek st).type = .LET ∨ (peek st).type = .CONST ∨
        (peek st).type = .IF ∨ (peek st).type = .RETURN ∨ (peek st).type = .FOR ∨
        (peek st).type = .WHILE then st
    else synchronizeAux fuel (advance st).2

/-- Parser::synchronize: skip the offending token, then scan to a statement
boundary. -/
def synchronize (st : PState) : PState :=
  synchronizeAux (st.tokens.length + 1) (advance st).2

/-- Parser::error: report to the ErrorReporter (with "parser" as file name)
and throw ParserError. -/
def reportAndThrow (msg : String) (st : PState) : Except String Expr × PState :=
  (.error msg,
   { st with errors := st.errors ++ [⟨"parser", (peek st).line, (peek st).column, msg⟩] })

/-- Check for ast::Variable (the dynamic_pointer_cast in
Parser::assignment). -/
def isVariable : Expr → Bool
  | .var _ _ => true
  | _ => false

mutual

/-- Parser::expression. -/
def expression : Nat → PState → Except String Expr × PState
  | 0, st => (.error "fuel", st)
  | fuel+1, st => assignment fuel st

/-- Parser::assignment. -/
def assignment : Nat → PState → Except String Expr × PState
  | 0, st => (.error "fuel", st)
  | fuel+1, st =>
    match logicalOr fuel st with
    | (.error e, st1) => (.error e, st1)
    | (.ok expr, st1) =>
      let (m, st2) := matchT .ASSIGN st1
      if m then
        let equals := previous st2
        match assignment fuel st2 with
        | (.error e, st3) => (.error e, st3)
        | (.ok value, st3) =>
          if isVariable expr then (.ok (.assignment equals expr value), st3)
          else reportAndThrow "Invalid assignment target." st3
      else
        let (m2, st2b) := matchAnyT [.OR_ASSIGN, .AND_ASSIGN, .XOR_ASSIGN, .LEFT_SHIFT_ASSIGN,
          .RIGHT_SHIFT_ASSIGN, .PLUS_ASSIGN, .MINUS_ASSIGN, .MULTIPLY_ASSIGN, .DIVIDE_ASSIGN,
          .MODULO_ASSIGN] st1
        if m2 then
          let op := previous st2b
          match assignment fuel st2b with
          | (.error e, st3) => (.error e, st3)
          | (.ok value, st3) =>
            if isVariable expr then (.ok (.compoundAssignment op expr value op.lexeme), st3)
            else reportAndThrow "Invalid compound assignment target." st3
        else (.ok expr, st1)

/-- Parser::logicalOr. -/
def logicalOr : Nat → PState → Except String Expr × PState
  | 0, st => (.error "fuel", st)
  | fuel+1, st =>
    match logicalAnd fuel st with
    | (.error e, st1) => (.error e, st1)
    | (.ok expr, st1) => logicalOrLoop fuel expr st1

def logicalOrLoop : Nat → Expr → PState → Except String Expr × PState
  | 0, _, st => (.error "fuel", st)
  | fuel+1, acc, st =>
    let (m, st1) := matchT .OR st
    if m then
      let op := previous st1
      match logicalAnd fuel st1 with
      | (.error e, st2) => (.error e, st2)
      | (.ok right, st2) => logicalOrLoop fuel (.binaryOp op acc right) st2
    else (.ok acc, st)

/-- Parser::logicalAnd. -/
def logicalAnd : Nat → PState → Except String Expr × PState
  | 0, st => (.error "fuel", st)
  | fuel+1, st =>
    match bitOr fuel st with
    | (.error e, st1) => (.error e, st1)
    | (.ok expr, st1) => logicalAndLoop fuel expr st1

def logicalAndLoop : Nat → Expr → PState → Except String Expr × PState
  | 0, _, st => (.error "fuel", st)
  | fuel+1, acc, st =>
    let (m, st1) := matchT .AND st
    if m then
      let op := previous st1
      match bitOr fuel st1 with
      | (.error e, st2) => (.error e, st2)
      | (.ok right, st2) => logicalAndLoop fuel (.binaryOp op acc right) st2
    else (.ok acc, st)

/-- Parser::bitOr. -/
def bitOr : Nat → PState → Except String Expr × PState
  | 0, st => (.error "fuel", st)
  | fuel+1, st =>
    match bitXor fuel st with
    | (.error e, st1) => (.error e, st1)
    | (.ok expr, st1) => bitOrLoop fuel expr st1

def bitOrLoop : Nat → Expr → PState → Except String Expr × PState
  | 0, _, st => (.error "fuel", st)
  | fuel+1, acc, st =>
    let (m, st1) := matchT .BITWISE_OR st
    if m then
      let op := previous st1
      match bitXor fuel st1 with
      | (.error e, st2) => (.error e, st2)
      | (.ok right, st2) => bitOrLoop fuel (.binaryOp op acc right) st2
    else (.ok acc, st)

/-- Parser::bitXor. -/
def bitXor : Nat → PState → Except String Expr × PState
  | 0, st => (.error "fuel", st)
  | fuel+1, st =>
    match bitAnd fuel st with
    | (.error e, st1) => (.error e, st1)
    | (.ok expr, st1) => bitXorLoop fuel expr st1

def bitXorLoop : Nat → Expr → PState → Except String Expr × PState
  | 0, _, st => (.error "fuel", st)
  | fuel+1, acc, st =>
    let (m, st1) := matchT .BITWISE_XOR st
    if m then
      let op := previous st1
      match bitAnd fuel st1 with
      | (.error e, st2) => (.error e, st2)
      | (.ok right, st2) => bitXorLoop fuel (.binaryOp op acc right) st2
    else (.ok acc, st)

/-- Parser::bitAnd. -/
def bitAnd : Nat → PState → Except String Expr × PState
  | 0, st => (.error "fuel", st)
  | fuel+1, st =>
    match shift fuel st with
    | (.error e, st1) => (.error e, st1)
    | (.ok expr, st1) => bitAndLoop fuel expr st1

def bitAndLoop : Nat → Expr → PState → Except String Expr × PState
  | 0, _, st => (.error "fuel", st)
  | fuel+1, acc, st =>
    let (m, st1) := matchT .BITWISE_AND st
    if m then
      let op := previous st1
      match shift fuel st1 with
      | (.error e, st2) => (.error e, st2)
      | (.ok right, st2) => bitAndLoop fuel (.binaryOp op acc right) st2
    else (.ok acc, st)

/-- Parser::shift. -/
def shift : Nat → PState → Except String Expr × PState
  | 0, st => (.error "fuel", st)
  | fuel+1, st =>
    match equality fuel st with
    | (.error e, st1) => (.error e, st1)
    | (.ok expr, st1) => shiftLoop fuel expr st1

def shiftLoop : Nat → Expr → PState → Except String Expr × PState
  | 0, _, st => (.error "fuel", st)
  | fuel+1, acc, st =>
    let (m, st1) := matchAnyT [.LEFT_SHIFT, .RIGHT_SHIFT] st
    if m then
      let op := previous st1
      match equality fuel st1 with
      | (.error e, st2) => (.error e, st2)
      | (.ok right, st2) => shiftLoop fuel (.binaryOp op acc right) st2
    else (.ok acc, st)

/-- Parser::equality. -/
def equality : Nat → PState → Except String Expr × PState
  | 0, st => (.error "fuel", st)
  | fuel+1, st =>
    match comparison fuel st with
    | (.error e, st1) => (.error e, st1)
    | (.ok expr, st1) => equalityLoop fuel expr st1

def equalityLoop : Nat → Expr → PState → Except String Expr × PState
  | 0, _, st => (.error "fuel", st)
  | fuel+1, acc, st =>
    let (m, st1) := matchAnyT [.EQUALS, .NOT_EQUALS] st
    if m then
      let op := previous st1
      match comparison fuel st1 with
      | (.error e, st2) => (.error e, st2)
      | (.ok right, st2) => equalityLoop fuel (.binaryOp op acc right) st2
    else (.ok acc, st)

/-- Parser::comparison. -/
def comparison : Nat → PState → Except String Expr × PState
  | 0, st => (.error "fuel", st)
  | fuel+1, st =>
    match term fuel st with
    | (.error e, st1) => (.error e, st1)
    | (.ok expr, st1) => comparisonLoop fuel expr st1

def comparisonLoop : Nat → Expr → PState → Except String Expr × PState
  | 0, _, st => (.error "fuel", st)
  | fuel+1, acc, st =>
    let (m, st1) := matchAnyT [.LESS_THAN, .GREATER_THAN, .LESS_EQUAL, .GREATER_EQUAL] st
    if m then
      let op := previous st1
      match term fuel st1 with
      | (.error e, st2) => (.error e, st2)
      | (.ok right, st2) => comparisonLoop fuel (.binaryOp op acc right) st2
    else (.ok acc, st)

/-- Parser::term. -/
def term : Nat → PState → Except String Expr × PState
  | 0, st => (.error "fuel", st)
  | fuel+1, st =>
    match factor fuel st with
    | (.error e, st1) => (.error e, st1)
    | (.ok expr, st1) => termLoop fuel expr st1

def termLoop : Nat → Expr → PState → Except String Expr × PState
  | 0, _, st => (.error "fuel", st)
  | fuel+1, acc, st =>
    let (m, st1) := matchAnyT [.PLUS, .MINUS] st
    if m then
      let op := previous st1
      match factor fuel st1 with
      | (.error e, st2) => (.error e, st2)
      | (.ok right, st2) => termLoop fuel (.binaryOp op acc right) st2
    else (.ok acc, st)

/-- Parser::factor. -/
def factor : Nat → PState → Except String Expr × PState
  | 0, st => (.error "fuel", st)
  | fuel+1, st =>
    match unary fuel st with
    | (.error e, st1) => (.error e, st1)
    | (.ok expr, st1) => factorLoop fuel expr st1

def factorLoop : Nat → Expr → PState → Except String Expr × PState
  | 0, _, st => (.error "fuel", st)
  | fuel+1, acc, st =>
    let (m, st1) := matchAnyT [.MULTIPLY, .DIVIDE, .MODULO] st
    if m then
      let op := previous st1
      match unary fuel st1 with
      | (.error e, st2) => (.error e, st2)
      | (.ok right, st2) => factorLoop fuel (.binaryOp op acc right) st2
    else (.ok acc, st)

/-- Parser::unary. -/
def unary : Nat → PState → Except String Expr × PState
  | 0, st => (.error "fuel", st)
  | fuel+1, st =>
    let (m, st1) := matchAnyT [.NOT, .MINUS, .BITWISE_NOT] st
    if m then
      let op := previous st1
      match unary fuel st1 with
      | (.error e, st2) => (.error e, st2)
      | (.ok right, st2) => (.ok (.unaryOp op right), st2)
    else callE fuel st

/-- Parser::call (named callE to avoid clashing with the Expr constructor). -/
def callE : Nat → PState → Except String Expr × PState
  | 0, st => (.error "fuel", st)
  | fuel+1, st =>
    match primary fuel st with
    | (.error e, st1) => (.error e, st1)
    | (.ok expr, st1) => callLoop fuel expr st1

def callLoop : Nat → Expr → PState → Except String Expr × PState
  | 0, _, st => (.error "fuel", st)
  | fuel+1, acc, st =>
    let (m, st1) := matchT .LEFT_PAREN st
    if m then
      match
        (if check .RIGHT_PAREN st1 then ((.ok [] : Except String (List Expr)), st1)
         else callArgsLoop fuel [] st1) with
      | (.error e, st2) => (.error e, st2)
      | (.ok args, st2) =>
        match consume .RIGHT_PAREN "Expect \x27)\x27 after arguments." st2 with
        | (.error e, st3) => (.error e, st3)
        | (.ok _, st3) => callLoop fuel (.call (previous st3) acc args) st3
    else (.ok acc, st)

def callArgsLoop : Nat → List Expr → PState → Except String (List Expr) × PState
  | 0, _, st => (.error "fuel", st)
  | fuel+1, acc, st =>
    match expression fuel st with
    | (.error e, st1) => (.error e, st1)
    | (.ok arg, st1) =>
      let (m, st2) := matchT .COMMA st1
      if m then callArgsLoop fuel (acc ++ [arg]) st2 else (.ok (acc ++ [arg]), st2)

/-- Parser::primary. -/
def primary : Nat → PState → Except String Expr × PState
  | 0, st => (.error "fuel", st)
  | fuel+1, st =>
    let (m1, st1) := matchAnyT [.NUMBER_LITERAL, .STRING_LITERAL, .BOOLEAN_LITERAL] st
    if m1 then (.ok (.literal (previous st1) (previous st1).lexeme), st1)
    else
      let (m2, st2) := matchT .NULL_LITERAL st1
      if m2 then (.ok (.literal (previous st2) "null"), st2)
      else
        let (m3, st3) := matchT .UNDEFINED_LITERAL st2
        if m3 then (.ok (.literal (previous st3) "undefined"), st3)
        else
          let (m4, st4) := matchT .IDENTIFIER st3
          if m4 then (.ok (.var (previous st4) (previous st4).lexeme), st4)
          else
            let (m5, st5) := matchT .LEFT_PAREN st4
            if m5 then
              match expression fuel st5 with
              | (.error e, st6) => (.error e, st6)
              | (.ok expr, st6) =>
                match consume .RIGHT_PAREN "Expect \x27)\x27 after expression." st6 with
                | (.error e, st7) => (.error e, st7)
                | (.ok _, st7) => (.ok expr, st7)
            else (.error "Expect expression.", st5)

/-- Parser::declaration; the catch clause swallows ParserError, synchronizes
and returns the null sentinel without reporting anything. -/
def declaration : Nat → PState → Option Stmt × PState
  | 0, st => (none, synchronize st)
  | fuel+1, st =>
    let inner : Except String Stmt × PState :=
      let (mLet, stA) := matchAnyT [.LET, .CONST] st
      if mLet then varDeclaration fuel stA
      else
        let (mFun, stB) := matchT .FUNCTION stA
        if mFun then functionDeclaration fuel stB
        else statement fuel stB
    match inner with
    | (.ok s, st1) => (some s, st1)
    | (.error _, st1) => (none, synchronize st1)

/-- Parser::varDeclaration; note that the COLON and the type annotation are
mandatory. -/
def varDeclaration : Nat → PState → Except String Stmt × PState
  | 0, st => (.error "fuel", st)
  | fuel+1, st =>
    let isConst := (previous st).type = .CONST
    match consume .IDENTIFIER "Expect variable name." st with
    | (.error e, st1) => (.error e, st1)
    | (.ok name, st1) =>
      match consume .COLON "Expect \x27:\x27 after variable name." st1 with
      | (.error e, st2) => (.error e, st2)
      | (.ok _, st2) =>
        match type fuel st2 with
        | (.error e, st3) => (.error e, st3)
        | (.ok varType, st3) =>
          let (m, st4) := matchT .ASSIGN st3
          let initR : Except String (Option Expr) × PState :=
            if m then
              match expression fuel st4 with
              | (.error e, st5) => (.error e, st5)
              | (.ok v, st5) => (.ok (some v), st5)
            else (.ok none, st4)
          match initR with
          | (.error e, st5) => (.error e, st5)
          | (.ok initializer, st5) =>
            let currentToken := peek st5
            let prevToken := previous st5
            if currentToken.line > prevToken.line ∨ currentToken.type = .END_OF_FILE then
              (.ok (.varDeclaration name name.lexeme varType initializer isConst), st5)
            else
              match consume .SEMICOLON
                  "Expect \x27;\x27 after variable declaration on same line." st5 with
              | (.error e, st6) => (.error e, st6)
              | (.ok _, st6) =>
                (.ok (.varDeclaration name name.lexeme varType initializer isConst), st6)

/-- Parser::functionDeclaration. -/
def functionDeclaration : Nat → PState → Except String Stmt × PState
  | 0, st => (.error "fuel", st)
  | fuel+1, st =>
    match consume .IDENTIFIER "Expect function name." st with
    | (.error e, st1) => (.error e, st1)
    | (.ok name, st1) =>
      match consume .LEFT_PAREN "Expect \x27(\x27 after function name." st1 with
      | (.error e, st2) => (.error e, st2)
      | (.ok _, st2) =>
        match
          (if check .RIGHT_PAREN st2 then ((.ok [] : Except String (List (String × Ty))), st2)
           else funcParamsLoop fuel [] st2) with
        | (.error e, st3) => (.error e, st3)
        | (.ok params, st3) =>
          match consume .RIGHT_PAREN "Expect \x27)\x27 after parameters." st3 with
          | (.error e, st4) => (.error e, st4)
          | (.ok _, st4) =>
            match consume .COLON "Expect \x27:\x27 before return type." st4 with
            | (.error e, st5) => (.error e, st5)
            | (.ok _, st5) =>
              match type fuel st5 with
              | (.error e, st6) => (.error e, st6)
              | (.ok returnType, st6) =>
                match consume .LEFT_BRACE "Expect \x27\x7b\x27 before function body." st6 with
                | (.error e, st7) => (.error e, st7)
                | (.ok _, st7) =>
                  match blockStmts fuel [] st7 with
                  | (.error e, st8) => (.error e, st8)
                  | (.ok body, st8) =>
                    (.ok (.functionDeclaration name name.lexeme params returnType body), st8)

def funcParamsLoop : Nat → List (String × Ty) → PState →
    Except String (List (String × Ty)) × PState
  | 0, _, st => (.error "fuel", st)
  | fuel+1, acc, st =>
    match consume .IDENTIFIER "Expect parameter name." st with
    | (.error e, st1) => (.error e, st1)
    | (.ok paramName, st1) =>
      match consume .COLON "Expect \x27:\x27 after parameter name." st1 with
      | (.error e, st2) => (.error e, st2)
      | (.ok _, st2) =>
        match type fuel st2 with
        | (.error e, st3) => (.error e, st3)
        | (.ok paramType, st3) =>
          let (m, st4) := matchT .COMMA st3
          if m then funcParamsLoop fuel (acc ++ [(paramName.lexeme, paramType)]) st4
          else (.ok (acc ++ [(paramName.lexeme, paramType)]), st4)

/-- Parser::ifStatement. -/
def ifStatement : Nat → PState → Except String Stmt × PState
  | 0, st => (.error "fuel", st)
  | fuel+1, st =>
    match consume .LEFT_PAREN "Expect \x27(\x27 after \x27if\x27." st with
    | (.error e, st1) => (.error e, st1)
    | (.ok _, st1) =>
      match expression fuel st1 with
      | (.error e, st2) => (.error e, st2)
      | (.ok condition, st2) =>
        match consume .RIGHT_PAREN "Expect \x27)\x27 after if condition." st2 with
        | (.error e, st3) => (.error e, st3)
        | (.ok _, st3) =>
          match statement fuel st3 with
          | (.error e, st4) => (.error e, st4)
          | (.ok thenBranch, st4) =>
            let (m, st5) := matchT .ELSE st4
            let elseR : Except String (Option Stmt) × PState :=
              if m then
                match statement fuel st5 with
                | (.error e, st6) => (.error e, st6)
                | (.ok s, st6) => (.ok (some s), st6)
              else (.ok none, st5)
            match elseR with
            | (.error e, st6) => (.error e, st6)
            | (.ok elseBranch, st6) =>
              (.ok (.ifStmt (previous st6) condition thenBranch elseBranch), st6)

/-- Parser::returnStatement. -/
def returnStatement : Nat → PState → Except String Stmt × PState
  | 0, st => (.error "fuel", st)
  | fuel+1, st =>
    let keyword := previous st
    let valueR : Except String (Option Expr) × PState :=
      if ¬ check .SEMICOLON st then
        match expression fuel st with
        | (.error e, st1) => (.error e, st1)
        | (.ok v, st1) => (.ok (some v), st1)
      else (.ok none, st)
    match valueR with
    | (.error e, st1) => (.error e, st1)
    | (.ok value, st1) =>
      match consume .SEMICOLON "Expect \x27;\x27 after return value." st1 with
      | (.error e, st2) => (.error e, st2)
      | (.ok _, st2) => (.ok (.ret keyword value), st2)

/-- Loop body of Parser::block: parse declarations until a closing brace or
end of input, keeping only non-null results. -/
def blockStmts : Nat → List Stmt → PState → Except String (List Stmt) × PState
  | 0, _, st => (.error "fuel", st)
  | fuel+1, acc, st =>
    if (peek st).type = .RIGHT_BRACE ∨ isAtEnd st then
      match consume .RIGHT_BRACE "Expect \x27\x7d\x27 after block." st with
      | (.error e, st1) => (.error e, st1)
      | (.ok _, st1) => (.ok acc, st1)
    else
      let (stmtO, st1) := declaration fuel st
      match stmtO with
      | some s => blockStmts fuel (acc ++ [s]) st1
      | none => blockStmts fuel acc st1

/-- Parser::statement. -/
def statement : Nat → PState → Except String Stmt × PState
  | 0, st => (.error "fuel", st)
  | fuel+1, st =>
    let (mIf, st1) := matchT .IF st
    if mIf then ifStatement fuel st1
    else
      let (mRet, st2) := matchT .RETURN st1
      if mRet then returnStatement fuel st2
      else
        let (mBrace, st3) := matchT .LEFT_BRACE st2
        if mBrace then
          let braceTok := previous st3
          match blockStmts fuel [] st3 with
          | (.error e, st4) => (.error e, st4)
          | (.ok stmts, st4) => (.ok (.block braceTok stmts), st4)
        else expressionStatement fuel st3

/-- Parser::expressionStatement: a semicolon is optional at the end of a line
or of the file, and required otherwise. -/
def expressionStatement : Nat → PState → Except String Stmt × PState
  | 0, st => (.error "fuel", st)
  | fuel+1, st =>
    match expression fuel st with
    | (.error e, st1) => (.error e, st1)
    | (.ok expr, st1) =>
      if isAtEnd st1 ∨ (peek st1).line > (previous st1).line then
        (.ok (.expressionStmt (previous st1) expr), st1)
      else
        let (m, st2) := matchT .SEMICOLON st1
        if ¬ m then (.error "Expect \x27;\x27 after expression on same line.", st2)
        else (.ok (.expressionStmt (previous st2) expr), st2)

/-- Parser::type. -/
def type : Nat → PState → Except String Ty × PState
  | 0, st => (.error "fuel", st)
  | _+1, st =>
    let (m, st1) := matchAnyT [.TYPE_INT, .TYPE_FLOAT, .TYPE_STRING, .TYPE_BOOLEAN] st
    if m then (.ok (.basicType (previous st1) (previous st1).lexeme), st1)
    else (.error "Expect type.", st1)

end

/-- Loop body of Parser::parse; the catch branch mirrors the (dead) handler
that reports a ParserError escaping `declaration()`. -/
def parseAux : Nat → Nat → PState → List (Option Stmt) → List (Option Stmt) × PState
  | 0, _, st, acc => (acc, st)
  | loopFuel+1, fuel, st, acc =>
    if isAtEnd st then (acc, st)
    else
      match declaration fuel st with
      | (stmtO, st1) => parseAux loopFuel fuel st1 (acc ++ [stmtO])

/-- Parser::parse on a token vector. -/
def parse (tokens : List Token) (errors : List Diagnostic) : List (Option Stmt) × PState :=
  let st : PState := ⟨tokens, 0, errors⟩
  parseAux (tokens.length + 1) (tokens.length * 20 + 50) st []

/-- The processCode pipeline of src/main.cpp: lex, then parse only when the
lexer reported no errors.  Returns none only if the (fuel-bounded) lexer
model ran out of fuel, i.e. on inputs where the C++ lexer diverges. -/
def runPipeline (source : String) (fileName : String) :
    Option (List (Option Stmt) × List Diagnostic) :=
  match SimpleLexer.tokenize source fileName with
  | none => none
  | some lexSt =>
    if lexSt.errors.isEmpty then
      let (stmts, pst) := parse lexSt.tokens lexSt.errors
      some (stmts, pst.errors)
    else some ([], lexSt.errors)

/-- Number of VarDecl nodes among the top-level results. -/
def countVarDecls (l : List (Option Stmt)) : Nat :=
  l.countP (fun s =>
    match s with
    | some (.varDeclaration _ _ _ _ _) => true
    | _ => false)

end SimpleParser

namespace Vis

/-- Token kinds of the visitor front-end.  The header tokens/token_type.h is
not part of the sources; the kinds are the ones named by
tokens/stream/token_stream.cpp, the parse visitors and the type checker.
`UNSAFE_KW` stands for the `unsafe` keyword kind. -/
inductive TokenType where
  | LET | CONST | FUNCTION | CLASS | INTERFACE | ENUM
  | IF | ELSE | SWITCH | WHILE | DO | FOR | OF | TRY | CATCH | FINALLY
  | RETURN | BREAK | CONTINUE | THROW | NEW | THIS | CONSTRUCTOR | GET | SET
  | LEFT_PAREN | RIGHT_PAREN | LEFT_BRACE | RIGHT_BRACE | LEFT_BRACKET | RIGHT_BRACKET
  | SEMICOLON | COLON | COMMA | DOT | AT | AMPERSAND | PIPE | LESS | GREATER
  | EQUALS | PLUS_EQUALS | MINUS_EQUALS | STAR_EQUALS | SLASH_EQUALS | PERCENT_EQUALS
  | LESS_EQUALS | GREATER_EQUALS | EQUALS_EQUALS | EXCLAIM_EQUALS
  | PLUS | MINUS | STAR | SLASH | PERCENT | EXCLAIM | TILDE | PLUS_PLUS | MINUS_MINUS
  | AMPERSAND_AMPERSAND | PIPE_PIPE | CARET
  | NUMBER | STRING_LITERAL | CHAR_LITERAL | TRUE | FALSE
  | IDENTIFIER | ATTRIBUTE
  | STACK | HEAP | STATIC | PUBLIC | PRIVATE | PROTECTED
  | INLINE | VIRTUAL | UNSAFE_KW | SIMD | ASYNC
  | ALIGNED | PACKED | ABSTRACT | SHARED | UNIQUE | WEAK
  | VOID | INT | FLOAT | BOOLEAN | STRING
  | ERROR_TOKEN | END_OF_FILE
deriving DecidableEq, Repr

/-- Source location of src/core/common/common_types.h: `(filename, line,
column)`.  The display-only `line_content` field (loaded from disk purely
for error printing) is not modelled.  Equality compares the three fields,
as `SourceLocation::operator==` does. -/
structure SourceLocation where
  filename : String
  line : Nat
  column : Nat
deriving DecidableEq, Repr

/-- Token of the visitor front-end: kind, lexeme, location and the optional
error message of error tokens. -/
structure Token where
  type : TokenType
  lexeme : String
  location : SourceLocation
  errorMessage : Option String := none
deriving DecidableEq, Repr

/-- Severity levels of core::Diagnostic (src/core/diagnostics/error_reporter.h). -/
inductive Severity where
  | error
  | warning
  | info
deriving DecidableEq, Repr

/-- Diagnostic of src/core/diagnostics/error_reporter.h. -/
structure Diagnostic where
  severity : Severity
  location : SourceLocation
  message : String
  code : String := ""
deriving DecidableEq, Repr

/-- core::ErrorReporter: ordered diagnostics plus the error count. -/
structure ErrorReporter where
  diagnostics : List Diagnostic
  errorCount : Nat
deriving DecidableEq, Repr

/-- ErrorReporter::error: append the diagnostic and increment the error
count. -/
def ErrorReporter.error (rep : ErrorReporter) (location : SourceLocation)
    (message : String) (code : String := "") : ErrorReporter :=
  { diagnostics := rep.diagnostics ++ [⟨.error, location, message, code⟩],
    errorCount := rep.errorCount + 1 }

/-- ErrorReporter::hasErrors. -/
def ErrorReporter.hasErrors (rep : ErrorReporter) : Bool := decide (0 < rep.errorCount)

/-- Modelled from the spec: `tokens::isFunctionModifier` is declared in the
missing header tokens/token_type.h; spec section 3.3 lists the function
modifiers as `inline|virtual|unsafe|simd|async`. -/
def isFunctionModifier (t : TokenType) : Bool :=
  t = .INLINE || t = .VIRTUAL || t = .UNSAFE_KW || t = .SIMD || t = .ASYNC

/-- Modelled from the spec: the `TYPE_BEGIN <= t && t <= TYPE_END` range test
of DeclarationParseVisitor::parsePrimaryType lives in the missing header
tokens/token_type.h; spec section 3.3 lists the primitive types as
`void|int|float|bool|string`. -/
def isPrimitiveTypeToken (t : TokenType) : Bool :=
  t = .VOID || t = .INT || t = .FLOAT || t = .BOOLEAN || t = .STRING

/-- Token returned for out-of-range accesses and appended by the TokenStream
constructor when the vector does not end in END_OF_FILE. -/
def eofToken : Token := ⟨.END_OF_FILE, "", ⟨"", 0, 0⟩, none⟩

/-- tokens::TokenStream (src/tokens/stream/token_stream.cpp): the token
vector and the cursor `current_`. -/
structure TokenStream where
  tokens : List Token
  current : Nat
deriving DecidableEq, Repr

/-- TokenStream constructor: ensure the stream ends with an END_OF_FILE
token. -/
def TokenStream.make (ts : List Token) : TokenStream :=
  if ts.isEmpty ∨ (ts.getLast?.map (·.type)) ≠ some .END_OF_FILE then ⟨ts ++ [eofToken], 0⟩
  else ⟨ts, 0⟩

/-- `tokens_.back()`; the vector is never empty after construction. -/
def TokenStream.back (s : TokenStream) : Token := s.tokens.getLastD eofToken

/-- TokenStream::peek. -/
def TokenStream.peek (s : TokenStream) : Token :=
  if s.tokens.length ≤ s.current then s.back else s.tokens.getD s.current eofToken

/-- TokenStream::peekNext (a non-positive lookahead is treated as 1). -/
def TokenStream.peekNext (s : TokenStream) (n : Nat := 1) : Token :=
  let n := if n = 0 then 1 else n
  if s.tokens.length ≤ s.current + n then s.back else s.tokens.getD (s.current + n) eofToken

/-- TokenStream::previous: first token at the start, EOF beyond the end. -/
def TokenStream.previous (s : TokenStream) : Token :=
  if s.current = 0 then s.tokens.getD 0 eofToken
  else if s.tokens.length ≤ s.current then s.back
  else s.tokens.getD (s.current - 1) eofToken

/-- TokenStream::isAtEnd: at the last slot, or on an END_OF_FILE token. -/
def TokenStream.isAtEnd (s : TokenStream) : Bool :=
  decide (s.tokens.length - 1 ≤ s.current) || (s.tokens.getD s.current eofToken).type = .END_OF_FILE

/-- TokenStream::advance: move forward unless at end, returning
`previous()`. -/
def TokenStream.advance (s : TokenStream) : Token × TokenStream :=
  let s1 := if s.isAtEnd then s else { s with current := s.current + 1 }
  (s1.previous, s1)

/-- TokenStream::check. -/
def TokenStream.check (s : TokenStream) (ty : TokenType) : Bool :=
  if s.isAtEnd then false else s.peek.type = ty

/-- TokenStream::match. -/
def TokenStream.matchTok (s : TokenStream) (ty : TokenType) : Bool × TokenStream :=
  if s.check ty then (true, (s.advance).2) else (false, s)

/-- TokenStream::matchAny. -/
def TokenStream.matchAny (s : TokenStream) : List TokenType → Bool × TokenStream
  | [] => (false, s)
  | ty :: rest =>
    let (m, s1) := s.matchTok ty
    if m then (true, s1) else s1.matchAny rest

/-- TokenStream::setPosition: clamp to the last valid slot. -/
def TokenStream.setPosition (s : TokenStream) (position : Nat) : TokenStream :=
  if position < s.tokens.length then { s with current := position }
  else { s with current := s.tokens.length - 1 }

/-- Scanning loop of TokenStream::synchronize: stop just after a SEMICOLON
or in front of FUNCTION, LET, FOR, IF, WHILE or RETURN. -/
def tsSynchronizeAux : Nat → TokenStream → TokenStream
  | 0, s => s
  | fuel+1, s =>
    if s.isAtEnd then s
    else if s.previous.type = .SEMICOLON then s
    else if s.peek.type = .FUNCTION ∨ s.peek.type = .LET ∨ s.peek.type = .FOR ∨
        s.peek.type = .IF ∨ s.peek.type = .WHILE ∨ s.peek.type = .RETURN then s
    else tsSynchronizeAux fuel (s.advance).2

/-- TokenStream::synchronize: skip the current token, then scan to a
synchronisation point. -/
def TokenStream.synchronize (s : TokenStream) : TokenStream :=
  tsSynchronizeAux (s.tokens.length + 1) (s.advance).2

/-- Modelled from the spec: the synchronisation procedure exactly as claim C5
and spec section 4.3 word it, with the full stop set
`function|let|const|class|if|while|for|return`.  This definition exists
only to be compared against `TokenStream.synchronize` above. -/
def tsSynchronizeSpecAux : Nat → TokenStream → TokenStream
  | 0, s => s
  | fuel+1, s =>
    if s.isAtEnd then s
    else if s.previous.type = .SEMICOLON then s
    else if s.peek.type = .FUNCTION ∨ s.peek.type = .LET ∨ s.peek.type = .CONST ∨
        s.peek.type = .CLASS ∨ s.peek.type = .IF ∨ s.peek.type = .WHILE ∨
        s.peek.type = .FOR ∨ s.peek.type = .RETURN then s
    else tsSynchronizeSpecAux fuel (s.advance).2

/-- Modelled from the spec: wrapper of the claim-version synchronisation. -/
def synchronizeSpec (s : TokenStream) : TokenStream :=
  tsSynchronizeSpecAux (s.tokens.length + 1) (s.advance).2

end Vis

namespace Vis

/-- Pointer kinds of nodes::PointerTypeNode (src/parser/nodes/type_nodes.h). -/
inductive PointerKind where
  | raw
  | unsafeKind
  | alignedKind
deriving DecidableEq, Repr

/-- Smart-pointer kinds of nodes::SmartPointerTypeNode. -/
inductive SmartPointerKind where
  | shared
  | unique
  | weak
deriving DecidableEq, Repr

mutual

/-- Expression nodes of the visitor AST.  The header expression_nodes.h is
not part of the sources; each constructor mirrors the constructor calls in
the parse visitors and the accessors used by the type checker, with the
location first as in those calls.  `prefixFlag` is the isPrefix flag of
UnaryExpressionNode. -/
inductive Expr where
  | identifier (loc : SourceLocation) (name : String)
  | literal (loc : SourceLocation) (type : TokenType) (value : String)
  | binary (loc : SourceLocation) (op : TokenType) (left : Expr) (right : Expr)
  | unary (loc : SourceLocation) (op : TokenType) (operand : Expr) (prefixFlag : Bool)
  | assignment (loc : SourceLocation) (op : TokenType) (target : Expr) (value : Expr)
  | callExpr (loc : SourceLocation) (callee : Expr) (arguments : List Expr)
  | member (loc : SourceLocation) (object : Expr) (memberName : String) (isPointer : Bool)
  | index (loc : SourceLocation) (array : Expr) (idx : Expr)
  | arrayLiteral (loc : SourceLocation) (elements : List Expr)
  | newExpr (loc : SourceLocation) (className : String) (arguments : List Expr)
  | castExpr (loc : SourceLocation) (targetType : String) (expression : Expr)
  | thisExpr (loc : SourceLocation)

/-- Type nodes (src/parser/nodes/type_nodes.h), constructor-argument order as
in the C++ constructors. -/
inductive Ty where
  | primitive (type : TokenType) (loc : SourceLocation)
  | namedType (name : String) (loc : SourceLocation)
  | arrayType (elementType : Ty) (size : Option Expr) (loc : SourceLocation)
  | pointerType (baseType : Ty) (kind : PointerKind) (alignment : Option Expr)
      (loc : SourceLocation)
  | referenceType (baseType : Ty) (loc : SourceLocation)
  | smartPointer (pointee : Ty) (kind : SmartPointerKind) (loc : SourceLocation)
  | templateType (base : Ty) (arguments : List Ty) (loc : SourceLocation)
  | unionType (left : Ty) (right : Ty) (loc : SourceLocation)
  | functionType (returnType : Ty) (parameterTypes : List Ty) (loc : SourceLocation)

/-- Catch clause of nodes::TryStmtNode; its body is a null pointer when the
clause parse failed. -/
inductive CatchClause where
  | mk (parameter : String) (parameterType : Option Ty) (body : Option Stmt)

/-- Statement nodes of the visitor AST (statement_nodes.h is not part of the
sources; constructors mirror the constructor calls in the statement
visitors and the accessors used by the type checker). -/
inductive Stmt where
  | block (statements : List Stmt) (loc : SourceLocation)
  | exprStmt (expression : Expr) (loc : SourceLocation)
  | ifStmt (condition : Expr) (thenBranch : Stmt) (elseBranch : Option Stmt)
      (loc : SourceLocation)
  | whileStmt (condition : Expr) (body : Stmt) (loc : SourceLocation)
  | doWhileStmt (body : Stmt) (condition : Expr) (loc : SourceLocation)
  | forStmt (initializer : Option Stmt) (condition : Option Expr) (increment : Option Expr)
      (body : Stmt) (loc : SourceLocation)
  | forOfStmt (isConst : Bool) (identifier : String) (iterable : Expr) (body : Stmt)
      (loc : SourceLocation)
  | returnStmt (value : Option Expr) (loc : SourceLocation)
  | breakStmt (label : String) (loc : SourceLocation)
  | continueStmt (label : String) (loc : SourceLocation)
  | throwStmt (value : Expr) (loc : SourceLocation)
  | tryStmt (tryBlock : Stmt) (catchClauses : List CatchClause) (finallyBlock : Option Stmt)
      (loc : SourceLocation)
  | declStmt (declaration : Decl) (loc : SourceLocation)

/-- Function parameter (nodes::ParameterNode of declaration_nodes.h). -/
inductive Param where
  | mk (name : String) (type : Ty) (defaultValue : Option Expr) (isRef : Bool) (isConst : Bool)
      (loc : SourceLocation)

/-- Declaration nodes (declaration_nodes.h).  For class, enum and interface
declarations only the fields read by the embedded code (the name and the
location) are modelled. -/
inductive Decl where
  | varDecl (name : String) (type : Option Ty) (initializer : Option Expr)
      (storageClass : TokenType) (isConst : Bool) (loc : SourceLocation)
  | funcDecl (name : String) (parameters : List Param) (returnType : Option Ty)
      (throwsTypes : List Ty) (modifiers : List TokenType) (body : Option Stmt)
      (isAsync : Bool) (loc : SourceLocation)
  | classDecl (name : String) (loc : SourceLocation)
  | enumDecl (name : String) (loc : SourceLocation)
  | interfaceDecl (name : String) (loc : SourceLocation)

end

/-- Expression::getLocation. -/
def Expr.loc : Expr → SourceLocation
  | .identifier l _ => l
  | .literal l _ _ => l
  | .binary l _ _ _ => l
  | .unary l _ _ _ => l
  | .assignment l _ _ _ => l
  | .callExpr l _ _ => l
  | .member l _ _ _ => l
  | .index l _ _ => l
  | .arrayLiteral l _ => l
  | .newExpr l _ _ => l
  | .castExpr l _ _ => l
  | .thisExpr l => l

/-- DeclarationNode::getLocation. -/
def Decl.loc : Decl → SourceLocation
  | .varDecl _ _ _ _ _ l => l
  | .funcDecl _ _ _ _ _ _ _ l => l
  | .classDecl _ l => l
  | .enumDecl _ l => l
  | .interfaceDecl _ l => l

/-- Shared state of the parse visitors: the token stream and the shared
error reporter. -/
structure PSt where
  ts : TokenStream
  rep : ErrorReporter
deriving DecidableEq, Repr

/-- Utility `check` shared (textually identical) by every parse visitor:
`!tokens_.isAtEnd() && tokens_.peek().getType() == type`. -/
def vCheck (st : PSt) (ty : TokenType) : Bool :=
  ¬ st.ts.isAtEnd && st.ts.peek.type = ty

/-- Utility `match` shared by every parse visitor. -/
def vMatch (st : PSt) (ty : TokenType) : Bool × PSt :=
  if vCheck st ty then (true, { st with ts := (st.ts.advance).2 }) else (false, st)

/-- Sequential `match(t1) || match(t2) || ...` chains in the visitors. -/
def vMatchAny (st : PSt) : List TokenType → Bool × PSt
  | [] => (false, st)
  | ty :: rest =>
    let (m, st1) := vMatch st ty
    if m then (true, st1) else vMatchAny st1 rest

/-- Utility `error` shared by every parse visitor: report at the current
token's location. -/
def vError (st : PSt) (msg : String) : PSt :=
  { st with rep := st.rep.error st.ts.peek.location msg }

/-- Utility `consume` shared by every parse visitor. -/
def vConsume (st : PSt) (ty : TokenType) (msg : String) : Bool × PSt :=
  if vCheck st ty then (true, { st with ts := (st.ts.advance).2 })
  else (false, vError st msg)

/-- TokenStream advance lifted to the visitor state. -/
def vAdvance (st : PSt) : Token × PSt :=
  let (t, ts1) := st.ts.advance
  (t, { st with ts := ts1 })

/-- Panic-mode loop shared (textually identical) by
BaseParseVisitor::synchronize (src/parser/visitors/parse_visitor/base/
base_parse_visitor.cpp) and StatementParseVisitor::synchronize
(statement/statement_parse_visitor.h): stop just past a SEMICOLON or in
front of CLASS, FUNCTION, LET, CONST, IF, WHILE or RETURN. -/
def panicSyncAux : Nat → TokenStream → TokenStream
  | 0, s => s
  | fuel+1, s =>
    if s.isAtEnd then s
    else if s.previous.type = .SEMICOLON then s
    else if s.peek.type = .CLASS ∨ s.peek.type = .FUNCTION ∨ s.peek.type = .LET ∨
        s.peek.type = .CONST ∨ s.peek.type = .IF ∨ s.peek.type = .WHILE ∨
        s.peek.type = .RETURN then s
    else panicSyncAux fuel (s.advance).2

/-- The synchronize method of the base and statement visitors: advance past
the current token, then scan to a statement boundary. -/
def panicSync (st : PSt) : PSt :=
  { st with ts := panicSyncAux (st.ts.tokens.length + 1) ((st.ts.advance).2) }

/-- StatementParseVisitor::isDeclarationStart
(statement/statement_parse_visitor.h). -/
def stmtIsDeclarationStart (st : PSt) : Bool :=
  vCheck st .LET || vCheck st .CONST || vCheck st .FUNCTION ||
  vCheck st .STACK || vCheck st .HEAP || vCheck st .STATIC

/-- DeclarationParseVisitor::parsePrimaryType: a primitive-type token or an
identifier (not recursive). -/
def parsePrimaryType (st : PSt) : Option Ty × PSt :=
  let location := st.ts.peek.location
  if isPrimitiveTypeToken st.ts.peek.type then
    let ty := st.ts.peek.type
    let (_, st1) := vAdvance st
    (some (.primitive ty location), st1)
  else if vCheck st .IDENTIFIER then
    let name := st.ts.peek.lexeme
    let (_, st1) := vAdvance st
    (some (.namedType name location), st1)
  else (none, vError st "Expected type name")

/-- Type of the late-bound IDeclarationVisitor used by
StatementParseVisitor::parseDeclarationStatement (`declVisitor_` is a raw
pointer injected after construction via setDeclarationVisitor). -/
def DeclParser : Type := PSt → Option Decl × PSt

mutual

/-- ExpressionParseVisitor::parseExpression
(expression/expression_parse_visitor.cpp); the catch handler is for
std::exception and is unreachable in the model. -/
def parseExpression : Nat → PSt → Option Expr × PSt
  | 0, st => (none, st)
  | fuel+1, st => parseAssignment fuel st

/-- ExpressionParseVisitor::parseAssignment. -/
def parseAssignment : Nat → PSt → Option Expr × PSt
  | 0, st => (none, st)
  | fuel+1, st =>
    match parseComparison fuel st with
    | (none, st1) => (none, st1)
    | (some expr, st1) =>
      let (m, st2) := vMatchAny st1 [.EQUALS, .PLUS_EQUALS, .MINUS_EQUALS, .STAR_EQUALS,
        .SLASH_EQUALS]
      if m then
        let op := st2.ts.previous.type
        match parseAssignment fuel st2 with
        | (none, st3) => (none, st3)
        | (some value, st3) => (some (.assignment expr.loc op expr value), st3)
      else (some expr, st1)

/-- ExpressionParseVisitor::parseComparison. -/
def parseComparison : Nat → PSt → Option Expr × PSt
  | 0, st => (none, st)
  | fuel+1, st =>
    match parseAdditive fuel st with
    | (none, st1) => (none, st1)
    | (some expr, st1) => parseComparisonLoop fuel expr st1

def parseComparisonLoop : Nat → Expr → PSt → Option Expr × PSt
  | 0, _, st => (none, st)
  | fuel+1, acc, st =>
    let (m, st1) := vMatchAny st [.LESS, .LESS_EQUALS, .GREATER, .GREATER_EQUALS,
      .EQUALS_EQUALS, .EXCLAIM_EQUALS]
    if m then
      let op := st1.ts.previous.type
      match parseAdditive fuel st1 with
      | (none, st2) => (none, st2)
      | (some right, st2) => parseComparisonLoop fuel (.binary acc.loc op acc right) st2
    else (some acc, st)

/-- ExpressionParseVisitor::parseAdditive. -/
def parseAdditive : Nat → PSt → Option Expr × PSt
  | 0, st => (none, st)
  | fuel+1, st =>
    match parseMultiplicative fuel st with
    | (none, st1) => (none, st1)
    | (some expr, st1) => parseAdditiveLoop fuel expr st1

def parseAdditiveLoop : Nat → Expr → PSt → Option Expr × PSt
  | 0, _, st => (none, st)
  | fuel+1, acc, st =>
    let (m, st1) := vMatchAny st [.PLUS, .MINUS]
    if m then
      let op := st1.ts.previous.type
      match parseMultiplicative fuel st1 with
      | (none, st2) => (none, st2)
      | (some right, st2) => parseAdditiveLoop fuel (.binary acc.loc op acc right) st2
    else (some acc, st)

/-- ExpressionParseVisitor::parseMultiplicative. -/
def parseMultiplicative : Nat → PSt → Option Expr × PSt
  | 0, st => (none, st)
  | fuel+1, st =>
    match parseUnary fuel st with
    | (none, st1) => (none, st1)
    | (some expr, st1) => parseMultiplicativeLoop fuel expr st1

def parseMultiplicativeLoop : Nat → Expr → PSt → Option Expr × PSt
  | 0, _, st => (none, st)
  | fuel+1, acc, st =>
    let (m, st1) := vMatchAny st [.STAR, .SLASH, .PERCENT]
    if m then
      let op := st1.ts.previous.type
      match parseUnary fuel st1 with
      | (none, st2) => (none, st2)
      | (some right, st2) => parseMultiplicativeLoop fuel (.binary acc.loc op acc right) st2
    else (some acc, st)

/-- UnaryExpressionVisitor::parseUnary (expression/unary_visitor.h), reached
through ExpressionParseVisitor::parseUnary; the primary callback is the
expression visitor's parsePrimary. -/
def parseUnary : Nat → PSt → Option Expr × PSt
  | 0, st => (none, st)
  | fuel+1, st =>
    let t := st.ts.peek
    if t.type = .MINUS ∨ t.type = .EXCLAIM ∨ t.type = .TILDE ∨ t.type = .PLUS_PLUS ∨
        t.type = .MINUS_MINUS then
      let (_, st1) := vAdvance st
      match parseUnary fuel st1 with
      | (none, st2) => (none, st2)
      | (some operand, st2) => (some (.unary t.location t.type operand true), st2)
    else parsePrimary fuel st

/-- PrimaryExpressionVisitor::parsePrimary (expression/primary_visitor.h). -/
def parsePrimary : Nat → PSt → Option Expr × PSt
  | 0, st => (none, st)
  | fuel+1, st =>
    let (mBracket, st1) := vMatch st .LEFT_BRACKET
    if mBracket then parseArrayLiteral fuel st1
    else
      let (mId, st2) := vMatch st1 .IDENTIFIER
      if mId then
        let tok := st2.ts.previous
        parsePostfixOperations fuel (.identifier tok.location tok.lexeme) st2
      else
        let (mLit, st3) := vMatchAny st2 [.NUMBER, .STRING_LITERAL, .TRUE, .FALSE]
        if mLit then
          let tok := st3.ts.previous
          parsePostfixOperations fuel (.literal tok.location tok.type tok.lexeme) st3
        else
          let (mParen, st4) := vMatch st3 .LEFT_PAREN
          if mParen then
            match parseExpression fuel st4 with
            | (none, st5) => (none, st5)
            | (some expr, st5) =>
              let (ok, st6) := vConsume st5 .RIGHT_PAREN "Expected \x27)\x27 after expression"
              if ok then parsePostfixOperations fuel expr st6 else (none, st6)
          else (none, vError st4 "Expected expression")

/-- PrimaryExpressionVisitor::parsePostfixOperations: member access, array
indexing and function calls, left to right. -/
def parsePostfixOperations : Nat → Expr → PSt → Option Expr × PSt
  | 0, _, st => (none, st)
  | fuel+1, acc, st =>
    let (mDot, st1) := vMatch st .DOT
    if mDot then
      if st1.ts.peek.type ≠ .IDENTIFIER then (none, vError st1 "Expected property name after \x27.\x27")
      else
        let (memberToken, st2) := vAdvance st1
        parsePostfixOperations fuel (.member acc.loc acc memberToken.lexeme false) st2
    else
      let (mBracket, st2) := vMatch st1 .LEFT_BRACKET
      if mBracket then
        match parseExpression fuel st2 with
        | (none, st3) => (none, st3)
        | (some idx, st3) =>
          let (ok, st4) := vConsume st3 .RIGHT_BRACKET "Expected \x27]\x27 after array index"
          if ok then parsePostfixOperations fuel (.index acc.loc acc idx) st4 else (none, st4)
      else
        let (mParen, st3) := vMatch st2 .LEFT_PAREN
        if mParen then
          match
            (if vCheck st3 .RIGHT_PAREN then ((some [] : Option (List Expr)), st3)
             else postfixCallArguments fuel [] st3) with
          | (none, st4) => (none, st4)
          | (some args, st4) =>
            let (ok, st5) := vConsume st4 .RIGHT_PAREN
              "Expected \x27)\x27 after function arguments"
            if ok then parsePostfixOperations fuel (.callExpr acc.loc acc args) st5
            else (none, st5)
        else (some acc, st3)

/-- Argument loop of the call case of parsePostfixOperations; note there is
no limit on the number of arguments here. -/
def postfixCallArguments : Nat → List Expr → PSt → Option (List Expr) × PSt
  | 0, _, st => (none, st)
  | fuel+1, acc, st =>
    match parseExpression fuel st with
    | (none, st1) => (none, st1)
    | (some arg, st1) =>
      let (m, st2) := vMatch st1 .COMMA
      if m then postfixCallArguments fuel (acc ++ [arg]) st2 else (some (acc ++ [arg]), st2)

/-- PrimaryExpressionVisitor::parseArrayLiteral. -/
def parseArrayLiteral : Nat → PSt → Option Expr × PSt
  | 0, st => (none, st)
  | fuel+1, st =>
    let location := st.ts.previous.location
    if vCheck st .RIGHT_BRACKET then
      let (_, st1) := vAdvance st
      (some (.arrayLiteral location []), st1)
    else
      match parseArrayElements fuel [] st with
      | (none, st1) => (none, st1)
      | (some elems, st1) =>
        let (ok, st2) := vConsume st1 .RIGHT_BRACKET "Expected \x27]\x27 after array elements"
        if ok then (some (.arrayLiteral location elems), st2) else (none, st2)

/-- Element loop of parseArrayLiteral. -/
def parseArrayElements : Nat → List Expr → PSt → Option (List Expr) × PSt
  | 0, _, st => (none, st)
  | fuel+1, acc, st =>
    match parseExpression fuel st with
    | (none, st1) => (none, st1)
    | (some element, st1) =>
      let (m, st2) := vMatch st1 .COMMA
      if m then parseArrayElements fuel (acc ++ [element]) st2
      else (some (acc ++ [element]), st2)

/-- CallExpressionVisitor::finishCall (expression/call_visitor.h): the
argument list with the 255-argument limit.  The expression callback is the
expression visitor's parseExpression.  This function is not reachable
from the active expression-parsing path. -/
def finishCall : Nat → Expr → PSt → Option Expr × PSt
  | 0, _, st => (none, st)
  | fuel+1, callee, st =>
    match
      (if vCheck st .RIGHT_PAREN then ((some [] : Option (List Expr)), st)
       else finishCallArguments fuel [] st) with
    | (none, st1) => (none, st1)
    | (some args, st1) =>
      let (ok, st2) := vConsume st1 .RIGHT_PAREN "Expected \x27)\x27 after arguments"
      if ok then (some (.callExpr callee.loc callee args), st2) else (none, st2)

/-- Argument loop of finishCall, with the `arguments.size() >= 255` check
before each argument. -/
def finishCallArguments : Nat → List Expr → PSt → Option (List Expr) × PSt
  | 0, _, st => (none, st)
  | fuel+1, acc, st =>
    if 255 ≤ acc.length then (none, vError st "Cannot have more than 255 arguments")
    else
      match parseExpression fuel st with
      | (none, st1) => (none, st1)
      | (some arg, st1) =>
        let (m, st2) := vMatch st1 .COMMA
        if m then finishCallArguments fuel (acc ++ [arg]) st2 else (some (acc ++ [arg]), st2)

/-- DeclarationParseVisitor::parseType
(declaration/declaration_parse_visitor.cpp). -/
def parseType : Nat → PSt → Option Ty × PSt
  | 0, st => (none, st)
  | fuel+1, st =>
    let location := st.ts.peek.location
    if vCheck st .SHARED || vCheck st .UNIQUE || vCheck st .WEAK then
      parseSmartPointerType fuel location st
    else
      match
        (if vCheck st .IDENTIFIER ∧ (st.ts.peekNext).type = .LESS then
          parseTemplateType fuel location st
        else parsePrimaryType st) with
      | (none, st1) => (none, st1)
      | (some ty, st1) => parseTypeModLoop fuel ty location st1

/-- Postfix-modifier loop of DeclarationParseVisitor::parseType. -/
def parseTypeModLoop : Nat → Ty → SourceLocation → PSt → Option Ty × PSt
  | 0, _, _, st => (none, st)
  | fuel+1, acc, location, st =>
    let (mAt, st1) := vMatch st .AT
    if mAt then
      match parsePointerType fuel acc location st1 with
      | (none, st2) => (none, st2)
      | (some ty, st2) => parseTypeModLoop fuel ty location st2
    else
      let (mBracket, st2) := vMatch st1 .LEFT_BRACKET
      if mBracket then
        match parseArrayType fuel acc location st2 with
        | (none, st3) => (none, st3)
        | (some ty, st3) => parseTypeModLoop fuel ty location st3
      else
        let (mAmp, st3) := vMatch st2 .AMPERSAND
        if mAmp then parseTypeModLoop fuel (.referenceType acc location) location st3
        else
          let (mPipe, st4) := vMatch st3 .PIPE
          if mPipe then
            match parseUnionType fuel acc location st4 with
            | (none, st5) => (none, st5)
            | (some ty, st5) => parseTypeModLoop fuel ty location st5
          else if vCheck st4 .IDENTIFIER ∧ (st4.ts.peekNext).type = .LESS then
            match parseTemplateType fuel location st4 with
            | (none, st5) => (none, st5)
            | (some ty, st5) => parseTypeModLoop fuel ty location st5
          else (some acc, st4)

/-- DeclarationParseVisitor::parseSmartPointerType. -/
def parseSmartPointerType : Nat → SourceLocation → PSt → Option Ty × PSt
  | 0, _, st => (none, st)
  | fuel+1, location, st =>
    let kind := st.ts.peek.type
    let (_, st1) := vAdvance st
    let (ok, st2) := vConsume st1 .LESS "Expected \x27<\x27 after smart pointer type"
    if ¬ ok then (none, st2)
    else
      match parseType fuel st2 with
      | (none, st3) => (none, st3)
      | (some pointeeType, st3) =>
        let (ok2, st4) := vConsume st3 .GREATER "Expected \x27>\x27 after smart pointer type"
        if ¬ ok2 then (none, st4)
        else
          let spKind : SmartPointerKind :=
            if kind = .SHARED then .shared else if kind = .UNIQUE then .unique else .weak
          (some (.smartPointer pointeeType spKind location), st4)

/-- DeclarationParseVisitor::parsePointerType (the AT token has already been
consumed by the caller). -/
def parsePointerType : Nat → Ty → SourceLocation → PSt → Option Ty × PSt
  | 0, _, _, st => (none, st)
  | _+1, baseType, location, st =>
    let (mUnsafe, st1) := vMatch st .UNSAFE_KW
    if mUnsafe then (some (.pointerType baseType .unsafeKind none location), st1)
    else
      let (mAligned, st2) := vMatch st1 .ALIGNED
      if mAligned then
        let (ok, st3) := vConsume st2 .LEFT_PAREN "Expected \x27(\x27 after aligned"
        if ¬ ok then (none, st3)
        else
          let (mNum, st4) := vMatch st3 .NUMBER
          if ¬ mNum then (none, vError st4 "Expected alignment value")
          else
            let alignment : Expr :=
              .literal st4.ts.previous.location .NUMBER st4.ts.previous.lexeme
            let (ok2, st5) := vConsume st4 .RIGHT_PAREN "Expected \x27)\x27 after alignment value"
            if ¬ ok2 then (none, st5)
            else (some (.pointerType baseType .alignedKind (some alignment) location), st5)
      else (some (.pointerType baseType .raw none location), st2)

/-- DeclarationParseVisitor::parseArrayType (the LEFT_BRACKET has already
been consumed by the caller). -/
def parseArrayType : Nat → Ty → SourceLocation → PSt → Option Ty × PSt
  | 0, _, _, st => (none, st)
  | fuel+1, elementType, location, st =>
    match
      (if ¬ vCheck st .RIGHT_BRACKET then
        match parseExpression fuel st with
        | (none, st1) => ((none : Option (Option Expr)), st1)
        | (some e, st1) => (some (some e), st1)
      else (some none, st)) with
    | (none, st1) => (none, st1)
    | (some sizeExpr, st1) =>
      let (ok, st2) := vConsume st1 .RIGHT_BRACKET "Expected \x27]\x27 after array type"
      if ok then (some (.arrayType elementType sizeExpr location), st2) else (none, st2)

/-- DeclarationParseVisitor::parseUnionType (the PIPE has already been
consumed by the caller). -/
def parseUnionType : Nat → Ty → SourceLocation → PSt → Option Ty × PSt
  | 0, _, _, st => (none, st)
  | _+1, leftType, location, st =>
    match parsePrimaryType st with
    | (none, st1) => (none, st1)
    | (some rightType, st1) => (some (.unionType leftType rightType location), st1)

/-- DeclarationParseVisitor::parseTemplateType. -/
def parseTemplateType : Nat → SourceLocation → PSt → Option Ty × PSt
  | 0, _, st => (none, st)
  | fuel+1, location, st =>
    let templateName := st.ts.peek.lexeme
    let (_, st1) := vAdvance st
    let (ok, st2) := vConsume st1 .LESS "Expected \x27<\x27 after template name"
    if ¬ ok then (none, st2)
    else
      match parseTemplateArgs fuel [] st2 with
      | (none, st3) => (none, st3)
      | (some typeArgs, st3) =>
        let (ok2, st4) := vConsume st3 .GREATER "Expected \x27>\x27 after template arguments"
        if ¬ ok2 then (none, st4)
        else (some (.templateType (.namedType templateName location) typeArgs location), st4)

/-- Argument loop (do-while on COMMA) of parseTemplateType. -/
def parseTemplateArgs : Nat → List Ty → PSt → Option (List Ty) × PSt
  | 0, _, st => (none, st)
  | fuel+1, acc, st =>
    match parsePrimaryType st with
    | (none, st1) => (none, st1)
    | (some typeArg, st1) =>
      let (m, st2) := vMatch st1 .COMMA
      if m then parseTemplateArgs fuel (acc ++ [typeArg]) st2
      else (some (acc ++ [typeArg]), st2)

/-- VariableDeclarationVisitor::parseVarDecl
(declaration/var_decl_visitor.h); the expression and type callbacks are
the expression visitor's parseExpression and the declaration visitor's
parseType, as wired by DeclarationParseVisitor. -/
def parseVarDecl : Nat → Bool → TokenType → PSt → Option Decl × PSt
  | 0, _, _, st => (none, st)
  | fuel+1, isConst, storageClass, st =>
    let location := st.ts.peek.location
    let (mId, st1) := vMatch st .IDENTIFIER
    if ¬ mId then (none, vError st1 "Expected variable name")
    else
      let name := st1.ts.previous.lexeme
      let (mColon, st2) := vMatch st1 .COLON
      match
        (if mColon then
          match parseType fuel st2 with
          | (none, st3) => ((none : Option (Option Ty)), st3)
          | (some t, st3) => (some (some t), st3)
        else (some none, st2)) with
      | (none, st3) => (none, st3)
      | (some type, st3) =>
        let (mEq, st4) := vMatch st3 .EQUALS
        match
          (if mEq then
            match parseExpression fuel st4 with
            | (none, st5) => ((none : Option (Option Expr)), st5)
            | (some e, st5) => (some (some e), st5)
          else if isConst then
            ((none : Option (Option Expr)), vError st4 "Const declarations must have an initializer")
          else (some none, st4)) with
        | (none, st5) => (none, st5)
        | (some initializer, st5) =>
          let (ok, st6) := vConsume st5 .SEMICOLON "Expected \x27;\x27 after variable declaration"
          if ¬ ok then (none, st6)
          else (some (.varDecl name type initializer storageClass isConst location), st6)

end

end Vis

namespace Vis

/-- BranchStatementVisitor::parseSwitchStatement: an unimplemented TODO that
returns the null sentinel without reporting anything. -/
def parseSwitchStatement (st : PSt) : Option Stmt × PSt := (none, st)

/-- FlowControlVisitor::parseReturn (statement/flowctr_stmt_visitor.h); the
expression callback is the expression visitor's parseExpression. -/
def parseReturn : Nat → PSt → Option Stmt × PSt
  | 0, st => (none, st)
  | fuel+1, st =>
    let location := st.ts.previous.location
    match
      (if ¬ vCheck st .SEMICOLON then
        match parseExpression fuel st with
        | (none, st1) => ((none : Option (Option Expr)), st1)
        | (some v, st1) => (some (some v), st1)
      else (some none, st)) with
    | (none, st1) => (none, st1)
    | (some value, st1) =>
      let (ok, st2) := vConsume st1 .SEMICOLON "Expected \x27;\x27 after return statement"
      if ¬ ok then (none, st2)
      else (some (.returnStmt value location), st2)

/-- FlowControlVisitor::parseBreak. -/
def parseBreak (st : PSt) : Option Stmt × PSt :=
  let location := st.ts.previous.location
  let (mId, st1) := vMatch st .IDENTIFIER
  let label := if mId then st1.ts.previous.lexeme else ""
  let (ok, st2) := vConsume st1 .SEMICOLON "Expected \x27;\x27 after break statement"
  if ¬ ok then (none, st2)
  else (some (.breakStmt label location), st2)

/-- FlowControlVisitor::parseContinue. -/
def parseContinue (st : PSt) : Option Stmt × PSt :=
  let location := st.ts.previous.location
  let (mId, st1) := vMatch st .IDENTIFIER
  let label := if mId then st1.ts.previous.lexeme else ""
  let (ok, st2) := vConsume st1 .SEMICOLON "Expected \x27;\x27 after continue statement"
  if ¬ ok then (none, st2)
  else (some (.continueStmt label location), st2)

/-- FlowControlVisitor::parseThrow. -/
def parseThrow : Nat → PSt → Option Stmt × PSt
  | 0, st => (none, st)
  | fuel+1, st =>
    let location := st.ts.previous.location
    match parseExpression fuel st with
    | (none, st1) => (none, st1)
    | (some value, st1) =>
      let (ok, st2) := vConsume st1 .SEMICOLON "Expected \x27;\x27 after throw statement"
      if ¬ ok then (none, st2)
      else (some (.throwStmt value location), st2)

mutual

/-- StatementParseVisitor::parseStatement
(statement/statement_parse_visitor.h): declaration check first, then the
keyword dispatch, otherwise an expression statement.  The catch handler is
for std::exception and is unreachable in the model. -/
def parseStatement (declP : DeclParser) : Nat → PSt → Option Stmt × PSt
  | 0, st => (none, st)
  | fuel+1, st =>
    if stmtIsDeclarationStart st then parseDeclarationStatement declP fuel st
    else
      let (mBrace, st1) := vMatch st .LEFT_BRACE
      if mBrace then parseBlock declP fuel st1
      else
        let (mIf, st2) := vMatch st1 .IF
        if mIf then parseIfStatement declP fuel st2
        else
          let (mSwitch, st3) := vMatch st2 .SWITCH
          if mSwitch then parseSwitchStatement st3
          else
            let (mWhile, st4) := vMatch st3 .WHILE
            if mWhile then parseWhileStatement declP fuel st4
            else
              let (mDo, st5) := vMatch st4 .DO
              if mDo then parseDoWhileStatement declP fuel st5
              else
                let (mFor, st6) := vMatch st5 .FOR
                if mFor then parseForStatement declP fuel st6
                else
                  let (mTry, st7) := vMatch st6 .TRY
                  if mTry then parseTryStatement declP fuel st7
                  else
                    let (mRet, st8) := vMatch st7 .RETURN
                    if mRet then parseReturn fuel st8
                    else
                      let (mBreak, st9) := vMatch st8 .BREAK
                      if mBreak then parseBreak st9
                      else
                        let (mCont, st10) := vMatch st9 .CONTINUE
                        if mCont then parseContinue st10
                        else
                          let (mThrow, st11) := vMatch st10 .THROW
                          if mThrow then parseThrow fuel st11
                          else parseExpressionStatement fuel st11

/-- StatementParseVisitor::parseDeclarationStatement: delegate to the
declaration visitor and wrap the result. -/
def parseDeclarationStatement (declP : DeclParser) : Nat → PSt → Option Stmt × PSt
  | 0, st => (none, st)
  | _+1, st =>
    match declP st with
    | (some decl, st1) => (some (.declStmt decl decl.loc), st1)
    | (none, st1) => (none, st1)

/-- StatementParseVisitor::parseBlock
(statement/statement_parse_visitor.h, lines 79-98): keep parsing inner
statements, synchronising after each failed one, until the closing brace
or end of input; a missing closing brace fails the whole block. -/
def parseBlock (declP : DeclParser) : Nat → PSt → Option Stmt × PSt
  | 0, st => (none, st)
  | fuel+1, st =>
    let location := st.ts.previous.location
    match parseBlockItems declP fuel [] st with
    | (statements, st1) =>
      let (ok, st2) := vConsume st1 .RIGHT_BRACE "Expected \x27\x7d\x27 after block"
      if ¬ ok then (none, st2)
      else (some (.block statements location), st2)

/-- Scanning loop of parseBlock. -/
def parseBlockItems (declP : DeclParser) : Nat → List Stmt → PSt → List Stmt × PSt
  | 0, acc, st => (acc, st)
  | fuel+1, acc, st =>
    if ¬ vCheck st .RIGHT_BRACE ∧ ¬ st.ts.isAtEnd then
      match parseStatement declP fuel st with
      | (some stmt, st1) => parseBlockItems declP fuel (acc ++ [stmt]) st1
      | (none, st1) => parseBlockItems declP fuel acc (panicSync st1)
    else (acc, st)

/-- StatementParseVisitor::parseExpressionStatement
(statement/statement_parse_visitor.cpp). -/
def parseExpressionStatement : Nat → PSt → Option Stmt × PSt
  | 0, st => (none, st)
  | fuel+1, st =>
    let location := st.ts.peek.location
    match parseExpression fuel st with
    | (none, st1) => (none, st1)
    | (some expr, st1) =>
      let (ok, st2) := vConsume st1 .SEMICOLON "Expected \x27;\x27 after expression"
      if ¬ ok then (none, st2)
      else (some (.exprStmt expr location), st2)

/-- BranchStatementVisitor::parseIfStatement
(statement/branch_stmt_visitor.h). -/
def parseIfStatement (declP : DeclParser) : Nat → PSt → Option Stmt × PSt
  | 0, st => (none, st)
  | fuel+1, st =>
    let location := st.ts.previous.location
    let (ok, st1) := vConsume st .LEFT_PAREN "Expected \x27(\x27 after \x27if\x27"
    if ¬ ok then (none, st1)
    else
      match parseExpression fuel st1 with
      | (none, st2) => (none, st2)
      | (some condition, st2) =>
        let (ok2, st3) := vConsume st2 .RIGHT_PAREN "Expected \x27)\x27 after condition"
        if ¬ ok2 then (none, st3)
        else
          match parseStatement declP fuel st3 with
          | (none, st4) => (none, st4)
          | (some thenBranch, st4) =>
            let (mElse, st5) := vMatch st4 .ELSE
            match
              (if mElse then
                match parseStatement declP fuel st5 with
                | (none, st6) => ((none : Option (Option Stmt)), st6)
                | (some s, st6) => (some (some s), st6)
              else (some none, st5)) with
            | (none, st6) => (none, st6)
            | (some elseBranch, st6) =>
              (some (.ifStmt condition thenBranch elseBranch location), st6)

/-- LoopStatementVisitor::parseWhileStatement
(statement/loop_stmt_visitor.h). -/
def parseWhileStatement (declP : DeclParser) : Nat → PSt → Option Stmt × PSt
  | 0, st => (none, st)
  | fuel+1, st =>
    let location := st.ts.previous.location
    let (ok, st1) := vConsume st .LEFT_PAREN "Expected \x27(\x27 after \x27while\x27"
    if ¬ ok then (none, st1)
    else
      match parseExpression fuel st1 with
      | (none, st2) => (none, st2)
      | (some condition, st2) =>
        let (ok2, st3) := vConsume st2 .RIGHT_PAREN "Expected \x27)\x27 after condition"
        if ¬ ok2 then (none, st3)
        else
          match parseStatement declP fuel st3 with
          | (none, st4) => (none, st4)
          | (some body, st4) => (some (.whileStmt condition body location), st4)

/-- LoopStatementVisitor::parseDoWhileStatement. -/
def parseDoWhileStatement (declP : DeclParser) : Nat → PSt → Option Stmt × PSt
  | 0, st => (none, st)
  | fuel+1, st =>
    let location := st.ts.previous.location
    match parseStatement declP fuel st with
    | (none, st1) => (none, st1)
    | (some body, st1) =>
      let (ok, st2) := vConsume st1 .WHILE "Expected \x27while\x27 after do block"
      if ¬ ok then (none, st2)
      else
        let (ok2, st3) := vConsume st2 .LEFT_PAREN "Expected \x27(\x27 after \x27while\x27"
        if ¬ ok2 then (none, st3)
        else
          match parseExpression fuel st3 with
          | (none, st4) => (none, st4)
          | (some condition, st4) =>
            let (ok3, st5) := vConsume st4 .RIGHT_PAREN "Expected \x27)\x27 after condition"
            if ¬ ok3 then (none, st5)
            else
              let (ok4, st6) := vConsume st5 .SEMICOLON
                "Expected \x27;\x27 after do-while statement"
              if ¬ ok4 then (none, st6)
              else (some (.doWhileStmt body condition location), st6)

/-- LoopStatementVisitor::parseForStatement
(statement/loop_stmt_visitor.h, lines 77-127): after the opening
parenthesis, a leading LET or CONST immediately commits to the for-of
form; otherwise the `( init? ; cond? ; inc? )` form is parsed. -/
def parseForStatement (declP : DeclParser) : Nat → PSt → Option Stmt × PSt
  | 0, st => (none, st)
  | fuel+1, st =>
    let location := st.ts.previous.location
    let (ok, st1) := vConsume st .LEFT_PAREN "Expected \x27(\x27 after \x27for\x27"
    if ¬ ok then (none, st1)
    else
      let (mLetConst, st2) := vMatchAny st1 [.LET, .CONST]
      if mLetConst then parseForOfStatement declP fuel location st2
      else
        let (mSemi1, st3) := vMatch st2 .SEMICOLON
        match
          (if ¬ mSemi1 then
            match parseForInitializer fuel st3 with
            | (none, st4) => ((none : Option (Option Stmt)), st4)
            | (some s, st4) => (some (some s), st4)
          else (some none, st3)) with
        | (none, st4) => (none, st4)
        | (some initializer, st4) =>
          let (mSemi2, st5) := vMatch st4 .SEMICOLON
          match
            (if ¬ mSemi2 then
              match parseExpression fuel st5 with
              | (none, st6) => ((none : Option (Option Expr)), st6)
              | (some c, st6) =>
                let (okc, st7) := vConsume st6 .SEMICOLON "Expected \x27;\x27 after loop condition"
                if ¬ okc then (none, st7) else (some (some c), st7)
            else (some none, st5)) with
          | (none, st6) => (none, st6)
          | (some condition, st6) =>
            match
              (if ¬ vCheck st6 .RIGHT_PAREN then
                match parseExpression fuel st6 with
                | (none, st7) => ((none : Option (Option Expr)), st7)
                | (some e, st7) => (some (some e), st7)
              else (some none, st6)) with
            | (none, st7) => (none, st7)
            | (some increment, st7) =>
              let (ok2, st8) := vConsume st7 .RIGHT_PAREN "Expected \x27)\x27 after for clauses"
              if ¬ ok2 then (none, st8)
              else
                match parseStatement declP fuel st8 with
                | (none, st9) => (none, st9)
                | (some body, st9) =>
                  (some (.forStmt initializer condition increment body location), st9)

/-- LoopStatementVisitor::parseForOfStatement (lines 130-158). -/
def parseForOfStatement (declP : DeclParser) : Nat → SourceLocation → PSt → Option Stmt × PSt
  | 0, _, st => (none, st)
  | fuel+1, location, st =>
    let isConst := st.ts.previous.type = .CONST
    let (mId, st1) := vMatch st .IDENTIFIER
    if ¬ mId then (none, vError st1 "Expected variable name in for-of loop")
    else
      let identifier := st1.ts.previous.lexeme
      let (ok, st2) := vConsume st1 .OF "Expected \x27of\x27 after variable name"
      if ¬ ok then (none, st2)
      else
        match parseExpression fuel st2 with
        | (none, st3) => (none, st3)
        | (some iterable, st3) =>
          let (ok2, st4) := vConsume st3 .RIGHT_PAREN "Expected \x27)\x27 after for-of clause"
          if ¬ ok2 then (none, st4)
          else
            match parseStatement declP fuel st4 with
            | (none, st5) => (none, st5)
            | (some body, st5) =>
              (some (.forOfStmt isConst identifier iterable body location), st5)

/-- LoopStatementVisitor::parseForInitializer: a leading LET or CONST is an
unimplemented TODO that returns the null sentinel. -/
def parseForInitializer : Nat → PSt → Option Stmt × PSt
  | 0, st => (none, st)
  | fuel+1, st =>
    if vCheck st .LET || vCheck st .CONST then (none, st)
    else
      match parseExpression fuel st with
      | (none, st1) => (none, st1)
      | (some expr, st1) =>
        let (ok, st2) := vConsume st1 .SEMICOLON "Expected \x27;\x27 after loop initializer"
        if ¬ ok then (none, st2)
        else (some (.exprStmt expr expr.loc), st2)

/-- TryCatchStatementVisitor::parseTryStatement
(statement/trycatch_stmt.visitor.h); the statement callback is the
statement visitor's parseStatement and the type callback is the
declaration visitor's parseType. -/
def parseTryStatement (declP : DeclParser) : Nat → PSt → Option Stmt × PSt
  | 0, st => (none, st)
  | fuel+1, st =>
    let location := st.ts.previous.location
    match parseStatement declP fuel st with
    | (none, st1) => (none, st1)
    | (some tryBlock, st1) =>
      match parseCatchClauses declP fuel [] st1 with
      | (none, st2) => (none, st2)
      | (some catchClauses, st2) =>
        let (mFin, st3) := vMatch st2 .FINALLY
        match
          (if mFin then
            match parseStatement declP fuel st3 with
            | (none, st4) => ((none : Option (Option Stmt)), st4)
            | (some s, st4) => (some (some s), st4)
          else (some none, st3)) with
        | (none, st4) => (none, st4)
        | (some finallyBlock, st4) =>
          if catchClauses.isEmpty ∧ finallyBlock.isNone then
            (none, vError st4 "Try statement must have at least one catch or finally clause")
          else (some (.tryStmt tryBlock catchClauses finallyBlock location), st4)

/-- The `while (match(CATCH))` loop of parseTryStatement; a clause whose
body is null fails the whole statement. -/
def parseCatchClauses (declP : DeclParser) : Nat → List CatchClause → PSt →
    Option (List CatchClause) × PSt
  | 0, _, st => (none, st)
  | fuel+1, acc, st =>
    let (mCatch, st1) := vMatch st .CATCH
    if mCatch then
      match parseCatchClause declP fuel st1 with
      | (clause, st2) =>
        match clause with
        | .mk _ _ none => (none, st2)
        | _ => parseCatchClauses declP fuel (acc ++ [clause]) st2
    else (some acc, st)

/-- TryCatchStatementVisitor::parseCatchClause; failures return a clause
with a null body. -/
def parseCatchClause (declP : DeclParser) : Nat → PSt → CatchClause × PSt
  | 0, st => (.mk "" none none, st)
  | fuel+1, st =>
    let (ok, st1) := vConsume st .LEFT_PAREN "Expected \x27(\x27 after \x27catch\x27"
    if ¬ ok then (.mk "" none none, st1)
    else
      let (mId, st2) := vMatch st1 .IDENTIFIER
      if ¬ mId then (.mk "" none none, vError st2 "Expected catch parameter name")
      else
        let parameter := st2.ts.previous.lexeme
        let (mColon, st3) := vMatch st2 .COLON
        match
          (if mColon then
            match parseType fuel st3 with
            | (none, st4) => ((none : Option (Option Ty)), st4)
            | (some t, st4) => (some (some t), st4)
          else (some none, st3)) with
        | (none, st4) => (.mk parameter none none, st4)
        | (some parameterType, st4) =>
          let (ok2, st5) := vConsume st4 .RIGHT_PAREN "Expected \x27)\x27 after catch parameter"
          if ¬ ok2 then (.mk parameter parameterType none, st5)
          else
            match parseStatement declP fuel st5 with
            | (body, st6) => (.mk parameter parameterType body, st6)

end

/-- Top-level nodes produced by BaseParseVisitor (declarations or statements). -/
inductive VNode where
  | declNode (d : Decl)
  | stmtNode (s : Stmt)

/-- BaseParseVisitor::isDeclarationStart
(base/base_parse_visitor.cpp). -/
def baseIsDeclarationStart (st : PSt) : Bool :=
  st.ts.check .STACK || st.ts.check .HEAP || st.ts.check .STATIC ||
  st.ts.check .ATTRIBUTE || st.ts.check .LET || st.ts.check .CONST ||
  st.ts.check .FUNCTION || st.ts.check .CLASS || isFunctionModifier st.ts.peek.type

/-- Loop of BaseParseVisitor::visitParse (base/base_parse_visitor.cpp):
dispatch each top-level item to the declaration or the statement parser,
record the node, and on a null sentinel set hadError and synchronise.
Returns `!hadError` together with the nodes. -/
def visitParseAux (declP : DeclParser) (stmtFuel : Nat) :
    Nat → PSt → Bool → List VNode → Bool × List VNode × PSt
  | 0, st, hadError, nodes => (¬ hadError, nodes, st)
  | fuel+1, st, hadError, nodes =>
    if ¬ st.ts.isAtEnd then
      if baseIsDeclarationStart st then
        match declP st with
        | (none, st1) => visitParseAux declP stmtFuel fuel (panicSync st1) true nodes
        | (some d, st1) => visitParseAux declP stmtFuel fuel st1 hadError (nodes ++ [.declNode d])
      else
        match parseStatement declP stmtFuel st with
        | (none, st1) => visitParseAux declP stmtFuel fuel (panicSync st1) true nodes
        | (some s, st1) => visitParseAux declP stmtFuel fuel st1 hadError (nodes ++ [.stmtNode s])
    else (¬ hadError, nodes, st)

/-- BaseParseVisitor::visitParse. -/
def visitParse (declP : DeclParser) (stmtFuel loopFuel : Nat) (st : PSt) :
    Bool × List VNode × PSt :=
  visitParseAux declP stmtFuel loopFuel st false []

/-- Modelled from the spec: count of top-level parse attempts that returned
the null sentinel during the visitParse loop, used only to state the
corrected form of claim C2 (the run fails exactly when this count is
positive). -/
def visitParseNullCount (declP : DeclParser) (stmtFuel : Nat) :
    Nat → PSt → Nat
  | 0, _ => 0
  | fuel+1, st =>
    if ¬ st.ts.isAtEnd then
      if baseIsDeclarationStart st then
        match declP st with
        | (none, st1) => visitParseNullCount declP stmtFuel fuel (panicSync st1) + 1
        | (some _, st1) => visitParseNullCount declP stmtFuel fuel st1
      else
        match parseStatement declP stmtFuel st with
        | (none, st1) => visitParseNullCount declP stmtFuel fuel (panicSync st1) + 1
        | (some _, st1) => visitParseNullCount declP stmtFuel fuel st1
    else 0

/-- A declaration parser standing for the late-bound `declVisitor_` pointer
in runs that never reach a declaration: it returns the null sentinel
without touching the state. -/
def declParserNull : DeclParser := fun st => (none, st)

end Vis

namespace Vis

/-- Modelled from the spec: the resolved-type lattice of spec section 3.4.
The header resolved_type.h is not part of the sources; the constructors
follow `Void | Int | Float | Bool | String | Error | Named | Array |
Pointer | Reference | Function | Union | Smart | Template` with the
structural payloads named there. -/
inductive ResolvedType where
  | void
  | int
  | float
  | bool
  | string
  | error
  | named (name : String)
  | array (elementType : ResolvedType)
  | pointer (pointee : ResolvedType) (unsafeFlag : Bool)
  | reference (pointee : ResolvedType)
  | function (returnType : ResolvedType) (parameterTypes : List ResolvedType)
  | union (a : ResolvedType) (b : ResolvedType)
  | smart (pointee : ResolvedType) (kind : SmartPointerKind)
  | template (name : String) (args : List ResolvedType)

/-- Modelled from the spec: the TypeKind discriminator returned by
`ResolvedType::getKind`. -/
inductive TypeKind where
  | voidK | intK | floatK | boolK | stringK | errorK | namedK | arrayK | pointerK
  | referenceK | functionK | unionK | smartK | templateK
deriving DecidableEq, Repr

/-- ResolvedType::getKind. -/
def ResolvedType.kind : ResolvedType → TypeKind
  | .void => .voidK
  | .int => .intK
  | .float => .floatK
  | .bool => .boolK
  | .string => .stringK
  | .error => .errorK
  | .named _ => .namedK
  | .array _ => .arrayK
  | .pointer _ _ => .pointerK
  | .reference _ => .referenceK
  | .function _ _ => .functionK
  | .union _ _ => .unionK
  | .smart _ _ => .smartK
  | .template _ _ => .templateK

mutual

/-- Modelled from the spec: structural, kind-sensitive equality on resolved
types (spec section 4.9); union equivalence is order-insensitive. -/
def rtBeq : ResolvedType → ResolvedType → Bool
  | .void, .void => true
  | .int, .int => true
  | .float, .float => true
  | .bool, .bool => true
  | .string, .string => true
  | .error, .error => true
  | .named n, .named m => n = m
  | .array a, .array b => rtBeq a b
  | .pointer p u, .pointer q v => rtBeq p q && u = v
  | .reference p, .reference q => rtBeq p q
  | .function r ps, .function s qs => rtBeq r s && rtBeqList ps qs
  | .union a b, .union c d => (rtBeq a c && rtBeq b d) || (rtBeq a d && rtBeq b c)
  | .smart p k, .smart q l => rtBeq p q && k = l
  | .template n a, .template m b => n = m && rtBeqList a b
  | _, _ => false

def rtBeqList : List ResolvedType → List ResolvedType → Bool
  | [], [] => true
  | x :: xs, y :: ys => rtBeq x y && rtBeqList xs ys
  | _, _ => false

end

mutual

/-- Modelled from the spec: `is_assignable_to` (spec sections 3.4 and 4.9):
structural, covariant in the function return type, invariant in the
parameters, with `Error` assignable to and from everything. -/
def isAssignableTo : ResolvedType → ResolvedType → Bool
  | .error, _ => true
  | .void, .void => true
  | .int, .int => true
  | .float, .float => true
  | .bool, .bool => true
  | .string, .string => true
  | .named n, .named m => n = m
  | .array a, .array b => isAssignableTo a b
  | .pointer p u, .pointer q v => isAssignableTo p q && u = v
  | .reference p, .reference q => isAssignableTo p q
  | .function r ps, .function s qs => isAssignableTo r s && rtBeqList ps qs
  | .union a b, .union c d => (isAssignableTo a c && isAssignableTo b d) ||
      (isAssignableTo a d && isAssignableTo b c)
  | .smart p k, .smart q l => isAssignableTo p q && k = l
  | .template n a, .template m b => n = m && assignableList a b
  | _, .error => true
  | _, _ => false

def assignableList : List ResolvedType → List ResolvedType → Bool
  | [], [] => true
  | x :: xs, y :: ys => isAssignableTo x y && assignableList xs ys
  | _, _ => false

end

/-- Modelled from the spec: `is_implicitly_convertible_to` (spec section
3.4): reflexive, `Error` universal, numeric widening Int to Float, and
reference-to-pointee dereference. -/
def isImplicitlyConvertibleTo (t1 t2 : ResolvedType) : Bool :=
  if rtBeq t1 t2 then true
  else
    match t1, t2 with
    | .error, _ => true
    | _, .error => true
    | .int, .float => true
    | .reference p, t => rtBeq p t
    | _, _ => false

/-- Modelled from the spec: `is_explicitly_convertible_to` (spec section
3.4): implicit conversions plus narrowing Float to Int, numeric-bool
conversions, and pointer-to-pointer casts. -/
def isExplicitlyConvertibleTo (t1 t2 : ResolvedType) : Bool :=
  if isImplicitlyConvertibleTo t1 t2 then true
  else
    match t1, t2 with
    | .float, .int => true
    | .int, .bool => true
    | .float, .bool => true
    | .bool, .int => true
    | .bool, .float => true
    | .pointer _ _, .pointer _ _ => true
    | _, _ => false

/-- Modelled from the spec: `ResolvedType::toString`, used only inside the
message of checkAssignmentCompatibility (display-only; the header is
missing from the sources). -/
def ResolvedType.toText : ResolvedType → String
  | .void => "void"
  | .int => "int"
  | .float => "float"
  | .bool => "bool"
  | .string => "string"
  | .error => "<error>"
  | .named n => n
  | .array _ => "array"
  | .pointer _ _ => "pointer"
  | .reference _ => "reference"
  | .function _ _ => "function"
  | .union _ _ => "union"
  | .smart _ _ => "smart pointer"
  | .template n _ => n

/-- Modelled from the spec: `tokens::isArithmeticOperator` (missing header
tokens/token_type.h); spec section 4.5 lists `* / % + -`. -/
def isArithmeticOperator (t : TokenType) : Bool :=
  t = .PLUS || t = .MINUS || t = .STAR || t = .SLASH || t = .PERCENT

/-- Modelled from the spec: `tokens::isComparisonOperator`; spec section 4.5
lists `< > <= >= == !=`. -/
def isComparisonOperator (t : TokenType) : Bool :=
  t = .LESS || t = .GREATER || t = .LESS_EQUALS || t = .GREATER_EQUALS ||
  t = .EQUALS_EQUALS || t = .EXCLAIM_EQUALS

/-- Modelled from the spec: `tokens::isLogicalOperator`; spec section 4.5
lists `&& ||`. -/
def isLogicalOperator (t : TokenType) : Bool :=
  t = .AMPERSAND_AMPERSAND || t = .PIPE_PIPE

/-- Modelled from the spec: `tokens::isBitwiseOperator`; spec section 4.5
lists `& ^ |`. -/
def isBitwiseOperator (t : TokenType) : Bool :=
  t = .AMPERSAND || t = .CARET || t = .PIPE

/-- Modelled from the spec: one lexical environment frame of the TypeScope
of spec sections 3.5 and 4.10 (the header type_scope.h is missing from
the sources): the three disjoint name maps (variables, functions, types). -/
structure ScopeFrame where
  vars : List (String × ResolvedType)
  funcs : List (String × ResolvedType)
  typeDefs : List (String × ResolvedType)

/-- Modelled from the spec: a scope is a chain of frames, innermost first
(the `parent` pointers of spec section 3.5). -/
def Scope : Type := List ScopeFrame

/-- Modelled from the spec: TypeScope::declareVariable into the innermost
frame. -/
def declareVariable (s : Scope) (name : String) (ty : ResolvedType) : Scope :=
  match s with
  | [] => [⟨[(name, ty)], [], []⟩]
  | f :: rest => { f with vars := (name, ty) :: f.vars } :: rest

/-- Modelled from the spec: TypeScope::declareFunction. -/
def declareFunction (s : Scope) (name : String) (ty : ResolvedType) : Scope :=
  match s with
  | [] => [⟨[], [(name, ty)], []⟩]
  | f :: rest => { f with funcs := (name, ty) :: f.funcs } :: rest

/-- Modelled from the spec: TypeScope::declareType. -/
def declareType (s : Scope) (name : String) (ty : ResolvedType) : Scope :=
  match s with
  | [] => [⟨[], [], [(name, ty)]⟩]
  | f :: rest => { f with typeDefs := (name, ty) :: f.typeDefs } :: rest

/-- First binding of a name in an association list. -/
def lookupAssoc (l : List (String × ResolvedType)) (name : String) : Option ResolvedType :=
  match l with
  | [] => none
  | (n, t) :: rest => if n = name then some t else lookupAssoc rest name

/-- Modelled from the spec: TypeScope::lookupVariable walks the frames
outward. -/
def lookupVariable (s : Scope) (name : String) : Option ResolvedType :=
  match s with
  | [] => none
  | f :: rest =>
    match lookupAssoc f.vars name with
    | some t => some t
    | none => lookupVariable rest name

/-- Modelled from the spec: TypeScope::lookupFunction. -/
def lookupFunction (s : Scope) (name : String) : Option ResolvedType :=
  match s with
  | [] => none
  | f :: rest =>
    match lookupAssoc f.funcs name with
    | some t => some t
    | none => lookupFunction rest name

/-- Modelled from the spec: TypeScope::lookupType. -/
def lookupType (s : Scope) (name : String) : Option ResolvedType :=
  match s with
  | [] => none
  | f :: rest =>
    match lookupAssoc f.typeDefs name with
    | some t => some t
    | none => lookupType rest name

/-- Modelled from the spec: TypeScope::createChildScope. -/
def createChildScope (s : Scope) : Scope := ⟨[], [], []⟩ :: s

/-- Mutable state of TypeCheckVisitor: the current scope, the
current-function return type (a null shared_ptr before any function is
entered) and the shared error reporter. -/
structure TcSt where
  scope : Scope
  currentFunctionReturnType : Option ResolvedType
  rep : ErrorReporter

/-- TypeCheckVisitor::error. -/
def tcError (st : TcSt) (location : SourceLocation) (message : String) : TcSt :=
  { st with rep := st.rep.error location message }

/-- Scope built by the TypeCheckVisitor constructor: the built-in types in
the global scope. -/
def initialScope : Scope :=
  [⟨[], [], [("void", .void), ("int", .int), ("float", .float), ("bool", .bool),
    ("string", .string)]⟩]

/-- Initial checker state. -/
def initTcSt : TcSt := ⟨initialScope, none, ⟨[], 0⟩⟩

/-- TypeCheckVisitor::checkBinaryOp (type_check_visitor.cpp). -/
def checkBinaryOp (op : TokenType) (leftType rightType : ResolvedType)
    (location : SourceLocation) (st : TcSt) : ResolvedType × TcSt :=
  if isArithmeticOperator op then
    if (leftType.kind = .intK ∨ leftType.kind = .floatK) ∧
        (rightType.kind = .intK ∨ rightType.kind = .floatK) then
      if leftType.kind = .floatK ∨ rightType.kind = .floatK then (.float, st) else (.int, st)
    else if op = .PLUS ∧ (leftType.kind = .stringK ∨ rightType.kind = .stringK) then
      (.string, st)
    else (.error, tcError st location "Invalid operands for arithmetic operator")
  else if isComparisonOperator op then
    if isAssignableTo leftType rightType || isAssignableTo rightType leftType then (.bool, st)
    else (.error, tcError st location "Cannot compare incompatible types")
  else if isLogicalOperator op then
    if isImplicitlyConvertibleTo leftType .bool && isImplicitlyConvertibleTo rightType .bool then
      (.bool, st)
    else (.error, tcError st location "Logical operators require boolean operands")
  else if isBitwiseOperator op then
    if leftType.kind = .intK ∧ rightType.kind = .intK then (.int, st)
    else (.error, tcError st location "Bitwise operators require integer operands")
  else (.error, tcError st location "Unhandled binary operator in type checking")

/-- TypeCheckVisitor::checkUnaryOp. -/
def checkUnaryOp (op : TokenType) (operandType : ResolvedType) (_prefixFlag : Bool)
    (location : SourceLocation) (st : TcSt) : ResolvedType × TcSt :=
  match op with
  | .PLUS | .MINUS =>
    if operandType.kind = .intK ∨ operandType.kind = .floatK then (operandType, st)
    else (.error, tcError st location "Unary +/- requires numeric operand")
  | .EXCLAIM =>
    if isImplicitlyConvertibleTo operandType .bool then (.bool, st)
    else (.error, tcError st location "Logical NOT requires boolean operand")
  | .TILDE =>
    if operandType.kind = .intK then (.int, st)
    else (.error, tcError st location "Bitwise NOT requires integer operand")
  | .PLUS_PLUS | .MINUS_MINUS =>
    if operandType.kind = .intK ∨ operandType.kind = .floatK then (operandType, st)
    else (.error, tcError st location "Increment/decrement requires numeric operand")
  | _ => (.error, tcError st location "Unhandled unary operator in type checking")

/-- TypeCheckVisitor::checkAssignmentCompatibility. -/
def checkAssignmentCompatibility (targetType valueType : ResolvedType)
    (location : SourceLocation) (st : TcSt) : Bool × TcSt :=
  if isAssignableTo valueType targetType then (true, st)
  else (false, tcError st location ("Cannot assign " ++ valueType.toText ++ " to " ++
    targetType.toText))

/-- TypeCheckVisitor::visitLiteralExpr. -/
def visitLiteralExpr (loc : SourceLocation) (ty : TokenType) (value : String)
    (st : TcSt) : ResolvedType × TcSt :=
  match ty with
  | .NUMBER => if value.toList.contains (Char.ofNat 46) then (.float, st) else (.int, st)
  | .STRING_LITERAL => (.string, st)
  | .TRUE => (.bool, st)
  | .FALSE => (.bool, st)
  | _ => (.error, tcError st loc "Unknown literal type")

/-- TypeCheckVisitor::visitIdentifierExpr: variable lookup, then function
lookup. -/
def visitIdentifierExpr (loc : SourceLocation) (name : String) (st : TcSt) :
    ResolvedType × TcSt :=
  match lookupVariable st.scope name with
  | some varType => (varType, st)
  | none =>
    match lookupFunction st.scope name with
    | some fnType => (fnType, st)
    | none => (.error, tcError st loc ("Undefined identifier: " ++ name))

mutual

/-- TypeCheckVisitor::visitExpr: the dynamic_cast dispatch, in source
order. -/
def visitExpr : Nat → Expr → TcSt → ResolvedType × TcSt
  | 0, _, st => (.error, st)
  | fuel+1, e, st =>
    match e with
    | .binary loc op left right => visitBinaryExpr fuel loc op left right st
    | .unary loc op operand prefixFlag => visitUnaryExpr fuel loc op operand prefixFlag st
    | .literal loc ty value => visitLiteralExpr loc ty value st
    | .identifier loc name => visitIdentifierExpr loc name st
    | .callExpr loc callee args => visitCallExpr fuel loc callee args st
    | .assignment loc op target value => visitAssignmentExpr fuel loc op target value st
    | .member loc obj memberName isPointer => visitMemberExpr fuel loc obj memberName isPointer st
    | .index loc array idx => visitIndexExpr fuel loc array idx st
    | .newExpr loc className args => visitNewExpr loc className args st
    | .castExpr loc targetType expr => visitCastExpr fuel loc targetType expr st
    | .arrayLiteral loc elements => visitArrayLiteral fuel loc elements st
    | .thisExpr loc => (.error, tcError st loc "Unhandled expression type in type checking")

/-- TypeCheckVisitor::visitBinaryExpr. -/
def visitBinaryExpr : Nat → SourceLocation → TokenType → Expr → Expr → TcSt →
    ResolvedType × TcSt
  | 0, _, _, _, _, st => (.error, st)
  | fuel+1, loc, op, left, right, st =>
    let (leftType, st1) := visitExpr fuel left st
    let (rightType, st2) := visitExpr fuel right st1
    checkBinaryOp op leftType rightType loc st2

/-- TypeCheckVisitor::visitUnaryExpr. -/
def visitUnaryExpr : Nat → SourceLocation → TokenType → Expr → Bool → TcSt →
    ResolvedType × TcSt
  | 0, _, _, _, _, st => (.error, st)
  | fuel+1, loc, op, operand, prefixFlag, st =>
    let (operandType, st1) := visitExpr fuel operand st
    checkUnaryOp op operandType prefixFlag loc st1

/-- TypeCheckVisitor::visitCallExpr. -/
def visitCallExpr : Nat → SourceLocation → Expr → List Expr → TcSt → ResolvedType × TcSt
  | 0, _, _, _, st => (.error, st)
  | fuel+1, loc, callee, args, st =>
    let (calleeType, st1) := visitExpr fuel callee st
    match calleeType with
    | .function returnType paramTypes =>
      if paramTypes.length ≠ args.length then
        (.error, tcError st1 loc "Wrong number of arguments")
      else
        let st2 := visitCallArgs fuel args paramTypes st1
        (returnType, st2)
    | _ => (.error, tcError st1 callee.loc "Cannot call non-function type")

/-- Argument loop of visitCallExpr: each argument is visited and checked
against the corresponding parameter type. -/
def visitCallArgs : Nat → List Expr → List ResolvedType → TcSt → TcSt
  | 0, _, _, st => st
  | _+1, [], _, st => st
  | fuel+1, arg :: args, paramTypes, st =>
    let (argType, st1) := visitExpr fuel arg st
    let st2 :=
      match paramTypes with
      | [] => st1
      | p :: _ =>
        if ¬ isAssignableTo argType p then
          tcError st1 arg.loc "Argument type mismatch"
        else st1
    visitCallArgs fuel args (paramTypes.drop 1) st2

/-- TypeCheckVisitor::visitAssignmentExpr. -/
def visitAssignmentExpr : Nat → SourceLocation → TokenType → Expr → Expr → TcSt →
    ResolvedType × TcSt
  | 0, _, _, _, _, st => (.error, st)
  | fuel+1, loc, op, target, value, st =>
    let (targetType, st1) := visitExpr fuel target st
    let (valueType, st2) := visitExpr fuel value st1
    if op = .EQUALS then
      let (ok, st3) := checkAssignmentCompatibility targetType valueType loc st2
      if ¬ ok then (.error, tcError st3 loc "Cannot assign incompatible type")
      else (targetType, st3)
    else
      let binaryOp : Option TokenType :=
        match op with
        | .PLUS_EQUALS => some .PLUS
        | .MINUS_EQUALS => some .MINUS
        | .STAR_EQUALS => some .STAR
        | .SLASH_EQUALS => some .SLASH
        | .PERCENT_EQUALS => some .PERCENT
        | _ => none
      match binaryOp with
      | none => (.error, tcError st2 loc "Unsupported compound assignment operator")
      | some bop =>
        let (resultType, st3) := checkBinaryOp bop targetType valueType loc st2
        if ¬ isAssignableTo resultType targetType then
          (.error, tcError st3 loc "Result of compound assignment is not assignable to target")
        else (targetType, st3)

/-- TypeCheckVisitor::visitMemberExpr (type_check_visitor.cpp, lines
610-620): visit the object, then unconditionally report that member
access checking is not implemented and produce the Error type. -/
def visitMemberExpr : Nat → SourceLocation → Expr → String → Bool → TcSt →
    ResolvedType × TcSt
  | 0, _, _, _, _, st => (.error, st)
  | fuel+1, loc, obj, _, _, st =>
    let (_, st1) := visitExpr fuel obj st
    (.error, tcError st1 loc "Member access type checking not implemented")

/-- TypeCheckVisitor::visitIndexExpr. -/
def visitIndexExpr : Nat → SourceLocation → Expr → Expr → TcSt → ResolvedType × TcSt
  | 0, _, _, _, st => (.error, st)
  | fuel+1, _, array, idx, st =>
    let (arrayType, st1) := visitExpr fuel array st
    let (indexType, st2) := visitExpr fuel idx st1
    match arrayType with
    | .array elementType =>
      let st3 :=
        if ¬ isAssignableTo indexType .int then
          tcError st2 idx.loc "Array index must be an integer"
        else st2
      (elementType, st3)
    | _ => (.error, tcError st2 array.loc "Cannot index non-array type")

/-- TypeCheckVisitor::visitNewExpr: the class name must resolve; constructor
arguments are not checked. -/
def visitNewExpr (loc : SourceLocation) (className : String) (_args : List Expr)
    (st : TcSt) : ResolvedType × TcSt :=
  match lookupType st.scope className with
  | none => (.error, tcError st loc ("Undefined class: " ++ className))
  | some classType => (classType, st)

/-- TypeCheckVisitor::visitCastExpr. -/
def visitCastExpr : Nat → SourceLocation → String → Expr → TcSt → ResolvedType × TcSt
  | 0, _, _, _, st => (.error, st)
  | fuel+1, loc, targetTypeName, expr, st =>
    let (exprType, st1) := visitExpr fuel expr st
    match lookupType st1.scope targetTypeName with
    | none => (.error, tcError st1 loc ("Undefined type: " ++ targetTypeName))
    | some targetType =>
      if ¬ isExplicitlyConvertibleTo exprType targetType then
        (.error, tcError st1 loc "Invalid cast")
      else (targetType, st1)

/-- TypeCheckVisitor::visitArrayLiteral (type_check_visitor.cpp, lines
679-705): an empty literal is an error of type Error; otherwise the first
element fixes the element type and every later element must be assignable
to it. -/
def visitArrayLiteral : Nat → SourceLocation → List Expr → TcSt → ResolvedType × TcSt
  | 0, _, _, st => (.error, st)
  | fuel+1, loc, elements, st =>
    match elements with
    | [] => (.error, tcError st loc "Cannot determine type of empty array literal")
    | e1 :: rest =>
      let (elementType, st1) := visitExpr fuel e1 st
      visitArrayElems fuel elementType rest st1

/-- Element-compatibility loop of visitArrayLiteral. -/
def visitArrayElems : Nat → ResolvedType → List Expr → TcSt → ResolvedType × TcSt
  | 0, _, _, st => (.error, st)
  | _+1, elementType, [], st => (.array elementType, st)
  | fuel+1, elementType, e :: rest, st =>
    let (nextType, st1) := visitExpr fuel e st
    if ¬ isAssignableTo nextType elementType then
      (.error, tcError st1 e.loc "Array elements must have compatible types")
    else visitArrayElems fuel elementType rest st1

end

end Vis

namespace Vis

/-- StatementNode::getLocation. -/
def stmtLoc : Stmt → SourceLocation
  | .block _ l => l
  | .exprStmt _ l => l
  | .ifStmt _ _ _ l => l
  | .whileStmt _ _ l => l
  | .doWhileStmt _ _ l => l
  | .forStmt _ _ _ _ l => l
  | .forOfStmt _ _ _ _ l => l
  | .returnStmt _ l => l
  | .breakStmt _ l => l
  | .continueStmt _ l => l
  | .throwStmt _ l => l
  | .tryStmt _ _ _ l => l
  | .declStmt _ l => l
/-- TypeNode::getLocation. -/
def tyLoc : Ty → SourceLocation
  | .primitive _ l => l
  | .namedType _ l => l
  | .arrayType _ _ l => l
  | .pointerType _ _ _ l => l
  | .referenceType _ l => l
  | .smartPointer _ _ l => l
  | .templateType _ _ l => l
  | .unionType _ _ l => l
  | .functionType _ _ l => l
/-- TypeCheckVisitor::visitPrimitiveType. -/
def visitPrimitiveType (ty : TokenType) (loc : SourceLocation) (st : TcSt) :
    ResolvedType × TcSt :=
  match ty with
  | .VOID => (.void, st)
  | .INT => (.int, st)
  | .FLOAT => (.float, st)
  | .BOOLEAN => (.bool, st)
  | .STRING => (.string, st)
  | _ => (.error, tcError st loc "Unknown primitive type")
/-- TypeCheckVisitor::visitNamedType. -/
def visitNamedType (name : String) (loc : SourceLocation) (st : TcSt) :
    ResolvedType × TcSt :=
  match lookupType st.scope name with
  | none => (.error, tcError st loc ("Undefined type: " ++ name))
  | some ty => (ty, st)
/-- TypeCheckVisitor::visitClassDecl: a placeholder Named type. -/
def visitClassDecl (name : String) (_loc : SourceLocation) (st : TcSt) :
    ResolvedType × TcSt :=
  (.named name, st)
/-- TypeCheckVisitor::visitEnumDecl. -/
def visitEnumDecl (name : String) (_loc : SourceLocation) (st : TcSt) :
    ResolvedType × TcSt :=
  (.named name, st)
/-- TypeCheckVisitor::visitInterfaceDecl. -/
def visitInterfaceDecl (name : String) (_loc : SourceLocation) (st : TcSt) :
    ResolvedType × TcSt :=
  (.named name, st)


mutual

/-- TypeCheckVisitor::visitStmt: the dynamic_cast dispatch; statement kinds
without a branch (do-while, for-of, try, throw, break, continue) fall
into the unhandled case, exactly as their failed casts do in the C++
chain. -/
def visitStmt : Nat → Stmt → TcSt → ResolvedType × TcSt
  | 0, _, st => (.error, st)
  | fuel+1, s, st =>
    match s with
    | .exprStmt e _ => visitExprStmt fuel e st
    | .block stmts _ => visitBlock fuel stmts st
    | .ifStmt c t e _ => visitIfStmt fuel c t e st
    | .whileStmt c b _ => visitWhileStmt fuel c b st
    | .forStmt i c inc b _ => visitForStmt fuel i c inc b st
    | .returnStmt v loc => visitReturnStmt fuel v loc st
    | .declStmt d _loc =>
      match d with
      | .varDecl name ty init sc isConst dloc =>
        visitVarDecl fuel name ty init sc isConst dloc st
      | .funcDecl name params retTy throwsTypes mods body isAsync dloc =>
        visitFuncDecl fuel name params retTy throwsTypes mods body isAsync dloc st
      | .classDecl name dloc => visitClassDecl name dloc st
      | .enumDecl name dloc => visitEnumDecl name dloc st
      | .interfaceDecl name dloc => visitInterfaceDecl name dloc st
    | other => (.error, tcError st (stmtLoc other) "Unhandled statement type in type checking")

/-- TypeCheckVisitor::visitExprStmt: evaluate the expression, discard its
type. -/
def visitExprStmt : Nat → Expr → TcSt → ResolvedType × TcSt
  | 0, _, st => (.error, st)
  | fuel+1, e, st =>
    let (_, st1) := visitExpr fuel e st
    (.void, st1)

/-- TypeCheckVisitor::visitBlock: a child scope for the statements, restored
afterwards. -/
def visitBlock : Nat → List Stmt → TcSt → ResolvedType × TcSt
  | 0, _, st => (.error, st)
  | fuel+1, stmts, st =>
    let saved := st.scope
    let st1 := { st with scope := createChildScope st.scope }
    let st2 := visitBlockStmts fuel stmts st1
    (.void, { st2 with scope := saved })

/-- Statement loop of visitBlock. -/
def visitBlockStmts : Nat → List Stmt → TcSt → TcSt
  | 0, _, st => st
  | _+1, [], st => st
  | fuel+1, s :: rest, st =>
    let (_, st1) := visitStmt fuel s st
    visitBlockStmts fuel rest st1

/-- TypeCheckVisitor::visitIfStmt. -/
def visitIfStmt : Nat → Expr → Stmt → Option Stmt → TcSt → ResolvedType × TcSt
  | 0, _, _, _, st => (.error, st)
  | fuel+1, cond, thenBranch, elseBranch, st =>
    let (condType, st1) := visitExpr fuel cond st
    let st2 :=
      if ¬ isImplicitlyConvertibleTo condType .bool then
        tcError st1 cond.loc "If condition must be convertible to boolean"
      else st1
    let (_, st3) := visitStmt fuel thenBranch st2
    match elseBranch with
    | some e =>
      let (_, st4) := visitStmt fuel e st3
      (.void, st4)
    | none => (.void, st3)

/-- TypeCheckVisitor::visitWhileStmt. -/
def visitWhileStmt : Nat → Expr → Stmt → TcSt → ResolvedType × TcSt
  | 0, _, _, st => (.error, st)
  | fuel+1, cond, body, st =>
    let (condType, st1) := visitExpr fuel cond st
    let st2 :=
      if ¬ isImplicitlyConvertibleTo condType .bool then
        tcError st1 cond.loc "While condition must be convertible to boolean"
      else st1
    let (_, st3) := visitStmt fuel body st2
    (.void, st3)

/-- TypeCheckVisitor::visitForStmt: its own child scope around all four
parts. -/
def visitForStmt : Nat → Option Stmt → Option Expr → Option Expr → Stmt → TcSt →
    ResolvedType × TcSt
  | 0, _, _, _, _, st => (.error, st)
  | fuel+1, initializer, condition, increment, body, st =>
    let saved := st.scope
    let st1 := { st with scope := createChildScope st.scope }
    let st2 :=
      match initializer with
      | some i => (visitStmt fuel i st1).2
      | none => st1
    let st3 :=
      match condition with
      | some c =>
        let (condType, stc) := visitExpr fuel c st2
        if ¬ isImplicitlyConvertibleTo condType .bool then
          tcError stc c.loc "For loop condition must be convertible to boolean"
        else stc
      | none => st2
    let st4 :=
      match increment with
      | some inc => (visitExpr fuel inc st3).2
      | none => st3
    let (_, st5) := visitStmt fuel body st4
    (.void, { st5 with scope := saved })

/-- TypeCheckVisitor::visitReturnStmt: the returned type (Void for a bare
return) must be assignable to the current function return type.  The C++
code dereferences the `currentFunctionReturnType_` shared_ptr, which is
null outside any function; that (undefined-behaviour) case is modelled as
the Error type. -/
def visitReturnStmt : Nat → Option Expr → SourceLocation → TcSt → ResolvedType × TcSt
  | 0, _, _, st => (.error, st)
  | fuel+1, value, loc, st =>
    let (returnedType, st1) :=
      match value with
      | some v => visitExpr fuel v st
      | none => (.void, st)
    let fnRet := st1.currentFunctionReturnType.getD .error
    let st2 :=
      if ¬ isAssignableTo returnedType fnRet then
        tcError st1 loc "Return value type doesn\x27t match function return type"
      else st1
    (.void, st2)

/-- TypeCheckVisitor::visitVarDecl. -/
def visitVarDecl : Nat → String → Option Ty → Option Expr → TokenType → Bool →
    SourceLocation → TcSt → ResolvedType × TcSt
  | 0, _, _, _, _, _, _, st => (.error, st)
  | fuel+1, name, tyNode, initializer, _, _, loc, st =>
    let (initType, st1) :=
      match initializer with
      | some init =>
        let (t, s) := visitExpr fuel init st
        ((some t : Option ResolvedType), s)
      | none => (none, st)
    let (declaredType, st2) :=
      match tyNode with
      | some t =>
        let (rt, s) := visitType fuel t st1
        ((some rt : Option ResolvedType), s)
      | none => (none, st1)
    match declaredType, initType with
    | some dt, some it =>
      let (ok, st3) := checkAssignmentCompatibility dt it loc st2
      if ¬ ok then (.error, tcError st3 loc "Initializer type doesn\x27t match variable type")
      else
        let st4 := { st3 with scope := declareVariable st3.scope name dt }
        (dt, st4)
    | some dt, none =>
      let st3 := { st2 with scope := declareVariable st2.scope name dt }
      (dt, st3)
    | none, some it =>
      let st3 := { st2 with scope := declareVariable st2.scope name it }
      (it, st3)
    | none, none =>
      (.error, tcError st2 loc
        ("Variable declaration needs either a type or an initializer for type inference"))

/-- TypeCheckVisitor::visitFuncDecl: child scope, parameters, return type,
body; the function type is installed in the enclosing scope. -/
def visitFuncDecl : Nat → String → List Param → Option Ty → List Ty → List TokenType →
    Option Stmt → Bool → SourceLocation → TcSt → ResolvedType × TcSt
  | 0, _, _, _, _, _, _, _, _, st => (.error, st)
  | fuel+1, name, params, retTy, _, _, body, _, _, st =>
    let savedScope := st.scope
    let savedRet := st.currentFunctionReturnType
    let st1 := { st with scope := createChildScope st.scope }
    let (returnType, st2) :=
      match retTy with
      | some t => visitType fuel t st1
      | none => (.void, st1)
    let st3 := { st2 with currentFunctionReturnType := some returnType }
    let (paramTypes, st4) := visitParams fuel params st3
    let functionType : ResolvedType := .function returnType paramTypes
    let st5 :=
      match body with
      | some b =>
        match b with
        | .block stmts _ => (visitBlock fuel stmts st4).2
        | other => (visitStmt fuel other st4).2
      | none => st4
    let restoredScope := declareFunction savedScope name functionType
    ((functionType : ResolvedType),
     { st5 with scope := restoredScope, currentFunctionReturnType := savedRet })

/-- Parameter loop of visitFuncDecl: visit each parameter type and declare
it in the function scope. -/
def visitParams : Nat → List Param → TcSt → List ResolvedType × TcSt
  | 0, _, st => ([], st)
  | _+1, [], st => ([], st)
  | fuel+1, .mk name ty _ isRef _ _ :: rest, st =>
    let (paramType0, st1) := visitType fuel ty st
    let paramType := if isRef then ResolvedType.reference paramType0 else paramType0
    let st2 := { st1 with scope := declareVariable st1.scope name paramType }
    let (restTypes, st3) := visitParams fuel rest st2
    (paramType :: restTypes, st3)

/-- TypeCheckVisitor::visitType: the dynamic_cast dispatch; reference and
qualified types have no branch and fall into the unhandled case. -/
def visitType : Nat → Ty → TcSt → ResolvedType × TcSt
  | 0, _, st => (.error, st)
  | fuel+1, t, st =>
    match t with
    | .primitive ty loc => visitPrimitiveType ty loc st
    | .namedType name loc => visitNamedType name loc st
    | .arrayType elementType size loc => visitArrayType fuel elementType size loc st
    | .pointerType baseType kind _ _ => visitPointerType fuel baseType kind st
    | .functionType returnType paramTypes _ => visitFunctionType fuel returnType paramTypes st
    | .unionType left right _ => visitUnionType fuel left right st
    | .smartPointer pointee kind _ => visitSmartPointerType fuel pointee kind st
    | .templateType base arguments loc => visitTemplateType fuel base arguments loc st
    | .referenceType _ loc => (.error, tcError st loc "Unhandled type in type checking")

/-- TypeCheckVisitor::visitArrayType. -/
def visitArrayType : Nat → Ty → Option Expr → SourceLocation → TcSt → ResolvedType × TcSt
  | 0, _, _, _, st => (.error, st)
  | fuel+1, elementTy, size, _, st =>
    let (elementType, st1) := visitType fuel elementTy st
    let st2 :=
      match size with
      | some sz =>
        let (sizeType, sts) := visitExpr fuel sz st1
        if ¬ isAssignableTo sizeType .int then
          tcError sts sz.loc "Array size must be an integer"
        else sts
      | none => st1
    (.array elementType, st2)

/-- TypeCheckVisitor::visitPointerType. -/
def visitPointerType : Nat → Ty → PointerKind → TcSt → ResolvedType × TcSt
  | 0, _, _, st => (.error, st)
  | fuel+1, baseTy, kind, st =>
    let (pointeeType, st1) := visitType fuel baseTy st
    (.pointer pointeeType (kind = .unsafeKind), st1)

/-- TypeCheckVisitor::visitFunctionType. -/
def visitFunctionType : Nat → Ty → List Ty → TcSt → ResolvedType × TcSt
  | 0, _, _, st => (.error, st)
  | fuel+1, returnTy, paramTys, st =>
    let (returnType, st1) := visitType fuel returnTy st
    let (paramTypes, st2) := visitTypeList fuel paramTys st1
    (.function returnType paramTypes, st2)

/-- Type-list loops of visitFunctionType and visitTemplateType. -/
def visitTypeList : Nat → List Ty → TcSt → List ResolvedType × TcSt
  | 0, _, st => ([], st)
  | _+1, [], st => ([], st)
  | fuel+1, t :: rest, st =>
    let (rt, st1) := visitType fuel t st
    let (restTypes, st2) := visitTypeList fuel rest st1
    (rt :: restTypes, st2)

/-- TypeCheckVisitor::visitUnionType. -/
def visitUnionType : Nat → Ty → Ty → TcSt → ResolvedType × TcSt
  | 0, _, _, st => (.error, st)
  | fuel+1, left, right, st =>
    let (leftType, st1) := visitType fuel left st
    let (rightType, st2) := visitType fuel right st1
    (.union leftType rightType, st2)

/-- TypeCheckVisitor::visitSmartPointerType. -/
def visitSmartPointerType : Nat → Ty → SmartPointerKind → TcSt → ResolvedType × TcSt
  | 0, _, _, st => (.error, st)
  | fuel+1, pointeeTy, kind, st =>
    let (pointeeType, st1) := visitType fuel pointeeTy st
    (.smart pointeeType kind, st1)

/-- TypeCheckVisitor::visitTemplateType: the base must resolve to a Named
type. -/
def visitTemplateType : Nat → Ty → List Ty → SourceLocation → TcSt → ResolvedType × TcSt
  | 0, _, _, _, st => (.error, st)
  | fuel+1, base, arguments, _, st =>
    let (baseType, st1) := visitType fuel base st
    let (argTypes, st2) := visitTypeList fuel arguments st1
    match baseType with
    | .named n => (.template n argTypes, st2)
    | _ => (.error, tcError st2 (tyLoc base) "Template base type must be a named type")

end








/-- Pass 1 of TypeCheckVisitor::checkAST: install a Named type for every
top-level class, enum and interface declaration. -/
def checkASTPass1 : List VNode → TcSt → TcSt
  | [], st => st
  | node :: rest, st =>
    let st1 :=
      match node with
      | .declNode (.classDecl name loc) =>
        let (ty, s) := visitClassDecl name loc st
        { s with scope := declareType s.scope name ty }
      | .declNode (.enumDecl name loc) =>
        let (ty, s) := visitEnumDecl name loc st
        { s with scope := declareType s.scope name ty }
      | .declNode (.interfaceDecl name loc) =>
        let (ty, s) := visitInterfaceDecl name loc st
        { s with scope := declareType s.scope name ty }
      | _ => st
    checkASTPass1 rest st1

/-- Pass 2 of TypeCheckVisitor::checkAST: check variable declarations,
function declarations and statements; `success` is cleared whenever one
of them resolves to the Error kind. -/
def checkASTPass2 (fuel : Nat) : List VNode → TcSt → Bool → Bool × TcSt
  | [], st, success => (success, st)
  | node :: rest, st, success =>
    let (tyO, st1) :=
      match node with
      | .declNode (.varDecl name ty init sc isConst loc) =>
        let (t, s) := visitVarDecl fuel name ty init sc isConst loc st
        ((some t : Option ResolvedType), s)
      | .declNode (.funcDecl name params retTy throwsTypes mods body isAsync loc) =>
        let (t, s) := visitFuncDecl fuel name params retTy throwsTypes mods body isAsync loc st
        ((some t : Option ResolvedType), s)
      | .stmtNode stmt =>
        let (t, s) := visitStmt fuel stmt st
        ((some t : Option ResolvedType), s)
      | _ => (none, st)
    let success1 :=
      match tyO with
      | some t => if t.kind = .errorK then false else success
      | none => success
    checkASTPass2 fuel rest st1 success1

/-- TypeCheckVisitor::checkAST: both passes over the top-level nodes. -/
def checkAST (fuel : Nat) (nodes : List VNode) (st : TcSt) : Bool × TcSt :=
  let st1 := checkASTPass1 nodes st
  checkASTPass2 fuel nodes st1 true

end Vis

namespace SimpleParser

/-- The two-line source of the ASI scenario behind claim C4. -/
def c4Plain : String := "let x = 10\nlet y = 20"

/-- The C4 scenario source with the (mandatory) type annotations added. -/
def c4Annotated : String := "let x: int = 10\nlet y: int = 20"

/-- The annotated C4 source with explicit semicolons. -/
def c4AnnotatedSemi : String := "let x: int = 10;\nlet y: int = 20;"

/-- The top-level results the pipeline produces for both annotated C4
variants. -/
def expectedC4 : List (Option Stmt) :=
  [some (.varDeclaration ⟨.IDENTIFIER, "x", 1, 5, ""⟩ "x"
      (.basicType ⟨.TYPE_INT, "int", 1, 8, ""⟩ "int")
      (some (.literal ⟨.NUMBER_LITERAL, "10", 1, 14, ""⟩ "10")) false),
   some (.varDeclaration ⟨.IDENTIFIER, "y", 2, 5, ""⟩ "y"
      (.basicType ⟨.TYPE_INT, "int", 2, 8, ""⟩ "int")
      (some (.literal ⟨.NUMBER_LITERAL, "20", 2, 14, ""⟩ "20")) false)]

end SimpleParser

namespace SimpleLexer

/-- The malformed string literal of claim C1: `"\q"` (an invalid escape). -/
def badEscapeSrc : String := "\"\\q\""

end SimpleLexer

namespace Vis

/-- Fixed location for hand-built scenario tokens. -/
def sLoc : SourceLocation := ⟨"s", 1, 1⟩

/-- Scenario token with an irrelevant location. -/
def tok (ty : TokenType) (lexeme : String) : Token := ⟨ty, lexeme, sLoc, none⟩

/-- Fresh error reporter. -/
def rep0 : ErrorReporter := ⟨[], 0⟩

/-- Claim C2 scenario: the token stream of `{ while ; }`. -/
def c2Tokens : List Token :=
  [tok .LEFT_BRACE "", tok .WHILE "while", tok .SEMICOLON ";", tok .RIGHT_BRACE "", eofToken]

/-- Claim C2 scenario: initial visitor state over `{ while ; }`. -/
def c2St : PSt := ⟨TokenStream.make c2Tokens, rep0⟩

/-- Claim C5 scenario: a stream whose next statement start after the bad
token is a CONST. -/
def c5Stream : TokenStream :=
  ⟨[tok .NUMBER "1", tok .CONST "const", tok .LET "let", eofToken], 0⟩

/-- Claim C6 scenario: the tokens after `const` in `const k: int;`. -/
def c6NoInit : PSt :=
  ⟨⟨[tok .IDENTIFIER "k", tok .COLON ":", tok .INT "int", tok .SEMICOLON ";", eofToken], 0⟩, rep0⟩

/-- Claim C6 witness scenario: the tokens after `const` in
`const k: int = 5;`. -/
def c6WithInit : PSt :=
  ⟨⟨[tok .IDENTIFIER "k", tok .COLON ":", tok .INT "int", tok .EQUALS "=", tok .NUMBER "5",
     tok .SEMICOLON ";", eofToken], 0⟩, rep0⟩

/-- Claim C7 scenario (a): `for (let i = 0; i < n; i = i + 1) j;`, positioned
after the FOR token. -/
def c7RegularLet : PSt :=
  ⟨⟨[tok .FOR "for", tok .LEFT_PAREN "(", tok .LET "let", tok .IDENTIFIER "i", tok .EQUALS "=",
     tok .NUMBER "0", tok .SEMICOLON ";", tok .IDENTIFIER "i", tok .LESS "<",
     tok .IDENTIFIER "n", tok .SEMICOLON ";", tok .IDENTIFIER "i", tok .EQUALS "=",
     tok .IDENTIFIER "i", tok .PLUS "+", tok .NUMBER "1", tok .RIGHT_PAREN ")",
     tok .IDENTIFIER "j", tok .SEMICOLON ";", eofToken], 1⟩, rep0⟩

/-- Claim C7 scenario (b): `for (let x of arr) j;`, positioned after the FOR
token. -/
def c7ForOf : PSt :=
  ⟨⟨[tok .FOR "for", tok .LEFT_PAREN "(", tok .LET "let", tok .IDENTIFIER "x", tok .OF "of",
     tok .IDENTIFIER "arr", tok .RIGHT_PAREN ")", tok .IDENTIFIER "j", tok .SEMICOLON ";",
     eofToken], 1⟩, rep0⟩

/-- Claim C7 scenario (c): `for (i = 0; i < n; i = i + 1) j;`, positioned
after the FOR token. -/
def c7Regular : PSt :=
  ⟨⟨[tok .FOR "for", tok .LEFT_PAREN "(", tok .IDENTIFIER "i", tok .EQUALS "=",
     tok .NUMBER "0", tok .SEMICOLON ";", tok .IDENTIFIER "i", tok .LESS "<",
     tok .IDENTIFIER "n", tok .SEMICOLON ";", tok .IDENTIFIER "i", tok .EQUALS "=",
     tok .IDENTIFIER "i", tok .PLUS "+", tok .NUMBER "1", tok .RIGHT_PAREN ")",
     tok .IDENTIFIER "j", tok .SEMICOLON ";", eofToken], 1⟩, rep0⟩

/-- Claim C9 scenario: the token stream of the expression `[]`. -/
def c9Empty : PSt := ⟨⟨[tok .LEFT_BRACKET "", tok .RIGHT_BRACKET "", eofToken], 0⟩, rep0⟩

/-- Claim C10 scenario: the expression statement `1.y;` as a top-level node
(a member access inside an expression statement). -/
def c10Node : VNode :=
  .stmtNode (.exprStmt (.member sLoc (.literal sLoc .NUMBER "1") "y" false) sLoc)

/-- Location of the hand-built C8 call tokens. -/
def c8Loc : SourceLocation := ⟨"c8", 1, 1⟩

/-- The repeated argument token of the C8 call scenario. -/
def aTok : Token := ⟨.IDENTIFIER, "a", c8Loc, none⟩

/-- The callee token of the C8 call scenario. -/
def fTok : Token := ⟨.IDENTIFIER, "f", c8Loc, none⟩

/-- Comma token of the C8 call scenario. -/
def commaTok : Token := ⟨.COMMA, ",", c8Loc, none⟩

/-- Opening parenthesis token of the C8 call scenario. -/
def lparenTok : Token := ⟨.LEFT_PAREN, "(", c8Loc, none⟩

/-- Closing parenthesis token of the C8 call scenario. -/
def rparenTok : Token := ⟨.RIGHT_PAREN, ")", c8Loc, none⟩

/-- Tokens of `, a` repeated k times, then `)` and end of file: the tail of
a call argument list with k+1 arguments. -/
def c8Rep : Nat → List Token
  | 0 => [rparenTok, eofToken]
  | k+1 => commaTok :: aTok :: c8Rep k

/-- Tokens of the full call expression `f(a, a, ..., a)` with k+1
arguments. -/
def c8Toks (k : Nat) : List Token := fTok :: lparenTok :: aTok :: c8Rep k

/-- The AST node each parsed `a` argument produces. -/
def aNode : Expr := .identifier c8Loc "a"

/-- The AST node the parsed callee `f` produces. -/
def fNode : Expr := .identifier c8Loc "f"

/-- A literal expression made of a token kind and a lexeme, placed at the
scenario location (used to state claim C9 over lists of literals). -/
def simpleLit (p : TokenType × String) : Expr := .literal sLoc p.1 p.2

/-- Literal token kinds for which visitLiteralExpr resolves a type without
reporting an error. -/
def isSimpleLitKind (t : TokenType) : Bool :=
  t = .NUMBER || t = .STRING_LITERAL || t = .TRUE || t = .FALSE

/-- The resolved type of a simple literal (the type visitLiteralExpr
computes; it depends only on the kind and the lexeme). -/
def litResolved (p : TokenType × String) : ResolvedType :=
  (visitLiteralExpr sLoc p.1 p.2 initTcSt).1

end Vis

/-! ## Theorems -/

namespace SimpleParser

/-- C4 (counterexample): on the spec scenario source `let x = 10` newline
`let y = 20`, the pipeline terminates, produces two null sentinels and
zero VarDecl nodes, and reports no diagnostic at all: the thrown
"Expect \x27:\x27 after variable name." errors are swallowed by the catch
clause of Parser::declaration. -/
theorem c4_counterexample_plain_silent_failure :
    runPipeline c4Plain "test" = some ([none, none], []) ∧
    countVarDecls [none, none] = 0 := by
  exact ⟨rfl, rfl⟩

/-- C4: with the mandatory type annotations added, the two-line source and
its explicit-semicolon variant both produce the same two VarDecl nodes
and no diagnostics, and their results are identical. -/
theorem c4_annotated_two_vardecls_and_identical :
    runPipeline c4Annotated "test" = some (expectedC4, []) ∧
    runPipeline c4AnnotatedSemi "test" = some (expectedC4, []) ∧
    runPipeline c4Annotated "test" = runPipeline c4AnnotatedSemi "test" ∧
    countVarDecls expectedC4 = 2 := by
  have h1 : runPipeline c4Annotated "test" = some (expectedC4, []) := rfl
  have h2 : runPipeline c4AnnotatedSemi "test" = some (expectedC4, []) := rfl
  exact ⟨h1, h2, h1.trans h2.symm, rfl⟩

end SimpleParser

namespace Vis

/-- C2 (counterexample): on the token stream of `\x7b while ; \x7d`, the
while statement fails and reports an Error diagnostic, the enclosing
block recovers and still returns a node, so visitParse returns ok even
though an Error diagnostic was emitted. -/
theorem c2_counterexample_ok_despite_error :
    (visitParse declParserNull 30 10 c2St).1 = true ∧
    (visitParse declParserNull 30 10 c2St).2.2.rep.errorCount = 1 ∧
    ((visitParse declParserNull 30 10 c2St).2.2.rep.diagnostics.map (fun d => d.message)) =
      ["Expected \x27(\x27 after \x27while\x27"] ∧
    (visitParse declParserNull 30 10 c2St).2.2.rep.hasErrors = true := by
  exact ⟨rfl, rfl, rfl, rfl⟩

/-- Loop invariant behind the corrected claim C2: the flag returned by the
visitParse loop is true exactly when the loop saw no null top-level
result, independently of which declaration parser is wired in. -/
theorem visitParseAux_eq_nullCount (declP : DeclParser) (stmtFuel : Nat) :
    ∀ fuel st hadError nodes,
      (visitParseAux declP stmtFuel fuel st hadError nodes).1 =
        (¬ hadError && decide (visitParseNullCount declP stmtFuel fuel st = 0)) := by
  intro fuel
  induction fuel with
  | zero =>
    intro st hadError nodes
    simp [visitParseAux, visitParseNullCount]
  | succ f ih =>
    intro st hadError nodes
    by_cases hend : st.ts.isAtEnd
    · simp [visitParseAux, visitParseNullCount, hend]
    · by_cases hdecl : baseIsDeclarationStart st
      · cases hd : declP st with
        | mk o st1 =>
          cases o with
          | none =>
            simp [visitParseAux, visitParseNullCount, hend, hdecl, hd, ih]
          | some d =>
            simp [visitParseAux, visitParseNullCount, hend, hdecl, hd, ih]
      · cases hs : parseStatement declP stmtFuel st with
        | mk o st1 =>
          cases o with
          | none =>
            simp [visitParseAux, visitParseNullCount, hend, hdecl, hs, ih]
          | some s =>
            simp [visitParseAux, visitParseNullCount, hend, hdecl, hs, ih]

/-- C2: the corrected success criterion of the top-level run.  visitParse
returns ok if and only if no top-level parse attempt returned the null
sentinel; recovered errors inside a successfully returned node do not
affect the flag (and so ok does not mean the reporter is clean). -/
theorem c2_ok_iff_no_null_results (declP : DeclParser) (stmtFuel loopFuel : Nat) (st : PSt) :
    (visitParse declP stmtFuel loopFuel st).1 = true ↔
      visitParseNullCount declP stmtFuel loopFuel st = 0 := by
  rw [visitParse, visitParseAux_eq_nullCount]
  simp

/-- C5 (counterexample): on the stream `1 const let`, the actual
TokenStream::synchronize skips the CONST token (its stop set lacks CONST
and CLASS) and halts before LET, while the procedure described by the
spec halts in front of the CONST token; the two results differ. -/
theorem c5_counterexample_stop_set :
    c5Stream.synchronize = ⟨c5Stream.tokens, 2⟩ ∧
    synchronizeSpec c5Stream = ⟨c5Stream.tokens, 1⟩ ∧
    (synchronizeSpec c5Stream).peek.type = .CONST ∧
    c5Stream.synchronize ≠ synchronizeSpec c5Stream := by
  refine ⟨rfl, rfl, rfl, ?_⟩
  decide

/-- Scanning invariant of the actual synchronize loop: with enough fuel the
loop halts at end of input, just after a SEMICOLON, or in front of one of
FUNCTION, LET, FOR, IF, WHILE, RETURN (CONST and CLASS are absent). -/
theorem tsSynchronizeAux_post :
    ∀ fuel s, s.tokens.length ≤ s.current + fuel →
      (tsSynchronizeAux fuel s).isAtEnd = true ∨
      (tsSynchronizeAux fuel s).previous.type = .SEMICOLON ∨
      (tsSynchronizeAux fuel s).peek.type = .FUNCTION ∨
      (tsSynchronizeAux fuel s).peek.type = .LET ∨
      (tsSynchronizeAux fuel s).peek.type = .FOR ∨
      (tsSynchronizeAux fuel s).peek.type = .IF ∨
      (tsSynchronizeAux fuel s).peek.type = .WHILE ∨
      (tsSynchronizeAux fuel s).peek.type = .RETURN := by
  intro fuel
  induction fuel with
  | zero =>
    intro s hlen
    left
    simp only [tsSynchronizeAux, TokenStream.isAtEnd]
    have h : s.tokens.length - 1 ≤ s.current := by omega
    simp [h]
  | succ f ih =>
    intro s hlen
    rw [tsSynchronizeAux]
    by_cases hend : s.isAtEnd = true
    · rw [if_pos hend]
      exact Or.inl hend
    · rw [if_neg hend]
      by_cases hprev : s.previous.type = .SEMICOLON
      · rw [if_pos hprev]
        exact Or.inr (Or.inl hprev)
      · rw [if_neg hprev]
        by_cases hpeek : s.peek.type = .FUNCTION ∨ s.peek.type = .LET ∨ s.peek.type = .FOR ∨
            s.peek.type = .IF ∨ s.peek.type = .WHILE ∨ s.peek.type = .RETURN
        · rw [if_pos hpeek]
          tauto
        · rw [if_neg hpeek]
          apply ih
          have hadv : (s.advance).2 = { s with current := s.current + 1 } := by
            show (if s.isAtEnd = true then s else { s with current := s.current + 1 }) = _
            rw [if_neg hend]
          rw [hadv]
          show s.tokens.length ≤ s.current + 1 + f
          omega

/-- C5: the corrected postcondition of TokenStream::synchronize: it halts at
end of input, just past a SEMICOLON, or in front of one of FUNCTION, LET,
FOR, IF, WHILE, RETURN — a stop set missing the CONST and CLASS that the
spec lists. -/
theorem c5_synchronize_postcondition (s : TokenStream) :
    (s.synchronize).isAtEnd = true ∨
    (s.synchronize).previous.type = .SEMICOLON ∨
    (s.synchronize).peek.type = .FUNCTION ∨
    (s.synchronize).peek.type = .LET ∨
    (s.synchronize).peek.type = .FOR ∨
    (s.synchronize).peek.type = .IF ∨
    (s.synchronize).peek.type = .WHILE ∨
    (s.synchronize).peek.type = .RETURN := by
  rw [TokenStream.synchronize]
  apply tsSynchronizeAux_post
  have h1 : (s.advance).2.tokens = s.tokens := by
    show (if s.isAtEnd = true then s else { s with current := s.current + 1 }).tokens = s.tokens
    by_cases h : s.isAtEnd = true
    · rw [if_pos h]
    · rw [if_neg h]
  rw [h1]
  omega

end Vis

namespace Vis

/-- C10 (counterexample): a member access inside a top-level expression
statement reports the not-implemented diagnostic, yet checkAST still
returns true (visitExprStmt discards the Error type), so the program does
not fail the type-checking phase. -/
theorem c10_counterexample_checkast_returns_true :
    (checkAST 20 [c10Node] initTcSt).1 = true ∧
    (checkAST 20 [c10Node] initTcSt).2.rep.errorCount = 1 ∧
    ((checkAST 20 [c10Node] initTcSt).2.rep.diagnostics.map (fun d => d.message)) =
      ["Member access type checking not implemented"] ∧
    (checkAST 20 [c10Node] initTcSt).2.rep.hasErrors = true := by
  refine ⟨rfl, by rfl, by rfl, by rfl⟩

/-- C10: every member-access expression reaching the type checker is typed
Error and appends exactly the diagnostic "Member access type checking not
implemented" (on top of whatever the object subexpression reported), so
the reporter afterwards always carries at least one error — but this does
not by itself make checkAST fail. -/
theorem c10_member_access_always_errors :
    ∀ fuel loc obj nm isPtr st,
      (visitMemberExpr (fuel+1) loc obj nm isPtr st).1 = .error ∧
      (visitMemberExpr (fuel+1) loc obj nm isPtr st).2.rep.diagnostics =
        (visitExpr fuel obj st).2.rep.diagnostics ++
          [⟨.error, loc, "Member access type checking not implemented", ""⟩] ∧
      (visitMemberExpr (fuel+1) loc obj nm isPtr st).2.rep.hasErrors = true := by
  intro fuel loc obj nm isPtr st
  rw [visitMemberExpr]
  cases hv : visitExpr fuel obj st with
  | mk t st1 =>
    refine ⟨rfl, rfl, ?_⟩
    simp [tcError, ErrorReporter.error, ErrorReporter.hasErrors]

/-- C6 (invariant lemma): a successfully parsed variable declaration whose
const flag is set always carries an initializer. -/
theorem parseVarDecl_const_has_init :
    ∀ fuel c sc st d, (parseVarDecl fuel c sc st).1 = some d →
      ∀ nm ty init scl loc, d = Decl.varDecl nm ty init scl true loc →
        init.isSome = true := by
  intro fuel c sc st d hd nm ty init scl loc hdef
  subst hdef
  cases fuel with
  | zero => simp [parseVarDecl] at hd
  | succ f =>
    cases hP : parseVarDecl (f+1) c sc st with
    | mk o st2 =>
      rw [hP] at hd
      simp only at hd
      subst hd
      rw [parseVarDecl] at hP
      split at hP
      split at hP
      · simp at hP
      · split at hP
        split at hP
        · simp at hP
        · split at hP
          split at hP
          · simp at hP
          · rename_i initializer st5 heq3
            split at hP
            split at hP
            · simp at hP
            · simp only [Prod.mk.injEq, Option.some.injEq, Decl.varDecl.injEq] at hP
              obtain ⟨⟨-, -, hinit, -, hconst, -⟩, -⟩ := hP
              subst hconst
              split at heq3
              · split at heq3
                · simp at heq3
                · simp only [Prod.mk.injEq, Option.some.injEq] at heq3
                  obtain ⟨he, -⟩ := heq3
                  rw [← hinit, ← he]
                  rfl
              · simp at heq3

end Vis

namespace Vis

/-- C6: parsing `const k: int;` (tokens after the `const` keyword) reports
"Const declarations must have an initializer" and returns the null
sentinel, and in general every successfully constructed variable
declaration whose const flag is set carries an initializer. -/
theorem c6_const_requires_initializer :
    ((parseVarDecl 30 true .HEAP c6NoInit).1 = none ∧
     ((parseVarDecl 30 true .HEAP c6NoInit).2.rep.diagnostics.map (fun d => d.message)) =
       ["Const declarations must have an initializer"]) ∧
    (∀ fuel c sc st d, (parseVarDecl fuel c sc st).1 = some d →
      ∀ nm ty init scl loc, d = Decl.varDecl nm ty init scl true loc →
        init.isSome = true) := by
  exact ⟨⟨rfl, rfl⟩, parseVarDecl_const_has_init⟩

/-- Witness for C6: on `const k: int = 5;` the parser succeeds with a const
node, and the theorem applied to that node yields its initializer. -/
theorem c6_const_requires_initializer_witness :
    (parseVarDecl 30 true .HEAP c6WithInit).1 =
      some (.varDecl "k" (some (.primitive .INT sLoc)) (some (.literal sLoc .NUMBER "5"))
        .HEAP true sLoc) ∧
    (some (Expr.literal sLoc .NUMBER "5")).isSome = true := by
  have h1 : (parseVarDecl 30 true .HEAP c6WithInit).1 =
      some (.varDecl "k" (some (.primitive .INT sLoc)) (some (.literal sLoc .NUMBER "5"))
        .HEAP true sLoc) := rfl
  exact ⟨h1, c6_const_requires_initializer.2 30 true .HEAP c6WithInit _ h1 "k" _ _ _ _ rfl⟩

/-- C7 (counterexample): on `for (let i = 0; i < n; i = i + 1) j;` the parser
commits to the for-of form as soon as it sees LET, fails with "Expected
\x27of\x27 after variable name" and returns the null sentinel, instead of
parsing the regular three-clause loop without diagnostics. -/
theorem c7_counterexample_let_initializer :
    (parseForStatement declParserNull 40 c7RegularLet).1 = none ∧
    ((parseForStatement declParserNull 40 c7RegularLet).2.rep.diagnostics.map
      (fun d => d.message)) = ["Expected \x27of\x27 after variable name"] := by
  exact ⟨rfl, rfl⟩

/-- C7: the corrected dispatch of parseForStatement: a leading LET or CONST
inside the parentheses always commits to the for-of form (succeeding on
`for (let x of arr) j;`, erroring on a LET three-clause initializer), and
only parenthesis content that starts with neither LET nor CONST is parsed
as the regular `( init? ; cond? ; inc? )` form. -/
theorem c7_for_dispatch :
    ((parseForStatement declParserNull 40 c7ForOf).1 =
      some (.forOfStmt false "x" (.identifier sLoc "arr")
        (.exprStmt (.identifier sLoc "j") sLoc) sLoc) ∧
     (parseForStatement declParserNull 40 c7ForOf).2.rep.errorCount = 0) ∧
    ((parseForStatement declParserNull 40 c7Regular).1 =
      some (.forStmt
        (some (.exprStmt (.assignment sLoc .EQUALS (.identifier sLoc "i")
          (.literal sLoc .NUMBER "0")) sLoc))
        (some (.binary sLoc .LESS (.identifier sLoc "i") (.identifier sLoc "n")))
        (some (.assignment sLoc .EQUALS (.identifier sLoc "i")
          (.binary sLoc .PLUS (.identifier sLoc "i") (.literal sLoc .NUMBER "1"))))
        (.exprStmt (.identifier sLoc "j") sLoc) sLoc) ∧
     (parseForStatement declParserNull 40 c7Regular).2.rep.errorCount = 0) ∧
    ((parseForStatement declParserNull 40 c7RegularLet).1 = none ∧
     (parseForStatement declParserNull 40 c7RegularLet).2.rep.errorCount = 1) := by
  exact ⟨⟨rfl, rfl⟩, ⟨rfl, rfl⟩, ⟨rfl, rfl⟩⟩

/-- The type any simple literal element resolves to is computed by
visitLiteralExpr, independently of the checker state. -/
theorem visitExpr_simpleLit (fuel : Nat) (p : TokenType × String) (st : TcSt)
    (hp : isSimpleLitKind p.1 = true) :
    visitExpr (fuel+1) (simpleLit p) st = (litResolved p, st) := by
  obtain ⟨t, v⟩ := p
  simp only [isSimpleLitKind, Bool.or_eq_true, decide_eq_true_eq] at hp
  rcases hp with ((h | h) | h) | h <;> subst h
  · by_cases hc : Char.ofNat 46 ∈ v.data
    · simp [simpleLit, visitExpr, visitLiteralExpr, litResolved, hc]
    · simp [simpleLit, visitExpr, visitLiteralExpr, litResolved, hc]
  · simp [simpleLit, visitExpr, visitLiteralExpr, litResolved]
  · simp [simpleLit, visitExpr, visitLiteralExpr, litResolved]
  · simp [simpleLit, visitExpr, visitLiteralExpr, litResolved]

/-- Element loop of visitArrayLiteral on lists of simple literals: it
returns the array type when every element is assignable to the element
type fixed by the caller, and otherwise types the literal Error and
appends exactly the compatible-types diagnostic. -/
theorem visitArrayElems_lits :
    ∀ (ps : List (TokenType × String)) (fuel : Nat) (t : ResolvedType) (st : TcSt),
      (∀ q ∈ ps, isSimpleLitKind q.1 = true) → ps.length < fuel →
      ((ps.all (fun q => isAssignableTo (litResolved q) t) = true →
         visitArrayElems fuel t (ps.map simpleLit) st = (.array t, st)) ∧
       (ps.all (fun q => isAssignableTo (litResolved q) t) = false →
         (visitArrayElems fuel t (ps.map simpleLit) st).1 = .error ∧
         (visitArrayElems fuel t (ps.map simpleLit) st).2.rep.diagnostics =
           st.rep.diagnostics ++
             [⟨.error, sLoc, "Array elements must have compatible types", ""⟩])) := by
  intro ps
  induction ps with
  | nil =>
    intro fuel t st hall hlen
    cases fuel with
    | zero => omega
    | succ f =>
      refine ⟨fun _ => rfl, fun hfalse => ?_⟩
      simp at hfalse
  | cons q rest ih =>
    intro fuel t st hall hlen
    cases fuel with
    | zero => omega
    | succ f =>
      cases f with
      | zero =>
        simp only [List.length_cons] at hlen
        omega
      | succ f2 =>
        have hq : isSimpleLitKind q.1 = true := hall q (by simp)
        have hrest : ∀ r ∈ rest, isSimpleLitKind r.1 = true :=
          fun r hr => hall r (by simp [hr])
        have hlen2 : rest.length < f2 + 1 := by
          simp only [List.length_cons] at hlen
          omega
        have hvisit := visitExpr_simpleLit f2 q st hq
        have hstep : visitArrayElems (f2+1+1) t ((q :: rest).map simpleLit) st =
            (if ¬ (isAssignableTo (litResolved q) t = true) then
              (.error, tcError st (simpleLit q).loc "Array elements must have compatible types")
            else visitArrayElems (f2+1) t (rest.map simpleLit) st) := by
          simp only [List.map_cons]
          rw [visitArrayElems, hvisit]
        have ihres := ih (f2+1) t st hrest hlen2
        by_cases ha : isAssignableTo (litResolved q) t = true
        · rw [show f2 + 2 = f2 + 1 + 1 from rfl] at *
          constructor
          · intro htrue
            rw [hstep, if_neg (by simp [ha])]
            apply ihres.1
            simp only [List.all_cons, ha, Bool.true_and] at htrue
            exact htrue
          · intro hfalse
            rw [hstep, if_neg (by simp [ha])]
            apply ihres.2
            simp only [List.all_cons, ha, Bool.true_and] at hfalse
            exact hfalse
        · constructor
          · intro htrue
            simp only [List.all_cons, Bool.and_eq_true] at htrue
            exact absurd htrue.1 ha
          · intro _
            rw [show f2 + 2 = f2 + 1 + 1 from rfl, hstep, if_pos (by simp [ha])]
            exact ⟨rfl, by simp [tcError, ErrorReporter.error, simpleLit, Expr.loc]⟩

end Vis

namespace Vis

/-- C9: an empty array literal is accepted by the expression parser (an
ArrayLiteralNode with no elements and no diagnostic); the type checker
reports "Cannot determine type of empty array literal" for it and
assigns the Error type; and for non-empty literal lists the element type
is the one of the first element, later elements being checked with
isAssignableTo against it (with the compatible-types diagnostic on the
first failure). -/
theorem c9_array_literals :
    ((parseExpression 20 c9Empty).1 = some (.arrayLiteral sLoc []) ∧
     (parseExpression 20 c9Empty).2.rep.errorCount = 0) ∧
    (∀ fuel loc st, visitArrayLiteral (fuel+1) loc ([] : List Expr) st =
      (.error, tcError st loc "Cannot determine type of empty array literal")) ∧
    (∀ (fuel : Nat) (p : TokenType × String) (ps : List (TokenType × String))
        (st : TcSt) (loc : SourceLocation), isSimpleLitKind p.1 = true →
      (∀ q ∈ ps, isSimpleLitKind q.1 = true) → ps.length < fuel →
      ((ps.all (fun q => isAssignableTo (litResolved q) (litResolved p)) = true →
        visitArrayLiteral (fuel+1) loc (simpleLit p :: ps.map simpleLit) st =
          (.array (litResolved p), st)) ∧
       (ps.all (fun q => isAssignableTo (litResolved q) (litResolved p)) = false →
        (visitArrayLiteral (fuel+1) loc (simpleLit p :: ps.map simpleLit) st).1 = .error ∧
        (visitArrayLiteral (fuel+1) loc (simpleLit p :: ps.map simpleLit) st).2.rep.diagnostics =
          st.rep.diagnostics ++
            [⟨.error, sLoc, "Array elements must have compatible types", ""⟩]))) := by
  refine ⟨⟨rfl, rfl⟩, fun fuel loc st => rfl, ?_⟩
  intro fuel p ps st loc hp hps hlen
  cases fuel with
  | zero => omega
  | succ f =>
    have hopen : visitArrayLiteral (f+1+1) loc (simpleLit p :: ps.map simpleLit) st =
        visitArrayElems (f+1) (litResolved p) (ps.map simpleLit) st := by
      rw [visitArrayLiteral, visitExpr_simpleLit f p st hp]
    rw [hopen]
    exact visitArrayElems_lits ps (f+1) (litResolved p) st hps hlen

/-- Witness for C9: the literal list `[1, 2]` (both int) with fuel 2 checks
to the array-of-int type without touching the state. -/
theorem c9_array_literals_witness :
    visitArrayLiteral 3 sLoc [simpleLit (.NUMBER, "1"), simpleLit (.NUMBER, "2")] initTcSt =
      (.array (litResolved (.NUMBER, "1")), initTcSt) := by
  have h := (c9_array_literals.2.2 2 (.NUMBER, "1") [(.NUMBER, "2")] initTcSt sLoc
    (by decide) (by decide) (by decide)).1 (by decide)
  simpa using h

end Vis

namespace SimpleLexer

/-- One tokenize iteration on the malformed literal `"\q"` reports the
invalid escape but does not advance the position. -/
theorem tokStep_badEscape (fn : String) (line col lsl : Nat) (ss : Bool)
    (toks : List Token) (errs : List Diagnostic) :
    tokStep ⟨badEscapeSrc.toList, fn, 0, line, col, toks, lsl, ss, errs⟩ =
      ⟨badEscapeSrc.toList, fn, 0, line, col,
       toks ++ [⟨.ERROR_TOKEN, "", line, col, "Invalid escape sequence"⟩], lsl, ss,
       errs ++ [⟨fn, line, col, "Invalid escape sequence"⟩]⟩ := rfl

/-- The tokenize loop on `"\q"` runs out of any amount of fuel: the
invalid-escape branch never makes progress. -/
theorem tokenizeAux_badEscape :
    ∀ fuel (fn : String) (line col lsl : Nat) (ss : Bool)
      (toks : List Token) (errs : List Diagnostic),
      tokenizeAux fuel ⟨badEscapeSrc.toList, fn, 0, line, col, toks, lsl, ss, errs⟩ = none := by
  intro fuel
  induction fuel with
  | zero =>
    intro fn line col lsl ss toks errs
    rfl
  | succ f ih =>
    intro fn line col lsl ss toks errs
    rw [tokenizeAux, tokStep_badEscape]
    exact ih fn line col lsl ss _ _

/-- C1: the lexer does not terminate on the malformed string literal `"\q"`:
for every fuel bound the tokenize loop fails to finish (the
invalid-escape branch of scanToken reports its error without advancing
`position_`, so the loop repeats forever), and in particular the
fuel-bounded model of tokenize returns none. -/
theorem c1_tokenize_diverges_on_invalid_escape :
    (∀ fuel, tokenizeAux fuel (initState badEscapeSrc "input.tspp") = none) ∧
    tokenize badEscapeSrc "input.tspp" = none := by
  constructor
  · intro fuel
    exact tokenizeAux_badEscape fuel "input.tspp" 1 1 1 false [] []
  · exact tokenizeAux_badEscape 5 "input.tspp" 1 1 1 false [] []

end SimpleLexer

namespace SimpleLexer

/-- Transport of the ASI disjunction along a recursion step that leaves
source and tokens unchanged. -/
theorem skipWs_lift (f : Nat) (st stE : LexState)
    (hsrc : stE.source = st.source) (htok : stE.tokens = st.tokens)
    (h : (skipWsAux f stE).tokens = stE.tokens ∨
      ∃ st2 : LexState, st2.source = stE.source ∧ st2.tokens = stE.tokens ∧
        charAt st2.source st2.position = '\n' ∧
        st2.tokens.isEmpty = false ∧
        lastTokenType st2 ≠ some .SEMICOLON ∧
        asiNextOk st2.source (st2.position + 1) = true ∧
        (skipWsAux f stE).tokens =
          stE.tokens ++ [⟨.SEMICOLON, ";", st2.line, st2.column, ""⟩]) :
    (skipWsAux f stE).tokens = st.tokens ∨
      ∃ st2 : LexState, st2.source = st.source ∧ st2.tokens = st.tokens ∧
        charAt st2.source st2.position = '\n' ∧
        st2.tokens.isEmpty = false ∧
        lastTokenType st2 ≠ some .SEMICOLON ∧
        asiNextOk st2.source (st2.position + 1) = true ∧
        (skipWsAux f stE).tokens =
          st.tokens ++ [⟨.SEMICOLON, ";", st2.line, st2.column, ""⟩] := by
  rw [htok, hsrc] at h
  exact h

/-- Loop invariant of Lexer::skipWhitespace: the token vector is unchanged,
or exactly one synthetic SEMICOLON was appended, and then the insertion
point satisfied all three ASI conditions: previous tokens exist, the last
one is not a SEMICOLON, and the next non-whitespace character is a
newline, a closing brace, a semicolon or end of input. -/
theorem skipWsAux_asi :
    ∀ fuel st, (skipWsAux fuel st).tokens = st.tokens ∨
      ∃ st2 : LexState, st2.source = st.source ∧ st2.tokens = st.tokens ∧
        charAt st2.source st2.position = '\n' ∧
        st2.tokens.isEmpty = false ∧
        lastTokenType st2 ≠ some .SEMICOLON ∧
        asiNextOk st2.source (st2.position + 1) = true ∧
        (skipWsAux fuel st).tokens =
          st.tokens ++ [⟨.SEMICOLON, ";", st2.line, st2.column, ""⟩] := by
  intro fuel
  induction fuel with
  | zero =>
    intro st
    left
    rfl
  | succ f ih =>
    intro st
    rw [skipWsAux]
    by_cases hpos : st.position < st.source.length
    case neg =>
      rw [if_neg hpos]
      left
      rfl
    case pos =>
      rw [if_pos hpos]
      by_cases hws : (charAt st.source st.position = ' ' || charAt st.source st.position = '\t'
          || charAt st.source st.position = '\r') = true
      case pos =>
        rw [if_pos hws]
        exact skipWs_lift f st _ rfl rfl (ih _)
      case neg =>
        rw [if_neg hws]
        by_cases hnl : charAt st.source st.position = '\n'
        case pos =>
          rw [if_pos hnl]
          by_cases hasi : ¬ st.tokens.isEmpty ∧ lastTokenType st ≠ some .SEMICOLON ∧
              asiNextOk st.source (st.position + 1)
          case pos =>
            rw [if_pos hasi]
            obtain ⟨ha, hb, hc⟩ := hasi
            have hrec := ih
              { st with
                  tokens := st.tokens ++ [⟨.SEMICOLON, ";", st.line, st.column, ""⟩],
                  position := st.position + 1,
                  line := st.line + 1,
                  column := 1 }
            rcases hrec with h | hr
            · right
              exact ⟨st, rfl, rfl, hnl, by simpa using ha, hb, hc, h⟩
            · obtain ⟨st2, h1, h2, h3, h4, h5, h6, h7⟩ := hr
              exfalso
              apply h5
              rw [lastTokenType, h2]
              simp
          case neg =>
            rw [if_neg hasi]
            exact skipWs_lift f st _ rfl rfl (ih _)
        case neg =>
          rw [if_neg hnl]
          by_cases hlc : charAt st.source st.position = '/' ∧ st.position + 1 < st.source.length ∧
              charAt st.source (st.position + 1) = '/'
          case pos =>
            rw [if_pos hlc]
            exact skipWs_lift f st _ rfl rfl (ih _)
          case neg =>
            rw [if_neg hlc]
            by_cases hbc : charAt st.source st.position = '/' ∧ st.position + 1 < st.source.length ∧
                charAt st.source (st.position + 1) = '*'
            case pos =>
              rw [if_pos hbc]
              exact skipWs_lift f st _ rfl rfl (ih _)
            case neg =>
              rw [if_neg hbc]
              left
              rfl

/-- C3: during whitespace handling the lexer either leaves the emitted
tokens unchanged or appends exactly one synthetic SEMICOLON, and the
latter happens only at a state where (a) at least one token was already
emitted, (b) the last one is not a SEMICOLON, and (c) the next
non-whitespace character after the newline is a newline, a closing
brace, a semicolon, or end of input — so no semicolon is ever inserted
in the middle of a multi-line expression. -/
theorem c3_asi_only_under_conditions (st : LexState) :
    (skipWhitespace st).tokens = st.tokens ∨
    ∃ st2 : LexState, st2.source = st.source ∧ st2.tokens = st.tokens ∧
      charAt st2.source st2.position = '\n' ∧
      st2.tokens.isEmpty = false ∧
      lastTokenType st2 ≠ some .SEMICOLON ∧
      asiNextOk st2.source (st2.position + 1) = true ∧
      (skipWhitespace st).tokens =
        st.tokens ++ [⟨.SEMICOLON, ";", st2.line, st2.column, ""⟩] := by
  rw [skipWhitespace]
  exact skipWsAux_asi _ st

end SimpleLexer

namespace Vis

/-- Indexing just past a prefix lands on the following element. -/
theorem c8_getD (pre l : List Token) (x d : Token) :
    (pre ++ x :: l).getD pre.length d = x := by
  induction pre with
  | nil => rfl
  | cons a pre ih =>
    show (a :: (pre ++ x :: l)).getD (pre.length + 1) d = x
    rw [List.getD_cons_succ]
    exact ih

/-- peek at the cursor returns the token the prefix length points at. -/
theorem c8_peek (pre l : List Token) (x : Token) :
    TokenStream.peek ⟨pre ++ x :: l, pre.length⟩ = x := by
  have hlen : ¬ ((pre ++ x :: l).length ≤ pre.length) := by
    simp only [List.length_append, List.length_cons]
    omega
  simp only [TokenStream.peek, hlen, if_false]
  exact c8_getD pre l x eofToken

/-- previous after an advance past the prefix returns the element at the
prefix length. -/
theorem c8_prev (pre l : List Token) (x : Token) :
    TokenStream.previous ⟨pre ++ x :: l, pre.length + 1⟩ = x := by
  rw [TokenStream.previous]
  simp only
  rw [if_neg (Nat.succ_ne_zero pre.length)]
  by_cases h : (pre ++ x :: l).length ≤ pre.length + 1
  · rw [if_pos h]
    have hl : l = [] := by
      simp only [List.length_append, List.length_cons] at h
      cases l with
      | nil => rfl
      | cons a as =>
        simp only [List.length_cons] at h
        omega
    subst hl
    show (pre ++ [x]).getLastD eofToken = x
    simp
  · rw [if_neg h]
    show (pre ++ x :: l).getD (pre.length + 1 - 1) eofToken = x
    simpa using c8_getD pre l x eofToken

/-- A stream whose cursor sits on a non-EOF token with a successor is not at
end. -/
theorem c8_isAtEnd_false (pre l : List Token) (x y : Token) (hx : x.type ≠ .END_OF_FILE) :
    TokenStream.isAtEnd ⟨pre ++ x :: y :: l, pre.length⟩ = false := by
  have h1 : ¬ ((pre ++ x :: y :: l).length - 1 ≤ pre.length) := by
    simp only [List.length_append, List.length_cons]
    omega
  have h2 := c8_getD pre (y :: l) x eofToken
  simp only [TokenStream.isAtEnd]
  rw [h2]
  simp [h1, hx]

/-- A stream whose cursor sits on the final EOF token is at end. -/
theorem c8_isAtEnd_last (pre : List Token) :
    TokenStream.isAtEnd ⟨pre ++ [eofToken], pre.length⟩ = true := by
  have h1 : (pre ++ [eofToken]).length - 1 ≤ pre.length := by
    simp [List.length_append]
  simp [TokenStream.isAtEnd, h1]

/-- advance on a non-EOF token with a successor moves the cursor one slot
and returns the token it moved past. -/
theorem c8_advance (pre l : List Token) (x y : Token) (hx : x.type ≠ .END_OF_FILE) :
    TokenStream.advance ⟨pre ++ x :: y :: l, pre.length⟩ =
      (x, ⟨pre ++ x :: y :: l, pre.length + 1⟩) := by
  rw [TokenStream.advance]
  simp only [c8_isAtEnd_false pre l x y hx, Bool.false_eq_true, if_false]
  exact Prod.ext (c8_prev pre (y :: l) x) rfl

end Vis

namespace Vis

/-- check fails whenever the cursor token has a different kind. -/
theorem c8_vCheck_ne (pre l : List Token) (x : Token) (rep : ErrorReporter) (ty : TokenType)
    (h : x.type ≠ ty) : vCheck ⟨⟨pre ++ x :: l, pre.length⟩, rep⟩ ty = false := by
  simp only [vCheck]
  rw [c8_peek pre l x]
  simp [h]

/-- check succeeds on the cursor token kind when a successor exists. -/
theorem c8_vCheck_pos (pre l : List Token) (x y : Token) (rep : ErrorReporter)
    (hx : x.type ≠ .END_OF_FILE) :
    vCheck ⟨⟨pre ++ x :: y :: l, pre.length⟩, rep⟩ x.type = true := by
  simp only [vCheck]
  rw [c8_peek pre (y :: l) x]
  simp [c8_isAtEnd_false pre l x y hx]

/-- match fails without moving whenever the cursor token has a different
kind. -/
theorem c8_vMatch_ne (pre l : List Token) (x : Token) (rep : ErrorReporter) (ty : TokenType)
    (h : x.type ≠ ty) :
    vMatch ⟨⟨pre ++ x :: l, pre.length⟩, rep⟩ ty = (false, ⟨⟨pre ++ x :: l, pre.length⟩, rep⟩) := by
  simp [vMatch, c8_vCheck_ne pre l x rep ty h]

/-- match consumes the cursor token when the kinds agree and a successor
exists. -/
theorem c8_vMatch_pos (pre l : List Token) (x y : Token) (rep : ErrorReporter)
    (hx : x.type ≠ .END_OF_FILE) (ty : TokenType) (hty : x.type = ty) :
    vMatch ⟨⟨pre ++ x :: y :: l, pre.length⟩, rep⟩ ty =
      (true, ⟨⟨pre ++ x :: y :: l, pre.length + 1⟩, rep⟩) := by
  subst hty
  simp only [vMatch, c8_vCheck_pos pre l x y rep hx, if_true]
  rw [c8_advance pre l x y hx]

/-- consume succeeds like match when the kinds agree. -/
theorem c8_vConsume_pos (pre l : List Token) (x y : Token) (rep : ErrorReporter)
    (hx : x.type ≠ .END_OF_FILE) (ty : TokenType) (hty : x.type = ty) (msg : String) :
    vConsume ⟨⟨pre ++ x :: y :: l, pre.length⟩, rep⟩ ty msg =
      (true, ⟨⟨pre ++ x :: y :: l, pre.length + 1⟩, rep⟩) := by
  subst hty
  simp only [vConsume, c8_vCheck_pos pre l x y rep hx, if_true]
  rw [c8_advance pre l x y hx]

/-- match fails without moving at the final EOF slot. -/
theorem c8_vMatch_last (pre : List Token) (rep : ErrorReporter) (ty : TokenType) :
    vMatch ⟨⟨pre ++ [eofToken], pre.length⟩, rep⟩ ty =
      (false, ⟨⟨pre ++ [eofToken], pre.length⟩, rep⟩) := by
  simp [vMatch, vCheck, c8_isAtEnd_last pre]

/-- A match chain fails without moving whenever the cursor token kind is in
none of the alternatives. -/
theorem c8_vMatchAny_ne (pre l : List Token) (x : Token) (rep : ErrorReporter) :
    ∀ tys : List TokenType, (∀ ty ∈ tys, x.type ≠ ty) →
      vMatchAny ⟨⟨pre ++ x :: l, pre.length⟩, rep⟩ tys =
        (false, ⟨⟨pre ++ x :: l, pre.length⟩, rep⟩) := by
  intro tys
  induction tys with
  | nil => intro _; rfl
  | cons ty rest ih =>
    intro h
    rw [vMatchAny, c8_vMatch_ne pre l x rep ty (h ty (by simp))]
    simp only [Bool.false_eq_true, if_false]
    exact ih (fun t ht => h t (by simp [ht]))

/-- A match chain fails without moving at the final EOF slot. -/
theorem c8_vMatchAny_last (pre : List Token) (rep : ErrorReporter) :
    ∀ tys : List TokenType,
      vMatchAny ⟨⟨pre ++ [eofToken], pre.length⟩, rep⟩ tys =
        (false, ⟨⟨pre ++ [eofToken], pre.length⟩, rep⟩) := by
  intro tys
  induction tys with
  | nil => rfl
  | cons ty rest ih =>
    rw [vMatchAny, c8_vMatch_last pre rep ty]
    simp only [Bool.false_eq_true, if_false]
    exact ih

/-- Kind disequalities for the two tokens that can follow an argument. -/
theorem c8_y_ne (y : Token) (hy : y.type = .COMMA ∨ y.type = .RIGHT_PAREN) (ty : TokenType)
    (h1 : ty ≠ .COMMA) (h2 : ty ≠ .RIGHT_PAREN) : y.type ≠ ty := by
  rcases hy with h | h <;> rw [h]
  · exact fun hc => h1 hc.symm
  · exact fun hc => h2 hc.symm

end Vis


namespace Vis

/-- Unfolding equation of parseExpression at a successor fuel. -/
theorem parseExpression_succ (fuel : Nat) (st : PSt) :
    parseExpression (fuel+1) st = parseAssignment fuel st := rfl

/-- Unfolding equation of parseAssignment at a successor fuel. -/
theorem parseAssignment_succ (fuel : Nat) (st : PSt) :
    parseAssignment (fuel+1) st =
      (match parseComparison fuel st with
      | (none, st1) => (none, st1)
      | (some expr, st1) =>
        let (m, st2) := vMatchAny st1 [.EQUALS, .PLUS_EQUALS, .MINUS_EQUALS, .STAR_EQUALS,
          .SLASH_EQUALS]
        if m then
          let op := st2.ts.previous.type
          match parseAssignment fuel st2 with
          | (none, st3) => (none, st3)
          | (some value, st3) => (some (.assignment expr.loc op expr value), st3)
        else (some expr, st1)) := rfl

/-- Unfolding equation of parseComparison at a successor fuel. -/
theorem parseComparison_succ (fuel : Nat) (st : PSt) :
    parseComparison (fuel+1) st =
      (match parseAdditive fuel st with
      | (none, st1) => (none, st1)
      | (some expr, st1) => parseComparisonLoop fuel expr st1) := rfl

/-- Unfolding equation of parseComparisonLoop at a successor fuel. -/
theorem parseComparisonLoop_succ (fuel : Nat) (acc : Expr) (st : PSt) :
    parseComparisonLoop (fuel+1) acc st =
      (let (m, st1) := vMatchAny st [.LESS, .LESS_EQUALS, .GREATER, .GREATER_EQUALS,
        .EQUALS_EQUALS, .EXCLAIM_EQUALS]
      if m then
        let op := st1.ts.previous.type
        match parseAdditive fuel st1 with
        | (none, st2) => (none, st2)
        | (some right, st2) => parseComparisonLoop fuel (.binary acc.loc op acc right) st2
      else (some acc, st)) := rfl

/-- Unfolding equation of parseAdditive at a successor fuel. -/
theorem parseAdditive_succ (fuel : Nat) (st : PSt) :
    parseAdditive (fuel+1) st =
      (match parseMultiplicative fuel st with
      | (none, st1) => (none, st1)
      | (some expr, st1) => parseAdditiveLoop fuel expr st1) := rfl

/-- Unfolding equation of parseAdditiveLoop at a successor fuel. -/
theorem parseAdditiveLoop_succ (fuel : Nat) (acc : Expr) (st : PSt) :
    parseAdditiveLoop (fuel+1) acc st =
      (let (m, st1) := vMatchAny st [.PLUS, .MINUS]
      if m then
        let op := st1.ts.previous.type
        match parseMultiplicative fuel st1 with
        | (none, st2) => (none, st2)
        | (some right, st2) => parseAdditiveLoop fuel (.binary acc.loc op acc right) st2
      else (some acc, st)) := rfl

/-- Unfolding equation of parseMultiplicative at a successor fuel. -/
theorem parseMultiplicative_succ (fuel : Nat) (st : PSt) :
    parseMultiplicative (fuel+1) st =
      (match parseUnary fuel st with
      | (none, st1) => (none, st1)
      | (some expr, st1) => parseMultiplicativeLoop fuel expr st1) := rfl

/-- Unfolding equation of parseMultiplicativeLoop at a successor fuel. -/
theorem parseMultiplicativeLoop_succ (fuel : Nat) (acc : Expr) (st : PSt) :
    parseMultiplicativeLoop (fuel+1) acc st =
      (let (m, st1) := vMatchAny st [.STAR, .SLASH, .PERCENT]
      if m then
        let op := st1.ts.previous.type
        match parseUnary fuel st1 with
        | (none, st2) => (none, st2)
        | (some right, st2) => parseMultiplicativeLoop fuel (.binary acc.loc op acc right) st2
      else (some acc, st)) := rfl

/-- Unfolding equation of parseUnary at a successor fuel. -/
theorem parseUnary_succ (fuel : Nat) (st : PSt) :
    parseUnary (fuel+1) st =
      (let t := st.ts.peek
      if t.type = .MINUS ∨ t.type = .EXCLAIM ∨ t.type = .TILDE ∨ t.type = .PLUS_PLUS ∨
          t.type = .MINUS_MINUS then
        let (_, st1) := vAdvance st
        match parseUnary fuel st1 with
        | (none, st2) => (none, st2)
        | (some operand, st2) => (some (.unary t.location t.type operand true), st2)
      else parsePrimary fuel st) := rfl

/-- Unfolding equation of parsePrimary at a successor fuel. -/
theorem parsePrimary_succ (fuel : Nat) (st : PSt) :
    parsePrimary (fuel+1) st =
      (let (mBracket, st1) := vMatch st .LEFT_BRACKET
      if mBracket then parseArrayLiteral fuel st1
      else
        let (mId, st2) := vMatch st1 .IDENTIFIER
        if mId then
          let tok := st2.ts.previous
          parsePostfixOperations fuel (.identifier tok.location tok.lexeme) st2
        else
          let (mLit, st3) := vMatchAny st2 [.NUMBER, .STRING_LITERAL, .TRUE, .FALSE]
          if mLit then
            let tok := st3.ts.previous
            parsePostfixOperations fuel (.literal tok.location tok.type tok.lexeme) st3
          else
            let (mParen, st4) := vMatch st3 .LEFT_PAREN
            if mParen then
              match parseExpression fuel st4 with
              | (none, st5) => (none, st5)
              | (some expr, st5) =>
                let (ok, st6) := vConsume st5 .RIGHT_PAREN "Expected \x27)\x27 after expression"
                if ok then parsePostfixOperations fuel expr st6 else (none, st6)
            else (none, vError st4 "Expected expression")) := rfl

/-- Unfolding equation of parsePostfixOperations at a successor fuel. -/
theorem parsePostfixOperations_succ (fuel : Nat) (acc : Expr) (st : PSt) :
    parsePostfixOperations (fuel+1) acc st =
      (let (mDot, st1) := vMatch st .DOT
      if mDot then
        if st1.ts.peek.type ≠ .IDENTIFIER then
          (none, vError st1 "Expected property name after \x27.\x27")
        else
          let (memberToken, st2) := vAdvance st1
          parsePostfixOperations fuel (.member acc.loc acc memberToken.lexeme false) st2
      else
        let (mBracket, st2) := vMatch st1 .LEFT_BRACKET
        if mBracket then
          match parseExpression fuel st2 with
          | (none, st3) => (none, st3)
          | (some idx, st3) =>
            let (ok, st4) := vConsume st3 .RIGHT_BRACKET "Expected \x27]\x27 after array index"
            if ok then parsePostfixOperations fuel (.index acc.loc acc idx) st4 else (none, st4)
        else
          let (mParen, st3) := vMatch st2 .LEFT_PAREN
          if mParen then
            match
              (if vCheck st3 .RIGHT_PAREN then ((some [] : Option (List Expr)), st3)
               else postfixCallArguments fuel [] st3) with
            | (none, st4) => (none, st4)
            | (some args, st4) =>
              let (ok, st5) := vConsume st4 .RIGHT_PAREN
                "Expected \x27)\x27 after function arguments"
              if ok then parsePostfixOperations fuel (.callExpr acc.loc acc args) st5
              else (none, st5)
          else (some acc, st3)) := rfl

/-- Unfolding equation of postfixCallArguments at a successor fuel. -/
theorem postfixCallArguments_succ (fuel : Nat) (acc : List Expr) (st : PSt) :
    postfixCallArguments (fuel+1) acc st =
      (match parseExpression fuel st with
      | (none, st1) => (none, st1)
      | (some arg, st1) =>
        let (m, st2) := vMatch st1 .COMMA
        if m then postfixCallArguments fuel (acc ++ [arg]) st2
        else (some (acc ++ [arg]), st2)) := rfl

/-- Unfolding equation of finishCallArguments at a successor fuel. -/
theorem finishCallArguments_succ (fuel : Nat) (acc : List Expr) (st : PSt) :
    finishCallArguments (fuel+1) acc st =
      (if 255 ≤ acc.length then (none, vError st "Cannot have more than 255 arguments")
      else
        match parseExpression fuel st with
        | (none, st1) => (none, st1)
        | (some arg, st1) =>
          let (m, st2) := vMatch st1 .COMMA
          if m then finishCallArguments fuel (acc ++ [arg]) st2
          else (some (acc ++ [arg]), st2)) := rfl

end Vis

namespace Vis

/-- Postfix parsing stops immediately when the cursor holds a comma or a
closing parenthesis. -/
theorem c8_postfix_stop (f : Nat) (pre l : List Token) (y : Token) (rep : ErrorReporter)
    (hy : y.type = .COMMA ∨ y.type = .RIGHT_PAREN) (acc : Expr) :
    parsePostfixOperations (f+1) acc ⟨⟨pre ++ y :: l, pre.length⟩, rep⟩ =
      (some acc, ⟨⟨pre ++ y :: l, pre.length⟩, rep⟩) := by
  rw [parsePostfixOperations_succ]
  rw [c8_vMatch_ne pre l y rep .DOT (c8_y_ne y hy _ (by decide) (by decide))]
  dsimp only
  rw [c8_vMatch_ne pre l y rep .LEFT_BRACKET (c8_y_ne y hy _ (by decide) (by decide))]
  dsimp only
  rw [c8_vMatch_ne pre l y rep .LEFT_PAREN (c8_y_ne y hy _ (by decide) (by decide))]
  simp

/-- Postfix parsing stops immediately at the final EOF slot. -/
theorem c8_postfix_last (f : Nat) (pre : List Token) (rep : ErrorReporter) (acc : Expr) :
    parsePostfixOperations (f+1) acc ⟨⟨pre ++ [eofToken], pre.length⟩, rep⟩ =
      (some acc, ⟨⟨pre ++ [eofToken], pre.length⟩, rep⟩) := by
  rw [parsePostfixOperations_succ]
  rw [c8_vMatch_last pre rep .DOT]
  dsimp only
  rw [c8_vMatch_last pre rep .LEFT_BRACKET]
  dsimp only
  rw [c8_vMatch_last pre rep .LEFT_PAREN]
  simp

end Vis

namespace Vis

/-- The multiplicative loop stops on a comma or closing parenthesis. -/
theorem c8_multLoop_stop (f : Nat) (pre l : List Token) (y : Token) (rep : ErrorReporter)
    (hy : y.type = .COMMA ∨ y.type = .RIGHT_PAREN) (acc : Expr) :
    parseMultiplicativeLoop (f+1) acc ⟨⟨pre ++ y :: l, pre.length⟩, rep⟩ =
      (some acc, ⟨⟨pre ++ y :: l, pre.length⟩, rep⟩) := by
  rw [parseMultiplicativeLoop_succ]
  rw [c8_vMatchAny_ne pre l y rep [.STAR, .SLASH, .PERCENT]
    (by intro t ht; fin_cases ht <;> exact c8_y_ne y hy _ (by decide) (by decide))]
  simp

/-- The additive loop stops on a comma or closing parenthesis. -/
theorem c8_addLoop_stop (f : Nat) (pre l : List Token) (y : Token) (rep : ErrorReporter)
    (hy : y.type = .COMMA ∨ y.type = .RIGHT_PAREN) (acc : Expr) :
    parseAdditiveLoop (f+1) acc ⟨⟨pre ++ y :: l, pre.length⟩, rep⟩ =
      (some acc, ⟨⟨pre ++ y :: l, pre.length⟩, rep⟩) := by
  rw [parseAdditiveLoop_succ]
  rw [c8_vMatchAny_ne pre l y rep [.PLUS, .MINUS]
    (by intro t ht; fin_cases ht <;> exact c8_y_ne y hy _ (by decide) (by decide))]
  simp

/-- The comparison loop stops on a comma or closing parenthesis. -/
theorem c8_cmpLoop_stop (f : Nat) (pre l : List Token) (y : Token) (rep : ErrorReporter)
    (hy : y.type = .COMMA ∨ y.type = .RIGHT_PAREN) (acc : Expr) :
    parseComparisonLoop (f+1) acc ⟨⟨pre ++ y :: l, pre.length⟩, rep⟩ =
      (some acc, ⟨⟨pre ++ y :: l, pre.length⟩, rep⟩) := by
  rw [parseComparisonLoop_succ]
  rw [c8_vMatchAny_ne pre l y rep [.LESS, .LESS_EQUALS, .GREATER, .GREATER_EQUALS,
    .EQUALS_EQUALS, .EXCLAIM_EQUALS]
    (by intro t ht; fin_cases ht <;> exact c8_y_ne y hy _ (by decide) (by decide))]
  simp

/-- parsePrimary consumes a single identifier argument. -/
theorem c8_primary (f : Nat) (pre l : List Token) (y : Token) (rep : ErrorReporter)
    (hy : y.type = .COMMA ∨ y.type = .RIGHT_PAREN) :
    parsePrimary (f+1+1) ⟨⟨pre ++ aTok :: y :: l, pre.length⟩, rep⟩ =
      (some aNode, ⟨⟨pre ++ aTok :: y :: l, pre.length + 1⟩, rep⟩) := by
  rw [parsePrimary_succ]
  rw [c8_vMatch_ne pre (y :: l) aTok rep .LEFT_BRACKET (by decide)]
  dsimp only
  rw [c8_vMatch_pos pre l aTok y rep (by decide) .IDENTIFIER (by decide)]
  dsimp only
  rw [c8_prev pre (y :: l) aTok]
  rw [show Expr.identifier aTok.location aTok.lexeme = aNode from rfl]
  have h := c8_postfix_stop f (pre ++ [aTok]) l y rep hy aNode
  simp only [List.append_assoc, List.cons_append, List.nil_append, List.length_append,
    List.length_cons, List.length_nil, Nat.zero_add] at h
  exact h

/-- parseUnary consumes a single identifier argument. -/
theorem c8_unary (f : Nat) (pre l : List Token) (y : Token) (rep : ErrorReporter)
    (hy : y.type = .COMMA ∨ y.type = .RIGHT_PAREN) :
    parseUnary (f+1+1+1) ⟨⟨pre ++ aTok :: y :: l, pre.length⟩, rep⟩ =
      (some aNode, ⟨⟨pre ++ aTok :: y :: l, pre.length + 1⟩, rep⟩) := by
  rw [parseUnary_succ]
  dsimp only
  rw [c8_peek pre (y :: l) aTok]
  rw [if_neg (by decide)]
  exact c8_primary f pre l y rep hy

/-- parseMultiplicative consumes a single identifier argument. -/
theorem c8_mult (f : Nat) (pre l : List Token) (y : Token) (rep : ErrorReporter)
    (hy : y.type = .COMMA ∨ y.type = .RIGHT_PAREN) :
    parseMultiplicative (f+1+1+1+1) ⟨⟨pre ++ aTok :: y :: l, pre.length⟩, rep⟩ =
      (some aNode, ⟨⟨pre ++ aTok :: y :: l, pre.length + 1⟩, rep⟩) := by
  rw [parseMultiplicative_succ, c8_unary f pre l y rep hy]
  dsimp only
  have h := c8_multLoop_stop (f+1+1) (pre ++ [aTok]) l y rep hy aNode
  simp only [List.append_assoc, List.cons_append, List.nil_append, List.length_append,
    List.length_cons, List.length_nil, Nat.zero_add] at h
  exact h

/-- parseAdditive consumes a single identifier argument. -/
theorem c8_add (f : Nat) (pre l : List Token) (y : Token) (rep : ErrorReporter)
    (hy : y.type = .COMMA ∨ y.type = .RIGHT_PAREN) :
    parseAdditive (f+1+1+1+1+1) ⟨⟨pre ++ aTok :: y :: l, pre.length⟩, rep⟩ =
      (some aNode, ⟨⟨pre ++ aTok :: y :: l, pre.length + 1⟩, rep⟩) := by
  rw [parseAdditive_succ, c8_mult f pre l y rep hy]
  dsimp only
  have h := c8_addLoop_stop (f+1+1+1) (pre ++ [aTok]) l y rep hy aNode
  simp only [List.append_assoc, List.cons_append, List.nil_append, List.length_append,
    List.length_cons, List.length_nil, Nat.zero_add] at h
  exact h

/-- parseComparison consumes a single identifier argument. -/
theorem c8_cmp (f : Nat) (pre l : List Token) (y : Token) (rep : ErrorReporter)
    (hy : y.type = .COMMA ∨ y.type = .RIGHT_PAREN) :
    parseComparison (f+1+1+1+1+1+1) ⟨⟨pre ++ aTok :: y :: l, pre.length⟩, rep⟩ =
      (some aNode, ⟨⟨pre ++ aTok :: y :: l, pre.length + 1⟩, rep⟩) := by
  rw [parseComparison_succ, c8_add f pre l y rep hy]
  dsimp only
  have h := c8_cmpLoop_stop (f+1+1+1+1) (pre ++ [aTok]) l y rep hy aNode
  simp only [List.append_assoc, List.cons_append, List.nil_append, List.length_append,
    List.length_cons, List.length_nil, Nat.zero_add] at h
  exact h

/-- parseAssignment consumes a single identifier argument. -/
theorem c8_assign (f : Nat) (pre l : List Token) (y : Token) (rep : ErrorReporter)
    (hy : y.type = .COMMA ∨ y.type = .RIGHT_PAREN) :
    parseAssignment (f+1+1+1+1+1+1+1) ⟨⟨pre ++ aTok :: y :: l, pre.length⟩, rep⟩ =
      (some aNode, ⟨⟨pre ++ aTok :: y :: l, pre.length + 1⟩, rep⟩) := by
  rw [parseAssignment_succ, c8_cmp f pre l y rep hy]
  dsimp only
  have h := c8_vMatchAny_ne (pre ++ [aTok]) l y rep
    [.EQUALS, .PLUS_EQUALS, .MINUS_EQUALS, .STAR_EQUALS, .SLASH_EQUALS]
    (by intro t ht; fin_cases ht <;> exact c8_y_ne y hy _ (by decide) (by decide))
  simp only [List.append_assoc, List.cons_append, List.nil_append, List.length_append,
    List.length_cons, List.length_nil, Nat.zero_add] at h
  rw [h]
  simp

/-- Parsing one identifier argument inside an argument list: the expression
parser returns the identifier node and advances exactly one token. -/
theorem c8_parse_arg (f : Nat) (pre l : List Token) (y : Token) (rep : ErrorReporter)
    (hy : y.type = .COMMA ∨ y.type = .RIGHT_PAREN) :
    parseExpression (f+1+1+1+1+1+1+1+1) ⟨⟨pre ++ aTok :: y :: l, pre.length⟩, rep⟩ =
      (some aNode, ⟨⟨pre ++ aTok :: y :: l, pre.length + 1⟩, rep⟩) := by
  rw [parseExpression_succ]
  exact c8_assign f pre l y rep hy

end Vis

namespace Vis

/-- The active argument loop accepts any number of identifier arguments and
never reports a diagnostic: with k+1 arguments remaining it returns all of
them appended to the accumulator, stopping on the closing parenthesis. -/
theorem c8_args_loop :
    ∀ (k : Nat) (pre : List Token) (acc : List Expr) (rep : ErrorReporter),
      postfixCallArguments (k+1+1+1+1+1+1+1+1+1) acc
          ⟨⟨pre ++ aTok :: c8Rep k, pre.length⟩, rep⟩ =
        (some (acc ++ List.replicate (k+1) aNode),
         ⟨⟨pre ++ aTok :: c8Rep k, pre.length + (2*k + 1)⟩, rep⟩) := by
  intro k
  induction k with
  | zero =>
    intro pre acc rep
    rw [postfixCallArguments_succ]
    rw [show c8Rep 0 = [rparenTok, eofToken] from rfl]
    rw [c8_parse_arg 0 pre [eofToken] rparenTok rep (Or.inr rfl)]
    dsimp only
    have h := c8_vMatch_ne (pre ++ [aTok]) [eofToken] rparenTok rep .COMMA (by decide)
    simp only [List.append_assoc, List.cons_append, List.nil_append, List.length_append,
      List.length_cons, List.length_nil, Nat.zero_add] at h
    rw [h]
    simp
  | succ k ih =>
    intro pre acc rep
    rw [postfixCallArguments_succ]
    rw [show c8Rep (k+1) = commaTok :: aTok :: c8Rep k from rfl]
    rw [c8_parse_arg (k+1) pre (aTok :: c8Rep k) commaTok rep (Or.inl rfl)]
    dsimp only
    have h := c8_vMatch_pos (pre ++ [aTok]) (c8Rep k) commaTok aTok rep (by decide)
      .COMMA (by decide)
    simp only [List.append_assoc, List.cons_append, List.nil_append, List.length_append,
      List.length_cons, List.length_nil, Nat.zero_add] at h
    rw [h]
    rw [if_pos rfl]
    have h2 := ih (pre ++ [aTok, commaTok]) (acc ++ [aNode]) rep
    simp only [List.append_assoc, List.cons_append, List.nil_append, List.length_append,
      List.length_cons, List.length_nil, Nat.zero_add] at h2
    have e2 : pre.length + (1 + 1) + (2 * k + 1) = pre.length + (2 * (k + 1) + 1) := by omega
    rw [e2] at h2
    exact h2

end Vis

namespace Vis

/-- The multiplicative loop stops at the final EOF slot. -/
theorem c8_multLoop_last (f : Nat) (pre : List Token) (rep : ErrorReporter) (acc : Expr) :
    parseMultiplicativeLoop (f+1) acc ⟨⟨pre ++ [eofToken], pre.length⟩, rep⟩ =
      (some acc, ⟨⟨pre ++ [eofToken], pre.length⟩, rep⟩) := by
  rw [parseMultiplicativeLoop_succ, c8_vMatchAny_last pre rep _]
  simp

/-- The additive loop stops at the final EOF slot. -/
theorem c8_addLoop_last (f : Nat) (pre : List Token) (rep : ErrorReporter) (acc : Expr) :
    parseAdditiveLoop (f+1) acc ⟨⟨pre ++ [eofToken], pre.length⟩, rep⟩ =
      (some acc, ⟨⟨pre ++ [eofToken], pre.length⟩, rep⟩) := by
  rw [parseAdditiveLoop_succ, c8_vMatchAny_last pre rep _]
  simp

/-- The comparison loop stops at the final EOF slot. -/
theorem c8_cmpLoop_last (f : Nat) (pre : List Token) (rep : ErrorReporter) (acc : Expr) :
    parseComparisonLoop (f+1) acc ⟨⟨pre ++ [eofToken], pre.length⟩, rep⟩ =
      (some acc, ⟨⟨pre ++ [eofToken], pre.length⟩, rep⟩) := by
  rw [parseComparisonLoop_succ, c8_vMatchAny_last pre rep _]
  simp

/-- The argument tail always ends with the closing parenthesis and the EOF
token, with the parenthesis sitting 2k+1 slots past the prefix. -/
theorem c8_split (k : Nat) : ∀ pre : List Token, ∃ pre3 : List Token,
    pre ++ aTok :: c8Rep k = pre3 ++ rparenTok :: [eofToken] ∧
    pre3.length = pre.length + (2*k + 1) := by
  induction k with
  | zero =>
    intro pre
    refine ⟨pre ++ [aTok], by simp [c8Rep], by simp⟩
  | succ k ih =>
    intro pre
    obtain ⟨p3, he, hl⟩ := ih (pre ++ [aTok, commaTok])
    refine ⟨p3, ?_, ?_⟩
    · rw [← he]
      simp [c8Rep]
    · simp only [List.length_append, List.length_cons, List.length_nil] at hl
      omega

end Vis

namespace Vis

/-- Branch selection on an already decided Bool test (true). -/
theorem c8_ite_tt {α : Sort _} (a b : α) : (if true = true then a else b) = a := rfl

/-- Branch selection on an already decided Bool test (false). -/
theorem c8_ite_ft {α : Sort _} (a b : α) : (if false = true then a else b) = b := rfl

/-- Computation rule for the call case of parsePostfixOperations, phrased
over opaque intermediate states. -/
theorem c8_postfix_call_step (f : Nat) (acc : Expr) (st st2 st3 st4 : PSt)
    (args : List Expr) (r : Option Expr × PSt)
    (h1 : vMatch st .DOT = (false, st))
    (h2 : vMatch st .LEFT_BRACKET = (false, st))
    (h3 : vMatch st .LEFT_PAREN = (true, st2))
    (h4 : vCheck st2 .RIGHT_PAREN = false)
    (h5 : postfixCallArguments f [] st2 = (some args, st3))
    (h6 : vConsume st3 .RIGHT_PAREN "Expected \x27)\x27 after function arguments" = (true, st4))
    (h7 : parsePostfixOperations f (.callExpr acc.loc acc args) st4 = r) :
    parsePostfixOperations (f+1) acc st = r := by
  rw [parsePostfixOperations_succ, h1]
  try simp only [c8_ite_tt, c8_ite_ft]
  try dsimp only
  rw [h2]
  try simp only [c8_ite_tt, c8_ite_ft]
  try dsimp only
  rw [h3]
  try simp only [c8_ite_tt, c8_ite_ft]
  try dsimp only
  rw [h4]
  try simp only [c8_ite_tt, c8_ite_ft]
  try dsimp only
  rw [h5]
  try simp only [c8_ite_tt, c8_ite_ft]
  try dsimp only
  rw [h6]
  try simp only [c8_ite_tt, c8_ite_ft]
  try dsimp only
  exact h7

/-- Computation rule for the identifier case of parsePrimary. -/
theorem c8_primary_ident_step (f : Nat) (st st2 : PSt) (tok : Token) (r : Option Expr × PSt)
    (h1 : vMatch st .LEFT_BRACKET = (false, st))
    (h2 : vMatch st .IDENTIFIER = (true, st2))
    (hprev : st2.ts.previous = tok)
    (h3 : parsePostfixOperations f (.identifier tok.location tok.lexeme) st2 = r) :
    parsePrimary (f+1) st = r := by
  rw [parsePrimary_succ, h1]
  try simp only [c8_ite_tt, c8_ite_ft]
  try dsimp only
  rw [h2]
  try simp only [c8_ite_tt, c8_ite_ft]
  try dsimp only
  rw [hprev]
  exact h3

/-- Computation rule for parseUnary on a non-operator token. -/
theorem c8_unary_ident_step (f : Nat) (st : PSt) (r : Option Expr × PSt)
    (h1 : st.ts.peek.type = .IDENTIFIER)
    (h2 : parsePrimary f st = r) :
    parseUnary (f+1) st = r := by
  rw [parseUnary_succ]
  dsimp only
  rw [h1, if_neg (by decide)]
  exact h2

/-- Computation rule for parseMultiplicative. -/
theorem c8_mult_step (f : Nat) (st st1 : PSt) (e : Expr) (r : Option Expr × PSt)
    (h1 : parseUnary f st = (some e, st1))
    (h2 : parseMultiplicativeLoop f e st1 = r) :
    parseMultiplicative (f+1) st = r := by
  rw [parseMultiplicative_succ, h1]
  try dsimp only
  exact h2

/-- Computation rule for parseAdditive. -/
theorem c8_add_step (f : Nat) (st st1 : PSt) (e : Expr) (r : Option Expr × PSt)
    (h1 : parseMultiplicative f st = (some e, st1))
    (h2 : parseAdditiveLoop f e st1 = r) :
    parseAdditive (f+1) st = r := by
  rw [parseAdditive_succ, h1]
  try dsimp only
  exact h2

/-- Computation rule for parseComparison. -/
theorem c8_cmp_step (f : Nat) (st st1 : PSt) (e : Expr) (r : Option Expr × PSt)
    (h1 : parseAdditive f st = (some e, st1))
    (h2 : parseComparisonLoop f e st1 = r) :
    parseComparison (f+1) st = r := by
  rw [parseComparison_succ, h1]
  try dsimp only
  exact h2

/-- Computation rule for parseAssignment when no assignment operator
follows. -/
theorem c8_assign_noop_step (f : Nat) (st st1 : PSt) (e : Expr)
    (h1 : parseComparison f st = (some e, st1))
    (h2 : vMatchAny st1 [.EQUALS, .PLUS_EQUALS, .MINUS_EQUALS, .STAR_EQUALS, .SLASH_EQUALS] =
      (false, st1)) :
    parseAssignment (f+1) st = (some e, st1) := by
  rw [parseAssignment_succ, h1]
  try dsimp only
  rw [h2]
  try simp only [c8_ite_tt, c8_ite_ft]
  try dsimp only


/-- Full parse of the call `f(a, ..., a)` with k+1 arguments: the expression
parser returns a call node carrying all k+1 arguments and the reporter it
was given, unchanged. -/
theorem c8_call_parse (k : Nat) (rep : ErrorReporter) :
    parseExpression (k+1+1+1+1+1+1+1+1+1+1+1+1+1+1+1+1+1) ⟨⟨c8Toks k, 0⟩, rep⟩ =
      (some (.callExpr c8Loc fNode (List.replicate (k+1) aNode)),
       ⟨⟨c8Toks k, 2*k + 4⟩, rep⟩) := by
  rw [show c8Toks k = fTok :: lparenTok :: aTok :: c8Rep k from rfl]
  rw [parseExpression_succ]
  obtain ⟨p3, he, hl⟩ := c8_split k [fTok, lparenTok]
  simp only [List.cons_append, List.nil_append, List.length_cons, List.length_nil,
    Nat.zero_add] at he hl
  have h7 := c8_args_loop k [fTok, lparenTok] [] rep
  simp only [List.cons_append, List.nil_append, List.length_cons, List.length_nil,
    Nat.zero_add] at h7
  have m1 := c8_vMatch_ne [] (lparenTok :: aTok :: c8Rep k) fTok rep .LEFT_BRACKET (by decide)
  simp only [List.nil_append, List.length_nil] at m1
  have m2 := c8_vMatch_pos [] (aTok :: c8Rep k) fTok lparenTok rep (by decide) .IDENTIFIER
    (by decide)
  simp only [List.nil_append, List.length_nil, Nat.zero_add] at m2
  have hprev := c8_prev [] (lparenTok :: aTok :: c8Rep k) fTok
  simp only [List.nil_append, List.length_nil, Nat.zero_add] at hprev
  have m3 := c8_vMatch_ne [fTok] (aTok :: c8Rep k) lparenTok rep .DOT (by decide)
  simp only [List.cons_append, List.nil_append, List.length_cons, List.length_nil,
    Nat.zero_add] at m3
  have m4 := c8_vMatch_ne [fTok] (aTok :: c8Rep k) lparenTok rep .LEFT_BRACKET (by decide)
  simp only [List.cons_append, List.nil_append, List.length_cons, List.length_nil,
    Nat.zero_add] at m4
  have m5 := c8_vMatch_pos [fTok] (c8Rep k) lparenTok aTok rep (by decide) .LEFT_PAREN
    (by decide)
  simp only [List.cons_append, List.nil_append, List.length_cons, List.length_nil,
    Nat.zero_add] at m5
  have m6 := c8_vCheck_ne [fTok, lparenTok] (c8Rep k) aTok rep .RIGHT_PAREN (by decide)
  simp only [List.cons_append, List.nil_append, List.length_cons, List.length_nil,
    Nat.zero_add] at m6
  have m8 := c8_vConsume_pos p3 [] rparenTok eofToken rep (by decide) .RIGHT_PAREN (by decide)
    "Expected \x27)\x27 after function arguments"
  rw [← he] at m8
  rw [hl] at m8
  have m9 := c8_postfix_last (k+8) (p3 ++ [rparenTok]) rep
    (.callExpr fNode.loc fNode (List.replicate (k+1) aNode))
  simp only [List.append_assoc, List.cons_append, List.nil_append, List.length_append,
    List.length_cons, List.length_nil, Nat.zero_add] at m9
  rw [← he] at m9
  rw [hl] at m9
  have e1 : parsePostfixOperations (k+10) fNode
      ⟨⟨fTok :: lparenTok :: aTok :: c8Rep k, 1⟩, rep⟩ =
      (some (.callExpr fNode.loc fNode (List.replicate (k+1) aNode)),
       ⟨⟨fTok :: lparenTok :: aTok :: c8Rep k, 1 + 1 + (2*k + 1) + 1⟩, rep⟩) :=
    c8_postfix_call_step (k+9) fNode _ _ _ _ _ _ m3 m4 m5 m6 h7 m8 m9
  have e2 : parsePrimary (k+11) ⟨⟨fTok :: lparenTok :: aTok :: c8Rep k, 0⟩, rep⟩ =
      (some (.callExpr fNode.loc fNode (List.replicate (k+1) aNode)),
       ⟨⟨fTok :: lparenTok :: aTok :: c8Rep k, 1 + 1 + (2*k + 1) + 1⟩, rep⟩) :=
    c8_primary_ident_step (k+10) _ _ fTok _ m1 m2 hprev e1
  have hpeek := c8_peek [] (lparenTok :: aTok :: c8Rep k) fTok
  simp only [List.nil_append, List.length_nil] at hpeek
  have hty : (⟨⟨fTok :: lparenTok :: aTok :: c8Rep k, 0⟩, rep⟩ : PSt).ts.peek.type =
      .IDENTIFIER := by
    rw [show (⟨⟨fTok :: lparenTok :: aTok :: c8Rep k, 0⟩, rep⟩ : PSt).ts.peek = fTok from hpeek]
    rfl
  have e3 : parseUnary (k+12) ⟨⟨fTok :: lparenTok :: aTok :: c8Rep k, 0⟩, rep⟩ =
      (some (.callExpr fNode.loc fNode (List.replicate (k+1) aNode)),
       ⟨⟨fTok :: lparenTok :: aTok :: c8Rep k, 1 + 1 + (2*k + 1) + 1⟩, rep⟩) :=
    c8_unary_ident_step (k+11) _ _ hty e2
  have ml1 := c8_multLoop_last (k+11) (p3 ++ [rparenTok]) rep
    (.callExpr fNode.loc fNode (List.replicate (k+1) aNode))
  simp only [List.append_assoc, List.cons_append, List.nil_append, List.length_append,
    List.length_cons, List.length_nil, Nat.zero_add] at ml1
  rw [← he] at ml1
  rw [hl] at ml1
  have e4 : parseMultiplicative (k+13) ⟨⟨fTok :: lparenTok :: aTok :: c8Rep k, 0⟩, rep⟩ =
      (some (.callExpr fNode.loc fNode (List.replicate (k+1) aNode)),
       ⟨⟨fTok :: lparenTok :: aTok :: c8Rep k, 1 + 1 + (2*k + 1) + 1⟩, rep⟩) :=
    c8_mult_step (k+12) _ _ _ _ e3 ml1
  have ml2 := c8_addLoop_last (k+12) (p3 ++ [rparenTok]) rep
    (.callExpr fNode.loc fNode (List.replicate (k+1) aNode))
  simp only [List.append_assoc, List.cons_append, List.nil_append, List.length_append,
    List.length_cons, List.length_nil, Nat.zero_add] at ml2
  rw [← he] at ml2
  rw [hl] at ml2
  have e5 : parseAdditive (k+14) ⟨⟨fTok :: lparenTok :: aTok :: c8Rep k, 0⟩, rep⟩ =
      (some (.callExpr fNode.loc fNode (List.replicate (k+1) aNode)),
       ⟨⟨fTok :: lparenTok :: aTok :: c8Rep k, 1 + 1 + (2*k + 1) + 1⟩, rep⟩) :=
    c8_add_step (k+13) _ _ _ _ e4 ml2
  have ml3 := c8_cmpLoop_last (k+13) (p3 ++ [rparenTok]) rep
    (.callExpr fNode.loc fNode (List.replicate (k+1) aNode))
  simp only [List.append_assoc, List.cons_append, List.nil_append, List.length_append,
    List.length_cons, List.length_nil, Nat.zero_add] at ml3
  rw [← he] at ml3
  rw [hl] at ml3
  have e6 : parseComparison (k+15) ⟨⟨fTok :: lparenTok :: aTok :: c8Rep k, 0⟩, rep⟩ =
      (some (.callExpr fNode.loc fNode (List.replicate (k+1) aNode)),
       ⟨⟨fTok :: lparenTok :: aTok :: c8Rep k, 1 + 1 + (2*k + 1) + 1⟩, rep⟩) :=
    c8_cmp_step (k+14) _ _ _ _ e5 ml3
  have ml4 := c8_vMatchAny_last (p3 ++ [rparenTok]) rep
    [.EQUALS, .PLUS_EQUALS, .MINUS_EQUALS, .STAR_EQUALS, .SLASH_EQUALS]
  simp only [List.append_assoc, List.cons_append, List.nil_append, List.length_append,
    List.length_cons, List.length_nil, Nat.zero_add] at ml4
  rw [← he] at ml4
  rw [hl] at ml4
  have e7 : parseAssignment (k+16) ⟨⟨fTok :: lparenTok :: aTok :: c8Rep k, 0⟩, rep⟩ =
      (some (.callExpr fNode.loc fNode (List.replicate (k+1) aNode)),
       ⟨⟨fTok :: lparenTok :: aTok :: c8Rep k, 1 + 1 + (2*k + 1) + 1⟩, rep⟩) :=
    c8_assign_noop_step (k+15) _ _ _ e6 ml4
  rw [show (2*k + 4 : Nat) = 1 + 1 + (2*k + 1) + 1 from by omega]
  exact e7

/-- C8 (amended): the argument-list limit claimed by the spec is not
enforced on the active expression-parsing path.  (1) For every k, the
expression parser parses the call `f(a, ..., a)` with k+1 arguments —
in particular more than 255 — into a call node, leaving the error
reporter untouched; the code path actually taken
(parsePostfixOperations / postfixCallArguments) has no argument-count
check.  (2) The 255-argument check and the diagnostic "Cannot have more
than 255 arguments" live only in CallExpressionVisitor::finishCall
(finishCallArguments), which is not reachable from the active
expression grammar: there, an accumulated list of at least 255
arguments yields the diagnostic and the null sentinel. -/
theorem c8_amended_argument_limit :
    (∀ (k : Nat) (rep : ErrorReporter),
      parseExpression (k+17) ⟨⟨c8Toks k, 0⟩, rep⟩ =
        (some (.callExpr c8Loc fNode (List.replicate (k+1) aNode)),
         ⟨⟨c8Toks k, 2*k + 4⟩, rep⟩)) ∧
    (∀ (fuel : Nat) (acc : List Expr) (st : PSt), 255 ≤ acc.length →
      finishCallArguments (fuel+1) acc st =
        (none, vError st "Cannot have more than 255 arguments")) := by
  constructor
  · intro k rep
    exact c8_call_parse k rep
  · intro fuel acc st hlen
    rw [finishCallArguments_succ, if_pos hlen]

/-- Witness for C8 (amended) at concrete inputs: a 2-argument call parses,
and finishCallArguments with 255 accumulated arguments errors out. -/
theorem c8_amended_argument_limit_witness :
    parseExpression 18 ⟨⟨c8Toks 1, 0⟩, rep0⟩ =
      (some (.callExpr c8Loc fNode (List.replicate 2 aNode)),
       ⟨⟨c8Toks 1, 6⟩, rep0⟩) ∧
    finishCallArguments 1 (List.replicate 255 aNode) ⟨⟨[eofToken], 0⟩, rep0⟩ =
      (none, vError ⟨⟨[eofToken], 0⟩, rep0⟩ "Cannot have more than 255 arguments") :=
  ⟨c8_amended_argument_limit.1 1 rep0,
   c8_amended_argument_limit.2 0 (List.replicate 255 aNode) ⟨⟨[eofToken], 0⟩, rep0⟩
     (by simp)⟩

/-- C8 counterexample: the call `f(a, ..., a)` with 256 arguments — above
the claimed 255-argument limit — is parsed by the expression parser into a
call node with all 256 arguments, and the error reporter passes through
unchanged (no diagnostic at all). -/
theorem c8_counterexample_256_args :
    parseExpression 272 ⟨⟨c8Toks 255, 0⟩, rep0⟩ =
      (some (.callExpr c8Loc fNode (List.replicate 256 aNode)),
       ⟨⟨c8Toks 255, 514⟩, rep0⟩) ∧
    255 < (List.replicate 256 aNode).length :=
  ⟨c8_call_parse 255 rep0, by simp⟩

end Vis
